import Mathlib

/-
Verification of the CLP timestamp-pattern component and the archive writer
file comparator.

The definitions below are a shallow embedding of src/TimestampPattern.cpp and
of the comparator in src/streaming_archive/writer/Archive.hpp.  Strings are
modelled as lists of characters; machine integers as Nat and Int (the C++
values involved never overflow); C++ functions that report failure through a
bool or an exception are modelled with Option and Except.  The calendar
arithmetic is the one of the bundled date library (days_from_civil,
civil_from_days, year_month_day::ok), transcribed operation for operation;
C++ truncating integer division is Int.tdiv.
-/

/-- Value of a decimal digit character. -/
def digitVal (c : Char) : Nat := c.toNat - 48

/-- The test a character is a decimal digit, as written in
convert_string_to_number (c < 48 or c > 57 rejects). -/
def isDigitCh (c : Char) : Bool := 48 ≤ c.toNat && c.toNat ≤ 57

/-- convert_string_to_number from TimestampPattern.cpp, applied to the slice
of the line it is given: consume leading padding characters, then every
remaining character must be a digit; the digits are folded into a value. -/
def convert_string_to_number (pad : Char) (s : List Char) : Option Nat :=
  let rest := s.dropWhile (fun c => c = pad)
  if rest.all isDigitCh then some (rest.foldl (fun a c => a * 10 + digitVal c) 0) else none

/-- Decimal digits of n, least significant first; fuel-structured so that it
reduces in the kernel.  Fuel n suffices since a number has at most n digits. -/
def digitsRevAux : Nat → Nat → List Char
  | 0, _ => []
  | fuel + 1, n => if n = 0 then [] else Char.ofNat (48 + n % 10) :: digitsRevAux fuel (n / 10)

/-- std::to_string for a natural number. -/
def natToString (n : Nat) : List Char :=
  if n = 0 then ['0'] else (digitsRevAux n n).reverse

/-- append_padded_value from TimestampPattern.cpp: the chunk appended for a
value rendered at the given length with the given padding character. -/
def append_padded_value (value : Nat) (padding : Char) (length : Nat) : List Char :=
  List.replicate (length - (natToString value).length) padding ++ natToString value

/-- cAbbrevDaysOfWeek. -/
def cAbbrevDaysOfWeek : List (List Char) :=
  [['S','u','n'], ['M','o','n'], ['T','u','e'], ['W','e','d'], ['T','h','u'], ['F','r','i'], ['S','a','t']]

/-- cAbbrevMonthNames. -/
def cAbbrevMonthNames : List (List Char) :=
  [['J','a','n'], ['F','e','b'], ['M','a','r'], ['A','p','r'], ['M','a','y'], ['J','u','n'],
   ['J','u','l'], ['A','u','g'], ['S','e','p'], ['O','c','t'], ['N','o','v'], ['D','e','c']]

/-- cMonthNames. -/
def cMonthNames : List (List Char) :=
  [['J','a','n','u','a','r','y'], ['F','e','b','r','u','a','r','y'], ['M','a','r','c','h'],
   ['A','p','r','i','l'], ['M','a','y'], ['J','u','n','e'], ['J','u','l','y'],
   ['A','u','g','u','s','t'], ['S','e','p','t','e','m','b','e','r'], ['O','c','t','o','b','e','r'],
   ['N','o','v','e','m','b','e','r'], ['D','e','c','e','m','b','e','r']]

/-- First-match scan over a list of names, as the for loops over
cMonthNames, cAbbrevMonthNames and cAbbrevDaysOfWeek do with
line.compare(line_ix, length, name): returns the index of the first name
that equals the next characters of the line, and the rest of the line. -/
def matchNameIx : List (List Char) → List Char → Option (Nat × List Char)
  | [], _ => none
  | nm :: names, s =>
    if s.take nm.length = nm then some (0, s.drop nm.length)
    else (matchNameIx names s).map (fun p => (p.1 + 1, p.2))

/-- The century pivot applied by the %y parse case: a value of 69 to 99 is
placed in the 1900s, below 69 in the 2000s. -/
def twoDigitToYear (v : Nat) : Nat := if 69 ≤ v then v + 1900 else v + 2000

/-- Reading a fixed-width numeric field: the line must have at least len
characters left (else the case returns false as being too short), and the
slice goes through convert_string_to_number. -/
def readNum (len : Nat) (pad : Char) (s : List Char) : Option (Nat × List Char) :=
  if len ≤ s.length then
    (convert_string_to_number pad (s.take len)).map (fun v => (v, s.drop len))
  else none

/-- The fields accumulated by parse_timestamp, with their initializers. -/
structure PState where
  date : Nat
  month : Nat
  year : Nat
  hour : Nat
  uses_12_hour_clock : Bool
  minute : Nat
  second : Nat
  millisecond : Nat
  is_pm : Bool
deriving DecidableEq, Repr

/-- Initial field values of parse_timestamp. -/
def initPState : PState :=
  { date := 1, month := 1, year := 1970, hour := 0, uses_12_hour_clock := false,
    minute := 0, second := 0, millisecond := 0, is_pm := false }

/-- A numeric field case of the parse_timestamp switch: read the
fixed-width field, check the value bounds, update the state. -/
def numField (len : Nat) (pad : Char) (P : Nat → Bool) (f : Nat → PState) (x : List Char) :
    Option (PState × List Char) :=
  match readNum len pad x with
  | some (v, r) => if P v then some (f v, r) else none
  | none => none

/-- A name field case of the parse_timestamp switch: match one of the names,
update the state from its index. -/
def nameField (names : List (List Char)) (f : Nat → PState) (x : List Char) :
    Option (PState × List Char) :=
  match matchNameIx names x with
  | some (ix, r) => some (f ix, r)
  | none => none

/-- The switch of parse_timestamp over a single format specifier: given the
specifier character and the remaining line, consume the field and update the
parse state, or fail.  An unknown specifier is the default switch case,
which returns false. -/
def parseSpec (sp : Char) (x : List Char) (st : PState) : Option (PState × List Char) :=
  match sp with
  | '%' =>
    match x with
    | c :: r => if c = '%' then some (st, r) else none
    | [] => none
  | 'y' => numField 2 '0' (fun v => v ≤ 99) (fun v => { st with year := twoDigitToYear v }) x
  | 'Y' => numField 4 '0' (fun v => v ≤ 9999) (fun v => { st with year := v }) x
  | 'B' => nameField cMonthNames (fun ix => { st with month := ix + 1 }) x
  | 'b' => nameField cAbbrevMonthNames (fun ix => { st with month := ix + 1 }) x
  | 'm' => numField 2 '0' (fun v => 1 ≤ v && v ≤ 12) (fun v => { st with month := v }) x
  | 'd' => numField 2 '0' (fun v => 1 ≤ v && v ≤ 31) (fun v => { st with date := v }) x
  | 'e' => numField 2 ' ' (fun v => 1 ≤ v && v ≤ 31) (fun v => { st with date := v }) x
  | 'a' => nameField cAbbrevDaysOfWeek (fun _ => st) x
  | 'p' =>
    if x.take 2 = ['A','M'] then some ({ st with is_pm := false }, x.drop 2)
    else if x.take 2 = ['P','M'] then some ({ st with is_pm := true }, x.drop 2)
    else none
  | 'H' => numField 2 '0' (fun v => v ≤ 23) (fun v => { st with hour := v }) x
  | 'k' => numField 2 ' ' (fun v => v ≤ 23) (fun v => { st with hour := v }) x
  | 'I' => numField 2 '0' (fun v => 1 ≤ v && v ≤ 12)
      (fun v => { st with hour := v, uses_12_hour_clock := true }) x
  | 'l' => numField 2 ' ' (fun v => 1 ≤ v && v ≤ 12)
      (fun v => { st with hour := v, uses_12_hour_clock := true }) x
  | 'M' => numField 2 '0' (fun v => v ≤ 59) (fun v => { st with minute := v }) x
  | 'S' => numField 2 '0' (fun v => v ≤ 60) (fun v => { st with second := v }) x
  | '3' => numField 3 '0' (fun v => v ≤ 999) (fun v => { st with millisecond := v }) x
  | _ => none

/-- The main loop of parse_timestamp over the format string.  The first
argument is the remaining format, the second the remaining line; the loop
stops as soon as the line is exhausted, and acceptance then requires the
format to be exhausted as well.  A format that ends in a bare percent is
accepted with nothing consumed for it, exactly as the C++ loop does with its
dangling is_specifier state. -/
def runFmt : List Char → List Char → PState → Option (PState × List Char)
  | [], s, st => some (st, s)
  | _ :: _, [], _ => none
  | ['%'], c :: s, st => some (st, c :: s)
  | '%' :: sp :: fmt, c :: s, st =>
    match parseSpec sp (c :: s) st with
    | some (st2, r) => runFmt fmt r st2
    | none => none
  | f :: fmt, c :: s, st => if f = c then runFmt fmt s st else none

/-- The 12-hour post-processing of parse_timestamp: 12 AM is 0, 12 PM stays
12, any other PM hour gains 12. -/
def fix12Hour (st : PState) : Nat :=
  if st.uses_12_hour_clock then
    if st.hour = 12 then (if st.is_pm then 12 else 0)
    else (if st.is_pm then st.hour + 12 else st.hour)
  else st.hour

/-- year::is_leap of the date library. -/
def yearIsLeap (y : Int) : Bool := y % 4 = 0 && (y % 100 ≠ 0 || y % 400 = 0)

/-- Number of days of a month, with February depending on leapness. -/
def last_day_of_month (y : Int) (m : Nat) : Nat :=
  if m = 2 then (if yearIsLeap y then 29 else 28)
  else if m = 4 ∨ m = 6 ∨ m = 9 ∨ m = 11 then 30 else 31

/-- year_month_day::ok of the date library: year in the representable range,
month between 1 and 12, day between 1 and the last day of the month. -/
def ymdOk (y : Int) (m d : Nat) : Bool :=
  -32767 ≤ y && y ≤ 32767 && 1 ≤ m && m ≤ 12 && 1 ≤ d && d ≤ last_day_of_month y m

/-- days_from_civil of the date library: serial day number of a civil date,
day 0 being 1970-01-01.  The conditional before the division makes the
truncating C++ division act as a floor. -/
def days_from_civil (y : Int) (m d : Nat) : Int :=
  let y2 := y - (if m ≤ 2 then 1 else 0)
  let era : Int := (if 0 ≤ y2 then y2 else y2 - 399).tdiv 400
  let yoe : Nat := (y2 - era * 400).toNat
  let doy : Nat := (153 * (if 2 < m then m - 3 else m + 9) + 2) / 5 + d - 1
  let doe : Nat := 365 * yoe + yoe / 4 - yoe / 100 + doy
  era * 146097 + (doe : Int) - 719468

/-- civil_from_days of the date library: inverse of days_from_civil,
returning (year, month, day). -/
def civil_from_days (z : Int) : Int × Nat × Nat :=
  let z2 := z + 719468
  let era : Int := (if 0 ≤ z2 then z2 else z2 - 146096).tdiv 146097
  let doe : Nat := (z2 - era * 146097).toNat
  let yoe : Nat := (doe - doe / 1460 + doe / 36524 - doe / 146096) / 365
  let y : Int := (yoe : Int) + era * 400
  let doy : Nat := doe - (365 * yoe + yoe / 4 - yoe / 100)
  let mp : Nat := (5 * doy + 2) / 153
  let d : Nat := doy - (153 * mp + 2) / 5 + 1
  let m : Nat := if mp < 10 then mp + 3 else mp - 9
  (y + (if m ≤ 2 then 1 else 0), m, d)

/-- The epoch-millisecond value parse_timestamp computes from its fields. -/
def tsOf (year : Int) (month date hour minute second millisecond : Nat) : Int :=
  days_from_civil year month date * 86400000 + hour * 3600000 + minute * 60000
    + second * 1000 + millisecond

/-- A timestamp pattern: a number of spaces preceding the timestamp and a
format string. -/
structure TimestampPattern where
  num_spaces_before_ts : Nat
  format : String
deriving DecidableEq, Repr

/-- The space-scanning loop shared by parse_timestamp and
insert_formatted_timestamp: find the position just after the n-th space,
returning the consumed prefix and the rest, or nothing when the whole string
holds fewer than n spaces. -/
def afterNthSpace : Nat → List Char → Option (List Char × List Char)
  | 0, s => some ([], s)
  | _ + 1, [] => none
  | n + 1, c :: s =>
    (afterNthSpace (if c = ' ' then n else n + 1) s).map (fun p => (c :: p.1, p.2))

/-- parse_timestamp: scan the preamble spaces, run the format over the line,
post-process the 12-hour clock, validate the calendar date, and produce
(timestamp, timestamp_begin_pos, timestamp_end_pos).  None corresponds to the
C++ function returning false, in which case the out-parameters are
untouched. -/
def parse_timestamp_core (p : TimestampPattern) (line : List Char) : Option (Int × Nat × Nat) :=
  match afterNthSpace p.num_spaces_before_ts line with
  | none => none
  | some (pre, rest) =>
    match runFmt p.format.toList rest initPState with
    | none => none
    | some (st, left) =>
      if ymdOk (st.year : Int) st.month st.date then
        some (tsOf (st.year : Int) st.month st.date (fix12Hour st) st.minute st.second st.millisecond,
              pre.length, line.length - left.length)
      else none

/-- parse_timestamp with the C++ out-parameter protocol: the returned triple
keeps the given values when the parse fails. -/
def parse_timestamp (p : TimestampPattern) (line : List Char) (timestamp : Int)
    (timestamp_begin_pos timestamp_end_pos : Nat) : Bool × Int × Nat × Nat :=
  match parse_timestamp_core p line with
  | some (t, b, e) => (true, t, b, e)
  | none => (false, timestamp, timestamp_begin_pos, timestamp_end_pos)

/-- The catalog built by TimestampPattern::init, in its order. -/
def m_known_ts_patterns : List TimestampPattern :=
  [⟨0, "%Y-%m-%dT%H:%M:%S.%3"⟩,
   ⟨0, "%Y-%m-%dT%H:%M:%S,%3"⟩,
   ⟨0, "[%Y-%m-%dT%H:%M:%S"⟩,
   ⟨0, "[%Y%m%d-%H:%M:%S]"⟩,
   ⟨0, "%Y-%m-%d %H:%M:%S,%3"⟩,
   ⟨0, "%Y-%m-%d %H:%M:%S.%3"⟩,
   ⟨0, "[%Y-%m-%d %H:%M:%S,%3]"⟩,
   ⟨0, "%Y-%m-%d %H:%M:%S"⟩,
   ⟨1, "%Y-%m-%d  %H:%M:%S"⟩,
   ⟨0, "%Y/%m/%d %H:%M:%S"⟩,
   ⟨0, "%y/%m/%d %H:%M:%S"⟩,
   ⟨0, "%y%m%d %k:%M:%S"⟩,
   ⟨0, "%d %b %Y %H:%M:%S,%3"⟩,
   ⟨0, "%b %d, %Y %l:%M:%S %p"⟩,
   ⟨0, "%B %d, %Y %H:%M"⟩,
   ⟨1, "[%d/%b/%Y:%H:%M:%S"⟩,
   ⟨3, "[%d/%b/%Y:%H:%M:%S"⟩,
   ⟨3, "[%d/%m/%Y:%H:%M:%S"⟩,
   ⟨2, "%Y-%m-%d %H:%M:%S,%3"⟩,
   ⟨6, "%Y-%m-%d %H:%M:%S"⟩,
   ⟨1, "%Y-%m-%d %H:%M:%S"⟩,
   ⟨4, "%a %b %e %H:%M:%S %Y"⟩,
   ⟨0, "<<<%Y-%m-%d %H:%M:%S:%3"⟩,
   ⟨0, "%b %d %H:%M:%S"⟩]

/-- The loop inside search_known_ts_patterns, tracking the index of the
pattern being tried. -/
def searchAux : List TimestampPattern → Nat → List Char → Option (Nat × Int × Nat × Nat)
  | [], _, _ => none
  | p :: ps, i, line =>
    match parse_timestamp_core p line with
    | some (t, b, e) => some (i, t, b, e)
    | none => searchAux ps (i + 1) line

/-- search_known_ts_patterns stripped of its out-parameter protocol: the
index of the first catalog pattern that parses the line, with the parsed
timestamp and positions. -/
def search_core (line : List Char) : Option (Nat × Int × Nat × Nat) :=
  searchAux m_known_ts_patterns 0 line

/-- std::string::npos on a 64-bit platform. -/
def npos : Nat := 18446744073709551615

/-- search_known_ts_patterns with the C++ out-parameter protocol: on failure
the pattern pointer is null, both positions are set to npos, and the
timestamp out-parameter keeps its incoming value. -/
def search_known_ts_patterns (line : List Char) (timestamp : Int)
    (_timestamp_begin_pos _timestamp_end_pos : Nat) : Option Nat × Int × Nat × Nat :=
  match search_core line with
  | some (i, t, b, e) => (some i, t, b, e)
  | none => (none, timestamp, npos, npos)

/-- The two failure modes of insert_formatted_timestamp: the operation-failed
throw when the message holds fewer spaces than the pattern, and the throw on
a format specifier the formatter does not know. -/
inductive InsertError
  | opFailed
  | unsupportedSpecifier
deriving DecidableEq, Repr

/-- The components insert_formatted_timestamp separates a timestamp into. -/
structure TsParts where
  year : Int
  month : Nat
  date : Nat
  day_of_week_ix : Nat
  hour : Nat
  minute : Nat
  second : Nat
  millisecond : Nat
deriving DecidableEq, Repr

/-- Separate parts of timestamp: floor the epoch-millisecond value to days
(date::floor, a floor division by a positive constant), recover the civil
date and weekday, and split the time of day. -/
def decompose_ts (ts : Int) : TsParts :=
  let z : Int := Int.ediv ts 86400000
  let tod : Nat := (ts - z * 86400000).toNat
  let ymd := civil_from_days z
  { year := ymd.1, month := ymd.2.1, date := ymd.2.2,
    day_of_week_ix := ((z + 4).emod 7).toNat,
    hour := tod / 3600000, minute := tod % 3600000 / 60000,
    second := tod % 60000 / 1000, millisecond := tod % 1000 }

/-- The inverse century pivot applied by the %y format case: years 2000 and
later emit their offset from 2000, earlier years their offset from 1900. -/
def yearToTwoDigit (y : Int) : Nat :=
  if 2000 ≤ y then (y - 2000).toNat else (y - 1900).toNat

/-- The 12-hour value emitted for %I and %l: hour 0 becomes 12, and 12 is
subtracted only for hours strictly above 13, faithfully reproducing the
comparison written in the source. -/
def hour12Out (hour : Nat) : Nat :=
  if hour = 0 then 12 else if 13 < hour then hour - 12 else hour

/-- The text a single format specifier appends in
insert_formatted_timestamp; none for a specifier outside the supported
alphabet, on which the C++ switch throws ErrorCode_Unsupported. -/
def specOut (sp : Char) (t : TsParts) : Option (List Char) :=
  match sp with
  | '%' => some ['%']
  | 'y' => some (append_padded_value (yearToTwoDigit t.year) '0' 2)
  | 'Y' => some (append_padded_value t.year.toNat '0' 4)
  | 'B' => some (cMonthNames.getD (t.month - 1) [])
  | 'b' => some (cAbbrevMonthNames.getD (t.month - 1) [])
  | 'm' => some (append_padded_value t.month '0' 2)
  | 'd' => some (append_padded_value t.date '0' 2)
  | 'e' => some (append_padded_value t.date ' ' 2)
  | 'a' => some (cAbbrevDaysOfWeek.getD t.day_of_week_ix [])
  | 'p' => some (if 11 < t.hour then ['P','M'] else ['A','M'])
  | 'H' => some (append_padded_value t.hour '0' 2)
  | 'k' => some (append_padded_value t.hour ' ' 2)
  | 'I' => some (append_padded_value (hour12Out t.hour) '0' 2)
  | 'l' => some (append_padded_value (hour12Out t.hour) ' ' 2)
  | 'M' => some (append_padded_value t.minute '0' 2)
  | 'S' => some (append_padded_value t.second '0' 2)
  | '3' => some (append_padded_value t.millisecond '0' 3)
  | _ => none

/-- The format loop of insert_formatted_timestamp: literals are copied,
specifiers emit their field text, a dangling final percent emits nothing. -/
def format_fields : List Char → TsParts → Except InsertError (List Char)
  | [], _ => .ok []
  | ['%'], _ => .ok []
  | '%' :: sp :: fmt, t =>
    match specOut sp t with
    | some out => (format_fields fmt t).map (fun tail => out ++ tail)
    | none => .error .unsupportedSpecifier
  | ch :: fmt, t => (format_fields fmt t).map (fun tail => ch :: tail)

/-- The full timestamp text a pattern renders for a timestamp. -/
def formatBody (p : TimestampPattern) (ts : Int) : Except InsertError (List Char) :=
  format_fields p.format.toList (decompose_ts ts)

/-- insert_formatted_timestamp: find the position after the pattern count of
spaces (throwing ErrorCode_Failure when the message has too few spaces, the
message then left unchanged), and rebuild the message as the text before that
position, the formatted timestamp, and the text after it. -/
def insert_formatted_timestamp (p : TimestampPattern) (ts : Int) (msg : List Char) :
    Except InsertError (List Char) :=
  match afterNthSpace p.num_spaces_before_ts msg with
  | none => .error .opFailed
  | some (pre, rest) =>
    (formatBody p ts).map (fun body => pre ++ body ++ rest)

/-- A file as seen by the archive writer comparator: group id, end
timestamp, original path and file id. -/
structure ArchiveFile where
  group_id : Nat
  end_ts : Int
  orig_path : String
  id : Nat
deriving DecidableEq, Repr

/-- FileGroupIdAndEndTimestampLTSetComparator::operator() from
streaming_archive/writer/Archive.hpp: compare by group id, then end
timestamp, then path, then id. -/
def fileGroupIdAndEndTimestampLT (lhs rhs : ArchiveFile) : Bool :=
  if lhs.group_id ≠ rhs.group_id then decide (lhs.group_id < rhs.group_id)
  else if lhs.end_ts ≠ rhs.end_ts then decide (lhs.end_ts < rhs.end_ts)
  else if lhs.orig_path ≠ rhs.orig_path then decide (lhs.orig_path < rhs.orig_path)
  else decide (lhs.id < rhs.id)

/-- Number of ASCII spaces in a string. -/
def countSpaces : List Char → Nat
  | [] => 0
  | c :: s => (if c = ' ' then 1 else 0) + countSpaces s


/-- A civil time: the calendar and clock components a timestamp pattern
renders and parses. -/
structure CivilTime where
  year : Int
  month : Nat
  date : Nat
  hour : Nat
  minute : Nat
  second : Nat
  millisecond : Nat
deriving DecidableEq, Repr

/-- The components denote a real calendar date and a real time of day. -/
def validCivil (c : CivilTime) : Bool :=
  ymdOk c.year c.month c.date && c.hour ≤ 23 && c.minute ≤ 59 && c.second ≤ 59
    && c.millisecond ≤ 999

/-- The epoch-millisecond timestamp of a civil time, through the same
day-count computation parse_timestamp performs. -/
def civilTs (c : CivilTime) : Int :=
  tsOf c.year c.month c.date c.hour c.minute c.second c.millisecond

/-- Whether a format string holds the given conversion specifier: the
scan pairs each percent with the character after it, as the format loops
do. -/
def fmtHasSpec : List Char → Char → Bool
  | '%' :: c :: fmt, sp => c = sp || fmtHasSpec fmt sp
  | _ :: fmt, sp => fmtHasSpec fmt sp
  | [], _ => false

/-- The part of a civil time a format can represent: without a year
specifier the parser is left with its initializer year 1970, without %S
the second stays 0, and without %3 the millisecond stays 0. -/
def truncCivil (fmt : List Char) (c : CivilTime) : CivilTime :=
  { c with
    year := if fmtHasSpec fmt 'Y' || fmtHasSpec fmt 'y' then c.year else 1970,
    second := if fmtHasSpec fmt 'S' then c.second else 0,
    millisecond := if fmtHasSpec fmt '3' then c.millisecond else 0 }

-- ===== end of definitions =====

theorem afterNthSpace_spec {n : Nat} {s : List Char} :
    ∀ {pre rest : List Char}, afterNthSpace n s = some (pre, rest) →
      s = pre ++ rest ∧ countSpaces pre = n ∧
      (∀ tail, afterNthSpace n (pre ++ tail) = some (pre, tail)) ∧
      (0 < n → ∃ pre2, pre = pre2 ++ [' ']) ∧ (n = 0 → pre = []) := by
  induction n, s using afterNthSpace.induct with
  | case1 s =>
    intro pre rest h
    simp only [afterNthSpace, Option.some.injEq, Prod.mk.injEq] at h
    obtain ⟨h1, h2⟩ := h
    subst h1; subst h2
    exact ⟨rfl, rfl, fun tail => by simp [afterNthSpace], fun h => absurd h (by omega), fun _ => rfl⟩
  | case2 n =>
    intro pre rest h
    simp [afterNthSpace] at h
  | case3 n c s ih =>
    intro pre rest h
    simp only [afterNthSpace, Option.map_eq_some'] at h
    obtain ⟨⟨p1, p2⟩, hrec, heq⟩ := h
    cases heq
    obtain ⟨hjoin, hcount, htail, hlast, hzero⟩ := ih hrec
    refine ⟨by simp [hjoin], ?_, ?_, ?_, fun h => absurd h n.succ_ne_zero⟩
    · simp only [countSpaces]
      split_ifs at hcount ⊢ <;> omega
    · intro tail
      simp only [List.cons_append, afterNthSpace, List.append_eq, htail tail, Option.map_some']
    · intro _
      by_cases hc : c = ' '
      · subst hc
        simp only [if_pos rfl] at hrec hcount htail hlast hzero
        rcases Nat.eq_zero_or_pos n with hn | hn
        · exact ⟨[], by simp [hzero hn]⟩
        · obtain ⟨q, hq⟩ := hlast hn
          exact ⟨' ' :: q, by simp [hq]⟩
      · simp only [if_neg hc] at hrec hcount htail hlast hzero
        obtain ⟨q, hq⟩ := hlast (by omega)
        exact ⟨c :: q, by simp [hq]⟩

theorem afterNthSpace_none_iff {n : Nat} {s : List Char} :
    afterNthSpace n s = none ↔ countSpaces s < n := by
  induction n, s using afterNthSpace.induct with
  | case1 s => simp [afterNthSpace]
  | case2 n => simp [afterNthSpace, countSpaces]
  | case3 n c s ih =>
    simp only [afterNthSpace, Option.map_eq_none', countSpaces]
    rw [ih]
    split_ifs <;> omega

/-- C3: search_known_ts_patterns, trying catalog entries in order and
returning the first match, resolves the two documented lines to the
documented catalog entries, timestamps and positions: the apport line to the
pattern with four spaces and format %a %b %e %H:%M:%S %Y at positions 25 to
49 with epoch 1422752523000, and the localhost line to the pattern with
three spaces and format [%d/%b/%Y:%H:%M:%S at positions 14 to 35 with the
same epoch. -/
theorem C3_search_selects_documented_patterns :
    search_core "ERROR: apport (pid 4557) Sun Feb  1 01:02:03 2015 after".toList
        = some (21, 1422752523000, 25, 49) ∧
    m_known_ts_patterns.get? 21 = some ⟨4, "%a %b %e %H:%M:%S %Y"⟩ ∧
    search_core "localhost - - [01/Feb/2015:01:02:03 content after".toList
        = some (16, 1422752523000, 14, 35) ∧
    m_known_ts_patterns.get? 16 = some ⟨3, "[%d/%b/%Y:%H:%M:%S"⟩ := by
  refine ⟨by decide, by decide, by decide, by decide⟩

theorem fileLT_iff (a b : ArchiveFile) :
    fileGroupIdAndEndTimestampLT a b = true ↔
      a.group_id < b.group_id ∨ (a.group_id = b.group_id ∧
        (a.end_ts < b.end_ts ∨ (a.end_ts = b.end_ts ∧
          (a.orig_path < b.orig_path ∨ (a.orig_path = b.orig_path ∧ a.id < b.id))))) := by
  unfold fileGroupIdAndEndTimestampLT
  split_ifs with h1 h2 h3 <;>
    simp_all [decide_eq_true_iff, lt_irrefl]

/-- C9: the archive file-set comparator is a strict total order on files
with distinct ids, comparing lexicographically by group id ascending, end
timestamp ascending, original path lexicographically, then file id
ascending: it is irreflexive and transitive, any two files are ordered
unless all four key components agree, two files are mutually unordered
exactly when all four components agree, and the comparison is decided by the
earliest differing component. -/
theorem C9_file_comparator_strict_total_order :
    (∀ a : ArchiveFile, fileGroupIdAndEndTimestampLT a a = false) ∧
    (∀ a b c : ArchiveFile, fileGroupIdAndEndTimestampLT a b = true →
      fileGroupIdAndEndTimestampLT b c = true → fileGroupIdAndEndTimestampLT a c = true) ∧
    (∀ a b : ArchiveFile, fileGroupIdAndEndTimestampLT a b = true ∨
      fileGroupIdAndEndTimestampLT b a = true ∨
      (a.group_id = b.group_id ∧ a.end_ts = b.end_ts ∧ a.orig_path = b.orig_path ∧ a.id = b.id)) ∧
    (∀ a b : ArchiveFile, (fileGroupIdAndEndTimestampLT a b = false ∧
        fileGroupIdAndEndTimestampLT b a = false) ↔
      (a.group_id = b.group_id ∧ a.end_ts = b.end_ts ∧ a.orig_path = b.orig_path ∧ a.id = b.id)) ∧
    (∀ a b : ArchiveFile, fileGroupIdAndEndTimestampLT a b = true ↔
      a.group_id < b.group_id ∨ (a.group_id = b.group_id ∧
        (a.end_ts < b.end_ts ∨ (a.end_ts = b.end_ts ∧
          (a.orig_path < b.orig_path ∨ (a.orig_path = b.orig_path ∧ a.id < b.id)))))) := by
  refine ⟨?_, ?_, ?_, ?_, fileLT_iff⟩
  · intro a
    rw [Bool.eq_false_iff]
    intro h
    have h2 := (fileLT_iff a a).mp h
    simp at h2
  · intro a b c hab hbc
    rw [fileLT_iff] at hab hbc ⊢
    rcases hab with h1 | ⟨e1, h1⟩ <;> rcases hbc with h2 | ⟨e2, h2⟩
    · exact Or.inl (h1.trans h2)
    · exact Or.inl (e2 ▸ h1)
    · exact Or.inl (e1 ▸ h2)
    · refine Or.inr ⟨e1.trans e2, ?_⟩
      rcases h1 with h1 | ⟨f1, h1⟩ <;> rcases h2 with h2 | ⟨f2, h2⟩
      · exact Or.inl (h1.trans h2)
      · exact Or.inl (f2 ▸ h1)
      · exact Or.inl (f1 ▸ h2)
      · refine Or.inr ⟨f1.trans f2, ?_⟩
        rcases h1 with h1 | ⟨g1, h1⟩ <;> rcases h2 with h2 | ⟨g2, h2⟩
        · exact Or.inl (h1.trans h2)
        · exact Or.inl (g2 ▸ h1)
        · exact Or.inl (g1 ▸ h2)
        · exact Or.inr ⟨g1.trans g2, h1.trans h2⟩
  · intro a b
    rcases lt_trichotomy a.group_id b.group_id with h | h | h
    · exact Or.inl ((fileLT_iff a b).mpr (Or.inl h))
    · rcases lt_trichotomy a.end_ts b.end_ts with h2 | h2 | h2
      · exact Or.inl ((fileLT_iff a b).mpr (Or.inr ⟨h, Or.inl h2⟩))
      · rcases lt_trichotomy a.orig_path b.orig_path with h3 | h3 | h3
        · exact Or.inl ((fileLT_iff a b).mpr (Or.inr ⟨h, Or.inr ⟨h2, Or.inl h3⟩⟩))
        · rcases lt_trichotomy a.id b.id with h4 | h4 | h4
          · exact Or.inl ((fileLT_iff a b).mpr (Or.inr ⟨h, Or.inr ⟨h2, Or.inr ⟨h3, h4⟩⟩⟩))
          · exact Or.inr (Or.inr ⟨h, h2, h3, h4⟩)
          · exact Or.inr (Or.inl ((fileLT_iff b a).mpr
              (Or.inr ⟨h.symm, Or.inr ⟨h2.symm, Or.inr ⟨h3.symm, h4⟩⟩⟩)))
        · exact Or.inr (Or.inl ((fileLT_iff b a).mpr (Or.inr ⟨h.symm, Or.inr ⟨h2.symm, Or.inl h3⟩⟩)))
      · exact Or.inr (Or.inl ((fileLT_iff b a).mpr (Or.inr ⟨h.symm, Or.inl h2⟩)))
    · exact Or.inr (Or.inl ((fileLT_iff b a).mpr (Or.inl h)))
  · intro a b
    constructor
    · rintro ⟨hab, hba⟩
      by_contra hne
      have h1 : ¬ fileGroupIdAndEndTimestampLT a b = true := by simp [hab]
      have h2 : ¬ fileGroupIdAndEndTimestampLT b a = true := by simp [hba]
      rw [fileLT_iff] at h1 h2
      push_neg at h1 h2
      rcases lt_trichotomy a.group_id b.group_id with h | h | h
      · exact absurd h (not_lt.mpr h1.1)
      · rcases lt_trichotomy a.end_ts b.end_ts with h3 | h3 | h3
        · exact absurd h3 (not_lt.mpr (h1.2 h).1)
        · rcases lt_trichotomy a.orig_path b.orig_path with h4 | h4 | h4
          · exact absurd h4 (not_lt.mpr ((h1.2 h).2 h3).1)
          · rcases lt_trichotomy a.id b.id with h5 | h5 | h5
            · exact absurd h5 (not_lt.mpr (((h1.2 h).2 h3).2 h4))
            · exact hne ⟨h, h3, h4, h5⟩
            · exact absurd h5 (not_lt.mpr (((h2.2 h.symm).2 h3.symm).2 h4.symm))
          · exact absurd h4 (not_lt.mpr ((h2.2 h.symm).2 h3.symm).1)
        · exact absurd h3 (not_lt.mpr (h2.2 h.symm).1)
      · exact absurd h (not_lt.mpr h2.1)
    · rintro ⟨h1, h2, h3, h4⟩
      constructor
      · rcases h : fileGroupIdAndEndTimestampLT a b with _ | _
        · rfl
        · rcases (fileLT_iff a b).mp h with h5 | ⟨_, h5 | ⟨_, h5 | ⟨_, h5⟩⟩⟩ <;>
            simp_all
      · rcases h : fileGroupIdAndEndTimestampLT b a with _ | _
        · rfl
        · rcases (fileLT_iff b a).mp h with h5 | ⟨_, h5 | ⟨_, h5 | ⟨_, h5⟩⟩⟩ <;>
            simp_all

/-- C9 witness: the transitivity component applied at three concrete
files. -/
theorem C9_witness :
    fileGroupIdAndEndTimestampLT ⟨1, 2, "a", 3⟩ ⟨3, 0, "b", 1⟩ = true :=
  C9_file_comparator_strict_total_order.2.1 ⟨1, 2, "a", 3⟩ ⟨2, 7, "z", 0⟩ ⟨3, 0, "b", 1⟩
    (by decide) (by decide)

/-- C8: insert_formatted_timestamp fails with the operation-failed error
exactly when the buffer holds fewer spaces than the pattern requires (the
buffer is then untouched, no output being produced), and on success it
rebuilds the buffer as the prefix running up to just after the pattern count
of spaces, the formatted timestamp, and the remainder: the prefix holds
exactly that many spaces and, when the count is positive, ends with the
final such space. -/
theorem C8_insert_position_and_failure :
    (∀ (p : TimestampPattern) (ts : Int) (msg : List Char),
      countSpaces msg < p.num_spaces_before_ts →
      insert_formatted_timestamp p ts msg = .error .opFailed) ∧
    (∀ (p : TimestampPattern) (ts : Int) (msg pre rest body : List Char),
      afterNthSpace p.num_spaces_before_ts msg = some (pre, rest) →
      formatBody p ts = .ok body →
      insert_formatted_timestamp p ts msg = .ok (pre ++ body ++ rest) ∧
        msg = pre ++ rest ∧ countSpaces pre = p.num_spaces_before_ts ∧
        (0 < p.num_spaces_before_ts → ∃ pre2, pre = pre2 ++ [' '])) := by
  constructor
  · intro p ts msg h
    unfold insert_formatted_timestamp
    rw [afterNthSpace_none_iff.mpr h]
  · intro p ts msg pre rest body hscan hbody
    obtain ⟨hjoin, hcount, _, hlast, _⟩ := afterNthSpace_spec hscan
    refine ⟨?_, hjoin, hcount, hlast⟩
    unfold insert_formatted_timestamp
    rw [hscan, hbody]
    rfl

/-- C8 witness: both components applied at concrete inputs. -/
theorem C8_witness :
    insert_formatted_timestamp ⟨2, "%H"⟩ 0 " x".toList = .error .opFailed ∧
    insert_formatted_timestamp ⟨1, "%H"⟩ 3600000 "a bc".toList = .ok "a 01bc".toList :=
  ⟨C8_insert_position_and_failure.1 ⟨2, "%H"⟩ 0 " x".toList (by decide),
   by
    have := C8_insert_position_and_failure.2 ⟨1, "%H"⟩ 3600000 "a bc".toList
      ['a', ' '] ['b', 'c'] ['0', '1'] (by decide) (by rfl)
    exact this.1⟩

theorem searchAux_eq_none_iff (ps : List TimestampPattern) (i : Nat) (line : List Char) :
    searchAux ps i line = none ↔ ∀ p ∈ ps, parse_timestamp_core p line = none := by
  induction ps generalizing i with
  | nil => simp [searchAux]
  | cons p ps ih =>
    simp only [searchAux, List.mem_cons]
    rcases h : parse_timestamp_core p line with _ | ⟨⟨t, b, e⟩⟩
    · simp only [ih]
      constructor
      · rintro hall q (rfl | hq)
        · exact h
        · exact hall q hq
      · intro hall q hq
        exact hall q (Or.inr hq)
    · constructor
      · intro hnone
        exact absurd hnone (by simp)
      · intro hall
        exact absurd (hall p (Or.inl rfl)) (by simp [h])

/-- C10: when no catalog pattern parses a line, search_known_ts_patterns
returns the null pattern with both positions set to npos while the timestamp
out-parameter keeps its incoming value; the search fails exactly when every
catalog pattern fails on the line, and a failing parse_timestamp leaves all
three of its out-parameters untouched. -/
theorem C10_search_failure_protocol :
    (∀ (line : List Char) (ts : Int) (b e : Nat),
      search_core line = none →
      search_known_ts_patterns line ts b e = (none, ts, npos, npos)) ∧
    (∀ line : List Char,
      search_core line = none ↔ ∀ p ∈ m_known_ts_patterns, parse_timestamp_core p line = none) ∧
    (∀ (p : TimestampPattern) (line : List Char) (ts : Int) (b e : Nat),
      parse_timestamp_core p line = none →
      parse_timestamp p line ts b e = (false, ts, b, e)) := by
  refine ⟨?_, ?_, ?_⟩
  · intro line ts b e h
    unfold search_known_ts_patterns
    rw [h]
  · intro line
    exact searchAux_eq_none_iff m_known_ts_patterns 0 line
  · intro p line ts b e h
    unfold parse_timestamp
    rw [h]

/-- C10 witness: the failure protocol applied to a line with no
timestamp. -/
theorem C10_witness :
    search_known_ts_patterns "hello world".toList 42 7 9 = (none, 42, npos, npos) :=
  C10_search_failure_protocol.1 "hello world".toList 42 7 9 (by decide)

/-- C6: the two-digit year specifier maps inputs 68, 69, 99, 00 through the
century pivot to years 2068, 1969, 1999 and 2000 (69 to 99 land in the
1900s, 00 to 68 in the 2000s), and the two-digit code emitted by
insert_formatted_timestamp parses back to the original year for every year
from 1969 to 2068, as the two concrete full round trips also show. -/
theorem C6_two_digit_year_pivot :
    parse_timestamp_core ⟨0, "%y/%m/%d %H:%M:%S"⟩ "68/01/01 00:00:00".toList
        = some (days_from_civil 2068 1 1 * 86400000, 0, 17) ∧
    parse_timestamp_core ⟨0, "%y/%m/%d %H:%M:%S"⟩ "69/01/01 00:00:00".toList
        = some (days_from_civil 1969 1 1 * 86400000, 0, 17) ∧
    parse_timestamp_core ⟨0, "%y/%m/%d %H:%M:%S"⟩ "99/01/01 00:00:00".toList
        = some (days_from_civil 1999 1 1 * 86400000, 0, 17) ∧
    parse_timestamp_core ⟨0, "%y/%m/%d %H:%M:%S"⟩ "00/01/01 00:00:00".toList
        = some (days_from_civil 2000 1 1 * 86400000, 0, 17) ∧
    (∀ y : Int, 1969 ≤ y → y ≤ 2068 → (twoDigitToYear (yearToTwoDigit y) : Int) = y) ∧
    insert_formatted_timestamp ⟨0, "%y/%m/%d %H:%M:%S"⟩ (days_from_civil 2068 1 1 * 86400000)
        [] = .ok "68/01/01 00:00:00".toList ∧
    insert_formatted_timestamp ⟨0, "%y/%m/%d %H:%M:%S"⟩ (days_from_civil 1969 1 1 * 86400000)
        [] = .ok "69/01/01 00:00:00".toList := by
  refine ⟨by decide, by decide, by decide, by decide, ?_, by rfl, by rfl⟩
  intro y h1 h2
  unfold yearToTwoDigit twoDigitToYear
  split_ifs <;> omega

/-- C6 witness: the inversion component applied at year 2015. -/
theorem C6_witness : (twoDigitToYear (yearToTwoDigit (2015 : Int)) : Int) = 2015 :=
  C6_two_digit_year_pivot.2.2.2.2.1 2015 (by decide) (by decide)

/-- C7: fields individually in range can still denote an invalid calendar
date, which parse_timestamp rejects: February 30 fails the
year_month_day::ok check in every year, February 29 fails it in every
non-leap year, while February 29 of 2016 passes; correspondingly the parse
of 2015-02-30 and 2015-02-29 fails and the parse of 2016-02-29 succeeds. -/
theorem C7_invalid_calendar_dates :
    (∀ y : Int, ymdOk y 2 30 = false) ∧
    (∀ y : Int, yearIsLeap y = false → ymdOk y 2 29 = false) ∧
    ymdOk 2016 2 29 = true ∧
    parse_timestamp_core ⟨0, "%Y-%m-%d %H:%M:%S"⟩ "2015-02-30 00:00:00".toList = none ∧
    parse_timestamp_core ⟨0, "%Y-%m-%d %H:%M:%S"⟩ "2015-02-29 00:00:00".toList = none ∧
    parse_timestamp_core ⟨0, "%Y-%m-%d %H:%M:%S"⟩ "2016-02-29 00:00:00".toList
        = some (tsOf 2016 2 29 0 0 0 0, 0, 19) := by
  refine ⟨?_, ?_, by decide, by decide, by decide, by decide⟩
  · intro y
    unfold ymdOk last_day_of_month
    rcases h : yearIsLeap y <;> simp [h]
  · intro y h
    unfold ymdOk last_day_of_month
    simp [h]

/-- C7 witness: the non-leap component applied at year 2015. -/
theorem C7_witness : ymdOk 2015 2 29 = false :=
  C7_invalid_calendar_dates.2.1 2015 (by decide)

theorem readNum_spec {len : Nat} {pad : Char} {x : List Char} {v : Nat} {r : List Char}
    (h : readNum len pad x = some (v, r)) :
    x = x.take len ++ r ∧ (x.take len).length = len ∧
      (∀ tail, readNum len pad (x.take len ++ tail) = some (v, tail)) ∧
      (∀ q : List Char, q.length < len → readNum len pad q = none) := by
  rw [readNum] at h
  by_cases hlen : len ≤ x.length
  · rw [if_pos hlen] at h
    rcases hconv : convert_string_to_number pad (x.take len) with _ | v2
    · rw [hconv] at h
      simp at h
    · rw [hconv] at h
      simp only [Option.map_some', Option.some.injEq, Prod.mk.injEq] at h
      obtain ⟨hv, hr⟩ := h
      subst hv
      subst hr
      have hlen2 : (x.take len).length = len := by
        rw [List.length_take]
        omega
      refine ⟨(List.take_append_drop len x).symm, hlen2, ?_, ?_⟩
      · intro tail
        rw [readNum, if_pos (by simp [hlen2])]
        rw [List.take_left' hlen2, List.drop_left' hlen2]
        rw [hconv]
        rfl
      · intro q hq
        rw [readNum, if_neg (by omega)]
  · rw [if_neg hlen] at h
    exact absurd h (by simp)

theorem matchNameIx_none_iff {names : List (List Char)} {x : List Char} :
    matchNameIx names x = none ↔ ∀ nm ∈ names, x.take nm.length ≠ nm := by
  induction names with
  | nil => simp [matchNameIx]
  | cons nm0 rest ih =>
    simp only [matchNameIx, List.mem_cons]
    by_cases h0 : x.take nm0.length = nm0
    · simp [h0]
    · simp only [if_neg h0, Option.map_eq_none', ih]
      constructor
      · rintro hall nm (rfl | hm)
        · exact h0
        · exact hall nm hm
      · intro hall nm hm
        exact hall nm (Or.inr hm)

theorem take_take_of_le {α : Type} (l : List α) {m n : Nat} (h : n ≤ m) :
    (l.take m).take n = l.take n := by
  rw [List.take_take, min_eq_left h]

theorem take_ne_of_length_lt {α : Type} {q nm : List α} {n : Nat}
    (h : (q.take n).length < nm.length) : q.take n ≠ nm := by
  intro heq
  rw [heq] at h
  omega

theorem matchNameIx_spec {names : List (List Char)} :
    ∀ {x : List Char} {ix : Nat} {r : List Char},
    names.Pairwise (fun a b => a.take b.length ≠ b ∧ b.take a.length ≠ a) →
    (∀ nm ∈ names, nm ≠ []) →
    matchNameIx names x = some (ix, r) →
    ∃ nm, names.get? ix = some nm ∧ x = nm ++ r ∧ nm ≠ [] ∧
      (∀ tail, matchNameIx names (nm ++ tail) = some (ix, tail)) ∧
      (∀ k, k < nm.length → matchNameIx names (nm.take k) = none) := by
  induction names with
  | nil =>
    intro x ix r _ _ h
    simp [matchNameIx] at h
  | cons nm0 rest ih =>
    intro x ix r hpw hne h
    rw [matchNameIx] at h
    by_cases h0 : x.take nm0.length = nm0
    · rw [if_pos h0] at h
      simp only [Option.some.injEq, Prod.mk.injEq] at h
      obtain ⟨hix, hr⟩ := h
      subst hix
      subst hr
      refine ⟨nm0, rfl, ?_, hne nm0 (List.mem_cons_self _ _), ?_, ?_⟩
      · conv_lhs => rw [← List.take_append_drop nm0.length x, h0]
      · intro tail
        rw [matchNameIx, if_pos (List.take_left _ _), List.drop_left]
      · intro k hk
        rw [matchNameIx,
            if_neg (take_ne_of_length_lt (by simp [List.length_take]; omega))]
        rw [Option.map_eq_none', matchNameIx_none_iff]
        intro nm hm
        by_cases hlen : nm.length ≤ k
        · rw [take_take_of_le _ hlen]
          exact ((List.pairwise_cons.mp hpw).1 nm hm).1
        · exact take_ne_of_length_lt (by simp [List.length_take]; omega)
    · rw [if_neg h0] at h
      rw [Option.map_eq_some'] at h
      obtain ⟨⟨ix0, r0⟩, hrec, heq⟩ := h
      obtain ⟨hix, hr⟩ := Prod.mk.injEq .. ▸ heq
      subst hix
      subst hr
      obtain ⟨nm, hget, hx, hnmne, htail, htrunc⟩ :=
        ih (List.pairwise_cons.mp hpw).2 (fun nm hm => hne nm (List.mem_cons_of_mem _ hm)) hrec
      have hmem : nm ∈ rest := List.get?_mem hget
      have hup : nm0.take nm.length ≠ nm := ((List.pairwise_cons.mp hpw).1 nm hmem).1
      refine ⟨nm, by simpa using hget, hx, hnmne, ?_, ?_⟩
      · intro tail
        rw [matchNameIx, if_neg ?hf, htail tail, Option.map_some']
        case hf =>
          intro habs
          by_cases hlen : nm0.length ≤ nm.length
          · rw [List.take_append_of_le_length hlen] at habs
            rw [hx, List.take_append_of_le_length hlen] at h0
            exact h0 habs
          · apply hup
            have h2 := congrArg (List.take nm.length) habs
            rw [take_take_of_le _ (by omega), List.take_left] at h2
            exact h2.symm
      · intro k hk
        rw [matchNameIx, if_neg ?hf2, Option.map_eq_none']
        · exact htrunc k hk
        case hf2 =>
          by_cases hlen : nm0.length ≤ k
          · rw [take_take_of_le _ hlen]
            intro habs
            apply h0
            rw [hx, List.take_append_of_le_length (by omega)]
            exact habs
          · exact take_ne_of_length_lt (by simp [List.length_take]; omega)

theorem numField_spec {len : Nat} {pad : Char} {P : Nat → Bool} {f : Nat → PState}
    {x : List Char} {st2 : PState} {r : List Char} (hlen : 0 < len)
    (h : numField len pad P f x = some (st2, r)) :
    ∃ chunk, x = chunk ++ r ∧ chunk ≠ [] ∧
      (∀ tail, numField len pad P f (chunk ++ tail) = some (st2, tail)) ∧
      (∀ k, k < chunk.length → numField len pad P f (chunk.take k) = none) := by
  unfold numField at h
  split at h
  case _ v r1 hread =>
    obtain ⟨hx, hlen2, htail, hshort⟩ := readNum_spec hread
    by_cases hP : P v
    · rw [if_pos hP] at h
      simp only [Option.some.injEq, Prod.mk.injEq] at h
      obtain ⟨hst, hr⟩ := h
      subst hst
      subst hr
      refine ⟨x.take len, hx, ?_, ?_, ?_⟩
      · intro he
        rw [he] at hlen2
        simp at hlen2
        omega
      · intro tail
        unfold numField
        rw [htail tail]
        simp [hP]
      · intro k hk
        unfold numField
        rw [hshort _ (by rw [List.length_take] at hk ⊢; omega)]
    · rw [if_neg hP] at h
      simp at h
  case _ hread => simp at h

theorem nameField_spec {names : List (List Char)} {f : Nat → PState}
    {x : List Char} {st2 : PState} {r : List Char}
    (hpw : names.Pairwise (fun a b => a.take b.length ≠ b ∧ b.take a.length ≠ a))
    (hne : ∀ nm ∈ names, nm ≠ [])
    (h : nameField names f x = some (st2, r)) :
    ∃ chunk, x = chunk ++ r ∧ chunk ≠ [] ∧
      (∀ tail, nameField names f (chunk ++ tail) = some (st2, tail)) ∧
      (∀ k, k < chunk.length → nameField names f (chunk.take k) = none) := by
  unfold nameField at h
  split at h
  case _ ix r1 hm =>
    simp only [Option.some.injEq, Prod.mk.injEq] at h
    obtain ⟨hst, hr⟩ := h
    subst hst
    subst hr
    obtain ⟨nm, _, hx, hnmne, htail, htrunc⟩ := matchNameIx_spec hpw hne hm
    refine ⟨nm, hx, hnmne, ?_, ?_⟩
    · intro tail
      unfold nameField
      rw [htail tail]
    · intro k hk
      unfold nameField
      rw [htrunc k hk]
  case _ hm => simp at h


theorem parseSpec_spec {sp : Char} {x : List Char} {st st2 : PState} {r : List Char}
    (h : parseSpec sp x st = some (st2, r)) :
    ∃ chunk, x = chunk ++ r ∧ chunk ≠ [] ∧
      (∀ tail, parseSpec sp (chunk ++ tail) st = some (st2, tail)) ∧
      (∀ k, k < chunk.length → parseSpec sp (chunk.take k) st = none) := by
  unfold parseSpec at h
  split at h
  · -- the literal percent case
    split at h
    · rename_i c r1
      split at h
      · rename_i hc
        subst hc
        simp only [Option.some.injEq, Prod.mk.injEq] at h
        obtain ⟨hst, hr⟩ := h
        subst hst
        subst hr
        refine ⟨['%'], rfl, by simp, fun tail => by simp [parseSpec], ?_⟩
        intro k hk
        have hk0 : k = 0 := by simp at hk; omega
        subst hk0
        simp [parseSpec]
      · simp at h
    · simp at h
  · exact (numField_spec (by omega) h).imp fun chunk hc =>
      ⟨hc.1, hc.2.1, fun tail => by simp only [parseSpec]; exact hc.2.2.1 tail,
       fun k hk => by simp only [parseSpec]; exact hc.2.2.2 k hk⟩
  · exact (numField_spec (by omega) h).imp fun chunk hc =>
      ⟨hc.1, hc.2.1, fun tail => by simp only [parseSpec]; exact hc.2.2.1 tail,
       fun k hk => by simp only [parseSpec]; exact hc.2.2.2 k hk⟩
  · exact (nameField_spec (by decide) (by decide) h).imp fun chunk hc =>
      ⟨hc.1, hc.2.1, fun tail => by simp only [parseSpec]; exact hc.2.2.1 tail,
       fun k hk => by simp only [parseSpec]; exact hc.2.2.2 k hk⟩
  · exact (nameField_spec (by decide) (by decide) h).imp fun chunk hc =>
      ⟨hc.1, hc.2.1, fun tail => by simp only [parseSpec]; exact hc.2.2.1 tail,
       fun k hk => by simp only [parseSpec]; exact hc.2.2.2 k hk⟩
  · exact (numField_spec (by omega) h).imp fun chunk hc =>
      ⟨hc.1, hc.2.1, fun tail => by simp only [parseSpec]; exact hc.2.2.1 tail,
       fun k hk => by simp only [parseSpec]; exact hc.2.2.2 k hk⟩
  · exact (numField_spec (by omega) h).imp fun chunk hc =>
      ⟨hc.1, hc.2.1, fun tail => by simp only [parseSpec]; exact hc.2.2.1 tail,
       fun k hk => by simp only [parseSpec]; exact hc.2.2.2 k hk⟩
  · exact (numField_spec (by omega) h).imp fun chunk hc =>
      ⟨hc.1, hc.2.1, fun tail => by simp only [parseSpec]; exact hc.2.2.1 tail,
       fun k hk => by simp only [parseSpec]; exact hc.2.2.2 k hk⟩
  · exact (nameField_spec (by decide) (by decide) h).imp fun chunk hc =>
      ⟨hc.1, hc.2.1, fun tail => by simp only [parseSpec]; exact hc.2.2.1 tail,
       fun k hk => by simp only [parseSpec]; exact hc.2.2.2 k hk⟩
  · -- the %p case
    split at h
    · rename_i hAM
      simp only [Option.some.injEq, Prod.mk.injEq] at h
      obtain ⟨hst, hr⟩ := h
      subst hst
      subst hr
      refine ⟨['A','M'], ?_, by simp, ?_, ?_⟩
      · rw [← hAM]
        exact (List.take_append_drop 2 x).symm
      · intro tail
        simp [parseSpec]
      · intro k hk
        simp only [List.length_cons, List.length_nil] at hk
        interval_cases k <;> simp [parseSpec]
    · split at h
      · rename_i hAM hPM
        simp only [Option.some.injEq, Prod.mk.injEq] at h
        obtain ⟨hst, hr⟩ := h
        subst hst
        subst hr
        refine ⟨['P','M'], ?_, by simp, ?_, ?_⟩
        · rw [← hPM]
          exact (List.take_append_drop 2 x).symm
        · intro tail
          simp [parseSpec]
        · intro k hk
          simp only [List.length_cons, List.length_nil] at hk
          interval_cases k <;> simp [parseSpec]
      · simp at h
  · exact (numField_spec (by omega) h).imp fun chunk hc =>
      ⟨hc.1, hc.2.1, fun tail => by simp only [parseSpec]; exact hc.2.2.1 tail,
       fun k hk => by simp only [parseSpec]; exact hc.2.2.2 k hk⟩
  · exact (numField_spec (by omega) h).imp fun chunk hc =>
      ⟨hc.1, hc.2.1, fun tail => by simp only [parseSpec]; exact hc.2.2.1 tail,
       fun k hk => by simp only [parseSpec]; exact hc.2.2.2 k hk⟩
  · exact (numField_spec (by omega) h).imp fun chunk hc =>
      ⟨hc.1, hc.2.1, fun tail => by simp only [parseSpec]; exact hc.2.2.1 tail,
       fun k hk => by simp only [parseSpec]; exact hc.2.2.2 k hk⟩
  · exact (numField_spec (by omega) h).imp fun chunk hc =>
      ⟨hc.1, hc.2.1, fun tail => by simp only [parseSpec]; exact hc.2.2.1 tail,
       fun k hk => by simp only [parseSpec]; exact hc.2.2.2 k hk⟩
  · exact (numField_spec (by omega) h).imp fun chunk hc =>
      ⟨hc.1, hc.2.1, fun tail => by simp only [parseSpec]; exact hc.2.2.1 tail,
       fun k hk => by simp only [parseSpec]; exact hc.2.2.2 k hk⟩
  · exact (numField_spec (by omega) h).imp fun chunk hc =>
      ⟨hc.1, hc.2.1, fun tail => by simp only [parseSpec]; exact hc.2.2.1 tail,
       fun k hk => by simp only [parseSpec]; exact hc.2.2.2 k hk⟩
  · exact (numField_spec (by omega) h).imp fun chunk hc =>
      ⟨hc.1, hc.2.1, fun tail => by simp only [parseSpec]; exact hc.2.2.1 tail,
       fun k hk => by simp only [parseSpec]; exact hc.2.2.2 k hk⟩
  · simp at h

theorem runFmt_cons_lit {c : Char} (hc : c ≠ '%') (fmt : List Char) (d : Char) (s : List Char) (st : PState) :
    runFmt (c :: fmt) (d :: s) st = if c = d then runFmt fmt s st else none := by
  rw [runFmt.eq_def]
  split <;> simp_all

theorem runFmt_spec {fmt s : List Char} {st : PState} :
    ∀ {st2 : PState} {left : List Char}, runFmt fmt s st = some (st2, left) →
    ∃ pre, s = pre ++ left ∧
      (∀ tail, (tail = [] → left = []) → runFmt fmt (pre ++ tail) st = some (st2, tail)) ∧
      (∀ k, k < pre.length → runFmt fmt (pre.take k) st = none) := by
  induction fmt, s, st using runFmt.induct with
  | case1 s st =>
    intro st2 left h
    simp only [runFmt, Option.some.injEq, Prod.mk.injEq] at h
    obtain ⟨h1, h2⟩ := h
    subst h1
    subst h2
    exact ⟨[], rfl, fun tail _ => rfl, fun k hk => absurd hk (by simp)⟩
  | case2 hd tl st =>
    intro st2 left h
    simp [runFmt] at h
  | case3 c s st =>
    intro st2 left h
    simp only [runFmt, Option.some.injEq, Prod.mk.injEq] at h
    obtain ⟨h1, h2⟩ := h
    subst h1
    subst h2
    refine ⟨[], rfl, ?_, fun k hk => absurd hk (by simp)⟩
    intro tail hne
    rcases tail with _ | ⟨t, ts⟩
    · exact absurd (hne rfl) (by simp)
    · rfl
  | case4 sp fmt c s st stm r hspec ih =>
    intro st2 left h
    rw [show runFmt ('%' :: sp :: fmt) (c :: s) st = runFmt fmt r stm from by
          simp only [runFmt, hspec]] at h
    obtain ⟨pre2, hx2, htail2, htrunc2⟩ := ih h
    obtain ⟨chunk, hchunk, hchne, hctail, hctrunc⟩ := parseSpec_spec hspec
    obtain ⟨ch, chs, rfl⟩ : ∃ ch chs, chunk = ch :: chs := by
      cases chunk with
      | nil => exact absurd rfl hchne
      | cons a b => exact ⟨a, b, rfl⟩
    refine ⟨(ch :: chs) ++ pre2, by simp [hchunk, hx2], ?_, ?_⟩
    · intro tail hcond
      have : ((ch :: chs) ++ pre2) ++ tail = ch :: (chs ++ (pre2 ++ tail)) := by simp
      rw [this]
      rw [show runFmt ('%' :: sp :: fmt) (ch :: (chs ++ (pre2 ++ tail))) st
            = runFmt fmt (pre2 ++ tail) stm from by
        have hps := hctail (pre2 ++ tail)
        simp only [List.cons_append] at hps
        simp only [runFmt, hps]]
      exact htail2 tail hcond
    · intro k hk
      rcases Nat.lt_or_ge k (chs.length + 1) with hksm | hkbig
      · -- k within the chunk
        rcases Nat.eq_zero_or_pos k with rfl | hkpos
        · simp [runFmt]
        · obtain ⟨j, rfl⟩ : ∃ j, k = j + 1 := ⟨k - 1, by omega⟩
          have htk : ((ch :: chs) ++ pre2).take (j + 1) = ch :: (chs ++ pre2).take j := by
            simp
          rw [htk]
          have hps := hctrunc (j + 1) (by simpa using hksm)
          have htk2 : (ch :: chs).take (j + 1) = ch :: chs.take j := by simp
          rw [htk2] at hps
          have hj : (chs ++ pre2).take j = chs.take j := by
            rw [List.take_append_of_le_length (by simp at hksm; omega)]
          rw [hj]
          simp only [runFmt, hps]
      · -- k reaching into pre2
        obtain ⟨j, rfl⟩ : ∃ j, k = (chs.length + 1) + j := ⟨k - (chs.length + 1), by omega⟩
        have htk : ((ch :: chs) ++ pre2).take (chs.length + 1 + j)
            = ch :: (chs ++ pre2.take j) := by
          rw [show ((ch :: chs) ++ pre2) = ch :: (chs ++ pre2) from by simp,
              show chs.length + 1 + j = (chs.length + j) + 1 from by omega,
              List.take_succ_cons, List.take_append]
        rw [htk]
        have hps := hctail (pre2.take j)
        simp only [List.cons_append] at hps
        rw [show runFmt ('%' :: sp :: fmt) (ch :: (chs ++ pre2.take j)) st
              = runFmt fmt (pre2.take j) stm from by simp only [runFmt, hps]]
        exact htrunc2 j (by simp at hk; omega)
  | case5 sp fmt c s st hspec =>
    intro st2 left h
    rw [show runFmt ('%' :: sp :: fmt) (c :: s) st = none from by
          simp only [runFmt, hspec]] at h
    exact absurd h (by simp)
  | case6 fmt c s st hf1 hf2 ih =>
    intro st2 left h
    have hc : c ≠ '%' := by
      intro heq
      cases fmt with
      | nil => exact hf1 heq rfl
      | cons a b => exact hf2 a b heq rfl
    rw [runFmt_cons_lit hc, if_pos rfl] at h
    obtain ⟨pre2, hx2, htail2, htrunc2⟩ := ih h
    refine ⟨c :: pre2, by simp [hx2], ?_, ?_⟩
    · intro tail hcond
      rw [show (c :: pre2) ++ tail = c :: (pre2 ++ tail) from rfl]
      rw [runFmt_cons_lit hc, if_pos rfl]
      exact htail2 tail hcond
    · intro k hk
      rcases Nat.eq_zero_or_pos k with rfl | hkpos
      · simp [runFmt]
      · obtain ⟨j, rfl⟩ : ∃ j, k = j + 1 := ⟨k - 1, by omega⟩
        rw [show (c :: pre2).take (j + 1) = c :: pre2.take j from by simp]
        rw [runFmt_cons_lit hc, if_pos rfl]
        exact htrunc2 j (by simp at hk; omega)
  | case7 f fmt c s st hf1 hf2 hne =>
    intro st2 left h
    have hfc : f ≠ '%' := by
      intro heq
      cases fmt with
      | nil => exact hf1 heq rfl
      | cons a b => exact hf2 a b heq rfl
    rw [runFmt_cons_lit hfc, if_neg hne] at h
    exact absurd h (by simp)

theorem countSpaces_append (a b : List Char) :
    countSpaces (a ++ b) = countSpaces a + countSpaces b := by
  induction a with
  | nil => simp [countSpaces]
  | cons c a ih =>
    simp only [List.cons_append, countSpaces, List.append_eq, ih]
    omega

theorem countSpaces_take_le (l : List Char) (k : Nat) :
    countSpaces (l.take k) ≤ countSpaces l := by
  conv_rhs => rw [← List.take_append_drop k l]
  rw [countSpaces_append]
  omega

theorem format_fields_cons_lit {c : Char} (hc : c ≠ '%') (fmt : List Char) (t : TsParts) :
    format_fields (c :: fmt) t = (format_fields fmt t).map (fun tail => c :: tail) := by
  rw [format_fields.eq_def]
  split <;> simp_all

theorem specOut_ne_none_of_parseSpec {sp : Char} {x : List Char} {st : PState}
    {res : PState × List Char} (h : parseSpec sp x st = some res) (t : TsParts) :
    specOut sp t ≠ none := by
  intro hso
  unfold parseSpec at h
  split at h <;> (unfold specOut at hso; simp_all)

theorem format_fields_no_error {fmt x : List Char} {st : PState} :
    ∀ {st2 : PState} {left : List Char}, runFmt fmt x st = some (st2, left) →
    ∀ (t : TsParts) (err : InsertError), format_fields fmt t ≠ .error err := by
  induction fmt, x, st using runFmt.induct with
  | case1 s st =>
    intro st2 left _ t err
    simp [format_fields]
  | case2 hd tl st =>
    intro st2 left h
    simp [runFmt] at h
  | case3 c s st =>
    intro st2 left _ t err
    simp [format_fields]
  | case4 sp fmt c s st stm r hspec ih =>
    intro st2 left h
    rw [show runFmt ('%' :: sp :: fmt) (c :: s) st = runFmt fmt r stm from by
          simp only [runFmt, hspec]] at h
    have ihne := ih h
    intro t err
    rcases hso : specOut sp t with _ | out
    · exact absurd hso (specOut_ne_none_of_parseSpec hspec t)
    · rcases hff : format_fields fmt t with e2 | out2
      · exact absurd hff (ihne t e2)
      · simp [format_fields, hso, hff, Except.map]
  | case5 sp fmt c s st hspec =>
    intro st2 left h
    rw [show runFmt ('%' :: sp :: fmt) (c :: s) st = none from by
          simp only [runFmt, hspec]] at h
    exact absurd h (by simp)
  | case6 fmt c s st hf1 hf2 ih =>
    intro st2 left h
    have hc : c ≠ '%' := by
      intro heq
      cases fmt with
      | nil => exact hf1 heq rfl
      | cons a b => exact hf2 a b heq rfl
    rw [runFmt_cons_lit hc, if_pos rfl] at h
    have ihne := ih h
    intro t err
    rw [format_fields_cons_lit hc]
    rcases hff : format_fields fmt t with e2 | out2
    · exact absurd hff (ihne t e2)
    · simp [hff, Except.map]
  | case7 f fmt c s st hf1 hf2 hne =>
    intro st2 left h
    have hfc : f ≠ '%' := by
      intro heq
      cases fmt with
      | nil => exact hf1 heq rfl
      | cons a b => exact hf2 a b heq rfl
    rw [runFmt_cons_lit hfc, if_neg hne] at h
    exact absurd h (by simp)

theorem parse_timestamp_core_spec {p : TimestampPattern} {line : List Char}
    {ts : Int} {b e : Nat} (h : parse_timestamp_core p line = some (ts, b, e)) :
    ∃ pre preF left st2,
      line = pre ++ preF ++ left ∧ b = pre.length ∧ e = pre.length + preF.length ∧
      countSpaces pre = p.num_spaces_before_ts ∧
      (0 < p.num_spaces_before_ts → ∃ pre2, pre = pre2 ++ [' ']) ∧
      (p.num_spaces_before_ts = 0 → pre = []) ∧
      (∀ tail, afterNthSpace p.num_spaces_before_ts (pre ++ tail) = some (pre, tail)) ∧
      runFmt p.format.toList (preF ++ left) initPState = some (st2, left) ∧
      (∀ tail, (tail = [] → left = []) →
        runFmt p.format.toList (preF ++ tail) initPState = some (st2, tail)) ∧
      (∀ k, k < preF.length → runFmt p.format.toList (preF.take k) initPState = none) ∧
      ymdOk (st2.year : Int) st2.month st2.date = true ∧
      ts = tsOf (st2.year : Int) st2.month st2.date (fix12Hour st2) st2.minute st2.second
        st2.millisecond := by
  unfold parse_timestamp_core at h
  split at h
  case _ hscan => simp at h
  case _ pre rest hscan =>
    split at h
    case _ hrun => simp at h
    case _ st2 left hrun =>
      by_cases hok : ymdOk (st2.year : Int) st2.month st2.date
      · rw [if_pos hok] at h
        simp only [Option.some.injEq, Prod.mk.injEq] at h
        obtain ⟨hts, hb, he⟩ := h
        obtain ⟨hjoin, hcount, hscantail, hlast, hzero⟩ := afterNthSpace_spec hscan
        obtain ⟨preF, hrest, hruntail, hruntrunc⟩ := runFmt_spec hrun
        refine ⟨pre, preF, left, st2, ?_, ?_, ?_, hcount, hlast, hzero, hscantail, ?_, ?_,
          hruntrunc, hok, hts.symm⟩
        · rw [hjoin, hrest, List.append_assoc]
        · omega
        · have h1 : line.length = pre.length + (preF.length + left.length) := by
            rw [hjoin, hrest]
            simp
          omega
        · rw [← hrest]
          exact hrun
        · exact hruntail
      · rw [if_neg hok] at h
        simp at h

theorem searchAux_some_spec :
    ∀ {ps : List TimestampPattern} {i0 : Nat} {line : List Char} {i : Nat} {t : Int} {b e : Nat},
    searchAux ps i0 line = some (i, t, b, e) →
    i0 ≤ i ∧ ∃ p, ps.get? (i - i0) = some p ∧ parse_timestamp_core p line = some (t, b, e) ∧
      ∀ j q, j < i - i0 → ps.get? j = some q → parse_timestamp_core q line = none := by
  intro ps
  induction ps with
  | nil =>
    intro i0 line i t b e h
    simp [searchAux] at h
  | cons p ps ih =>
    intro i0 line i t b e h
    rw [searchAux] at h
    split at h
    case _ t0 b0 e0 hp =>
      simp only [Option.some.injEq, Prod.mk.injEq] at h
      obtain ⟨hi, ht, hb, he⟩ := h
      subst hi
      subst ht
      subst hb
      subst he
      exact ⟨le_refl _, p, by simp, hp, fun j q hj _ => absurd hj (by omega)⟩
    case _ hp =>
      obtain ⟨hle, q, hget, hq, hfirst⟩ := ih h
      refine ⟨by omega, q, ?_, hq, ?_⟩
      · rw [show i - i0 = (i - (i0 + 1)) + 1 from by omega]
        simpa using hget
      · intro j q2 hj hget2
        rcases j with _ | j2
        · simp only [List.get?] at hget2
          cases hget2
          exact hp
        · exact hfirst j2 q2 (by omega) (by simpa using hget2)

/-- C1 counterexample: the line with a 1 PM timestamp is recognized by the
12-hour catalog pattern, but reinserting the parsed timestamp into the
remaining content does not reproduce the line: the hour is reformatted as 13. -/
theorem C1_counterexample :
    search_core "Feb 01, 2015  1:02:03 PM content after".toList
        = some (13, 1422795723000, 0, 24) ∧
    m_known_ts_patterns.get? 13 = some ⟨0, "%b %d, %Y %l:%M:%S %p"⟩ ∧
    insert_formatted_timestamp ⟨0, "%b %d, %Y %l:%M:%S %p"⟩ 1422795723000
        ("Feb 01, 2015  1:02:03 PM content after".toList.take 0
          ++ "Feb 01, 2015  1:02:03 PM content after".toList.drop 24)
      = .ok "Feb 01, 2015 13:02:03 PM content after".toList ∧
    "Feb 01, 2015 13:02:03 PM content after".toList
      ≠ "Feb 01, 2015  1:02:03 PM content after".toList := by
  exact ⟨by decide, by decide, by rfl, by decide⟩

/-- C1 (amended): for every line in which search_known_ts_patterns
recognizes a timestamp (pattern index i, timestamp ts, positions begin and
end), forming content as the line with the matched region removed and
calling insert_formatted_timestamp succeeds and rebuilds the prefix, the
canonical rendering of ts under the pattern, and the suffix; so the original
line is reproduced byte for byte exactly when its timestamp text equals that
canonical rendering.  It can differ when the line wrote second 60, a weekday
inconsistent with the date, zero padding where the pattern space-pads, or a
1 PM hour, which the formatter emits as 13. -/
theorem C1_amended_insert_rebuilds_line :
    ∀ (line : List Char) (i : Nat) (ts : Int) (b e : Nat) (p : TimestampPattern),
      search_core line = some (i, ts, b, e) →
      m_known_ts_patterns.get? i = some p →
      ∃ body, formatBody p ts = .ok body ∧
        insert_formatted_timestamp p ts (line.take b ++ line.drop e)
          = .ok (line.take b ++ body ++ line.drop e) ∧
        (line.take b ++ body ++ line.drop e = line ↔ (line.take e).drop b = body) := by
  intro line i ts b e p hsearch hpat
  obtain ⟨-, q, hget, hcore, -⟩ := searchAux_some_spec hsearch
  rw [Nat.sub_zero, hpat] at hget
  cases hget
  obtain ⟨pre, preF, left, st2, hline, hb, he, hcount, hlast, hzero, hscantail, hrun,
    hruntail, hruntrunc, hok, hts⟩ := parse_timestamp_core_spec hcore
  obtain ⟨body, hbody⟩ : ∃ body, formatBody p ts = .ok body := by
    rcases hfb : formatBody p ts with err | body
    · exact absurd hfb (format_fields_no_error hrun (decompose_ts ts) err)
    · exact ⟨body, rfl⟩
  have htakeb : line.take b = pre := by
    rw [hline, hb, List.append_assoc]
    exact List.take_left _ _
  have hdrope : line.drop e = left := by
    rw [hline]
    exact List.drop_left' (by simp; omega)
  have htakee : line.take e = pre ++ preF := by
    rw [hline]
    exact List.take_left' (by simp; omega)
  refine ⟨body, hbody, ?_, ?_⟩
  · rw [htakeb, hdrope]
    unfold insert_formatted_timestamp
    rw [hscantail left, hbody]
    rfl
  · rw [htakeb, hdrope, htakee, hb, List.drop_left, hline]
    constructor
    · intro heq
      exact (List.append_cancel_left (List.append_cancel_right heq)).symm
    · intro heq
      rw [heq]

/-- C1 witness: the amended statement applied to a concrete line matched by
the catalog. -/
theorem C1_witness :
    ∃ body, formatBody ⟨0, "%Y-%m-%d %H:%M:%S"⟩ 1422752523000 = .ok body ∧
      insert_formatted_timestamp ⟨0, "%Y-%m-%d %H:%M:%S"⟩ 1422752523000
          ("2015-02-01 01:02:03 x".toList.take 0 ++ "2015-02-01 01:02:03 x".toList.drop 19)
        = .ok ("2015-02-01 01:02:03 x".toList.take 0 ++ body
            ++ "2015-02-01 01:02:03 x".toList.drop 19) ∧
      ("2015-02-01 01:02:03 x".toList.take 0 ++ body ++ "2015-02-01 01:02:03 x".toList.drop 19
          = "2015-02-01 01:02:03 x".toList
        ↔ ("2015-02-01 01:02:03 x".toList.take 19).drop 0 = body) :=
  C1_amended_insert_rebuilds_line "2015-02-01 01:02:03 x".toList 7 1422752523000 0 19
    ⟨0, "%Y-%m-%d %H:%M:%S"⟩ (by decide) (by decide)

/-- C4: parse_timestamp accepts only when the whole format consumes a
contiguous region of the line placed immediately after a preamble of exactly
num_spaces_before_ts spaces: a line with fewer spaces is rejected; on
success the region from begin to end lies inside the line, the text before
begin holds exactly the required spaces and ends with the last of them,
truncating the line anywhere before end makes the parse fail (so the line
may not end before the format is fully consumed, and every consumed literal
and field is needed), and the parse result depends only on the consumed
prefix: any continuation beyond position end parses to the same result. -/
theorem C4_parse_consumes_contiguous_region :
    (∀ (p : TimestampPattern) (line : List Char),
      countSpaces line < p.num_spaces_before_ts → parse_timestamp_core p line = none) ∧
    (∀ (p : TimestampPattern) (line : List Char) (ts : Int) (b e : Nat),
      parse_timestamp_core p line = some (ts, b, e) →
      b ≤ e ∧ e ≤ line.length ∧ countSpaces (line.take b) = p.num_spaces_before_ts ∧
      (0 < p.num_spaces_before_ts → ∃ pre2, line.take b = pre2 ++ [' ']) ∧
      (∀ k, k < e → parse_timestamp_core p (line.take k) = none) ∧
      (∀ tail, (tail = [] → e = line.length) →
        parse_timestamp_core p (line.take e ++ tail) = some (ts, b, e))) := by
  constructor
  · intro p line h
    unfold parse_timestamp_core
    rw [afterNthSpace_none_iff.mpr h]
  · intro p line ts b e h
    obtain ⟨pre, preF, left, st2, hline, hb, he, hcount, hlast, hzero, hscantail, hrun,
      hruntail, hruntrunc, hok, hts⟩ := parse_timestamp_core_spec h
    have hlen : line.length = pre.length + preF.length + left.length := by
      rw [hline]
      simp
      omega
    have htakeb : line.take b = pre := by
      rw [hline, hb, List.append_assoc]
      exact List.take_left _ _
    have htakee : line.take e = pre ++ preF := by
      rw [hline]
      exact List.take_left' (by simp; omega)
    refine ⟨by omega, by omega, by rw [htakeb]; exact hcount, ?_, ?_, ?_⟩
    · intro hpos
      rw [htakeb]
      exact hlast hpos
    · intro k hk
      rcases Nat.lt_or_ge k b with hkb | hkb
      · have hNpos : 0 < p.num_spaces_before_ts := by
          rcases Nat.eq_zero_or_pos p.num_spaces_before_ts with h0 | h0
          · rw [hzero h0] at hb
            simp at hb
            omega
          · exact h0
        obtain ⟨pre2, hpre2⟩ := hlast hNpos
        have hlp : pre.length = pre2.length + 1 := by
          rw [hpre2]
          simp
        have hc2 : countSpaces pre = countSpaces pre2 + 1 := by
          rw [hpre2, countSpaces_append]
          simp [countSpaces]
        have htk : line.take k = pre2.take k := by
          rw [hline, List.append_assoc, List.take_append_of_le_length (by omega), hpre2,
            List.take_append_of_le_length (by omega)]
        unfold parse_timestamp_core
        rw [afterNthSpace_none_iff.mpr ?_]
        rw [htk]
        have h1 : countSpaces (pre2.take k) ≤ countSpaces pre2 := countSpaces_take_le _ _
        omega
      · have htk : line.take k = pre ++ preF.take (k - b) := by
          rw [hb, hline, List.append_assoc, List.take_append_eq_append_take,
            List.take_of_length_le (by omega), List.take_append_of_le_length (by omega)]
        simp only [parse_timestamp_core, htk, hscantail (preF.take (k - b)),
          hruntrunc (k - b) (by omega)]
    · intro tail hcond
      have hcond2 : tail = [] → left = [] := by
        intro h0
        have h1 := hcond h0
        have h2 : left.length = 0 := by omega
        exact List.length_eq_zero.mp h2
      have hfin : (line.take e ++ tail).length - tail.length = e := by
        simp [List.length_take]
        omega
      simp only [parse_timestamp_core, htakee, List.append_assoc,
        hscantail (preF ++ tail), hruntail tail hcond2, hok, if_true, hfin]
      rw [hts, hb]
      have hfin2 : (pre ++ (preF ++ tail)).length - tail.length = e := by
        simp
        omega
      rw [hfin2]

/-- C4 witness: the success component applied to a concrete parse, with a
truncation and an extension instance extracted from it. -/
theorem C4_witness :
    parse_timestamp_core ⟨0, "%Y-%m-%d %H:%M:%S"⟩
        ("2015-02-01 01:02:03 x".toList.take 7) = none ∧
    parse_timestamp_core ⟨0, "%Y-%m-%d %H:%M:%S"⟩
        ("2015-02-01 01:02:03 x".toList.take 19 ++ "!".toList)
      = some (1422752523000, 0, 19) :=
  ⟨(C4_parse_consumes_contiguous_region.2 ⟨0, "%Y-%m-%d %H:%M:%S"⟩
      "2015-02-01 01:02:03 x".toList 1422752523000 0 19 (by decide)).2.2.2.2.1 7 (by decide),
   (C4_parse_consumes_contiguous_region.2 ⟨0, "%Y-%m-%d %H:%M:%S"⟩
      "2015-02-01 01:02:03 x".toList 1422752523000 0 19 (by decide)).2.2.2.2.2 "!".toList
      (by intro h; exact absurd h (by decide))⟩

theorem digitsRevAux_zero (f : Nat) : digitsRevAux f 0 = [] := by
  cases f <;> simp [digitsRevAux]

theorem digitsRevAux_spec :
    ∀ (fuel n : Nat), 0 < n → n ≤ fuel →
      digitsRevAux fuel n ≠ [] ∧
      (∀ c ∈ digitsRevAux fuel n, isDigitCh c = true) ∧
      (digitsRevAux fuel n).foldr (fun c a => a * 10 + digitVal c) 0 = n ∧
      (∀ l c, digitsRevAux fuel n = l ++ [c] → c ≠ '0') ∧
      (∀ w, n < 10 ^ w → (digitsRevAux fuel n).length ≤ w) := by
  intro fuel
  induction fuel with
  | zero =>
    intro n h1 h2
    omega
  | succ f ih =>
    intro n h1 h2
    rw [digitsRevAux, if_neg (by omega)]
    have hd : isDigitCh (Char.ofNat (48 + n % 10)) = true ∧ digitVal (Char.ofNat (48 + n % 10)) = n % 10 ∧
        (n % 10 ≠ 0 → Char.ofNat (48 + n % 10) ≠ '0') := by
      have hr : n % 10 < 10 := Nat.mod_lt _ (by omega)
      rcases h10 : n % 10 with _ | _ | _ | _ | _ | _ | _ | _ | _ | _ | k
      · exact ⟨by decide, by decide, by omega⟩
      · exact ⟨by decide, by decide, by decide⟩
      · exact ⟨by decide, by decide, by decide⟩
      · exact ⟨by decide, by decide, by decide⟩
      · exact ⟨by decide, by decide, by decide⟩
      · exact ⟨by decide, by decide, by decide⟩
      · exact ⟨by decide, by decide, by decide⟩
      · exact ⟨by decide, by decide, by decide⟩
      · exact ⟨by decide, by decide, by decide⟩
      · exact ⟨by decide, by decide, by decide⟩
      · omega
    rcases Nat.eq_zero_or_pos (n / 10) with hq | hq
    · rw [hq, digitsRevAux_zero]
      refine ⟨by simp, ?_, ?_, ?_, ?_⟩
      · intro c hc
        simp at hc
        rw [hc]
        exact hd.1
      · simp [hd.2.1]
        omega
      · intro l c hl
        have h3 : l = [] := by
          cases l with
          | nil => rfl
          | cons a b =>
            have := congrArg List.length hl
            simp at this
        subst h3
        simp at hl
        rw [← hl]
        exact hd.2.2 (by omega)
      · intro w hw
        have hco : 1 ≤ w := by
          rcases Nat.eq_zero_or_pos w with rfl | hpos
          · simp at hw
            omega
          · exact hpos
        simp
        omega
    · have hle : n / 10 ≤ f := by omega
      obtain ⟨ihne, ihdig, ihval, ihlast, ihlen⟩ := ih (n / 10) hq hle
      refine ⟨by simp, ?_, ?_, ?_, ?_⟩
      · intro c hc
        rcases List.mem_cons.mp hc with rfl | hc2
        · exact hd.1
        · exact ihdig c hc2
      · simp only [List.foldr_cons, ihval, hd.2.1]
        omega
      · intro l c hl
        cases l with
        | nil =>
          simp at hl
          exact absurd hl.2 ihne
        | cons a l2 =>
          simp only [List.cons_append, List.cons.injEq] at hl
          exact ihlast l2 c hl.2
      · intro w hw
        rcases w with _ | w2
        · simp at hw
          omega
        · have : n / 10 < 10 ^ w2 := by
            have h10 : n < 10 ^ (w2 + 1) := hw
            rw [pow_succ] at h10
            omega
          have := ihlen w2 this
          simp
          omega

theorem replicate_dropWhile (pad : Char) (k : Nat) (s : List Char) :
    (List.replicate k pad ++ s).dropWhile (fun c => c = pad) =
      s.dropWhile (fun c => c = pad) := by
  induction k with
  | zero => rfl
  | succ m ih =>
    rw [List.replicate_succ, List.cons_append, List.dropWhile_cons, if_pos (by simp)]
    exact ih

theorem natToString_spec (n : Nat) :
    natToString n ≠ [] ∧
    (∀ c ∈ natToString n, isDigitCh c = true) ∧
    (natToString n).foldl (fun a c => a * 10 + digitVal c) 0 = n ∧
    (0 < n → ∀ c t, natToString n = c :: t → c ≠ '0') ∧
    (∀ w, 1 ≤ w → n < 10 ^ w → (natToString n).length ≤ w) := by
  rcases Nat.eq_zero_or_pos n with rfl | hn
  · refine ⟨by simp [natToString], ?_, by simp [natToString, digitVal], by omega, ?_⟩
    · intro c hc
      simp [natToString] at hc
      rw [hc]
      decide
    · intro w hw _
      simp [natToString]
      omega
  · obtain ⟨hne, hdig, hval, hlast, hlen⟩ := digitsRevAux_spec n n hn le_rfl
    have hnts : natToString n = (digitsRevAux n n).reverse := by
      rw [natToString, if_neg (by omega)]
    refine ⟨?_, ?_, ?_, ?_, ?_⟩
    · rw [hnts]
      simpa using hne
    · intro c hc
      rw [hnts, List.mem_reverse] at hc
      exact hdig c hc
    · rw [hnts, List.foldl_reverse]
      exact hval
    · intro _ c t h
      rcases List.eq_nil_or_concat (digitsRevAux n n) with hnil | ⟨l2, a, hconc⟩
      · exact absurd hnil hne
      · rw [List.concat_eq_append] at hconc
        rw [hnts, hconc, List.reverse_append] at h
        simp at h
        rw [← h.1]
        exact hlast l2 a hconc
    · intro w hw hww
      rw [hnts, List.length_reverse]
      exact hlen w hww

theorem convert_padded (pad : Char) (k v : Nat) (hpad : pad = ' ' ∨ pad = '0') :
    convert_string_to_number pad (List.replicate k pad ++ natToString v) = some v := by
  obtain ⟨hne, hdig, hval, hhead, -⟩ := natToString_spec v
  simp only [convert_string_to_number, replicate_dropWhile]
  have hdrop : (natToString v).dropWhile (fun c => c = pad) = natToString v ∨
      (v = 0 ∧ natToString v = ['0'] ∧ pad = '0') := by
    cases h : natToString v with
    | nil => exact absurd h hne
    | cons c t =>
      have hdc : isDigitCh c = true := hdig c (h ▸ List.mem_cons_self c t)
      rcases hpad with rfl | rfl
      · left
        rw [List.dropWhile_cons]
        have hcs : ¬ (c = ' ') := by
          intro hcsp
          rw [hcsp] at hdc
          exact absurd hdc (by decide)
        simp [hcs]
      · rcases Nat.eq_zero_or_pos v with rfl | hv
        · right
          exact ⟨rfl, by rw [← h]; rfl, rfl⟩
        · left
          rw [List.dropWhile_cons]
          have hcz : ¬ (c = '0') := hhead hv c t h
          simp [hcz]
  rcases hdrop with hdrop | ⟨rfl, hns, rfl⟩
  · rw [hdrop]
    have hall : (natToString v).all isDigitCh = true := List.all_eq_true.mpr hdig
    rw [if_pos hall, hval]
  · rw [hns]
    simp [List.dropWhile]

theorem readNum_padded (len : Nat) (pad : Char) (v : Nat) (rest : List Char)
    (hpad : pad = ' ' ∨ pad = '0') (hlen : 1 ≤ len) (hv : v < 10 ^ len) :
    readNum len pad (append_padded_value v pad len ++ rest) = some (v, rest) := by
  obtain ⟨-, -, -, -, hlenle⟩ := natToString_spec v
  have hL : (natToString v).length ≤ len := hlenle len hlen hv
  have hAL : (append_padded_value v pad len).length = len := by
    simp [append_padded_value]
    omega
  rw [readNum, if_pos (by rw [List.length_append, hAL]; omega)]
  rw [List.take_left' hAL, List.drop_left' hAL]
  have hform : append_padded_value v pad len =
      List.replicate (len - (natToString v).length) pad ++ natToString v := rfl
  rw [hform, convert_padded pad _ v hpad]
  rfl


theorem yoe_recover_era4 (yoe doy : Nat) (h0 : 369 ≤ yoe) (h1 : yoe ≤ 399) (h2 : doy ≤ 365)
    (h3 : doy = 365 → yoe % 4 = 3) :
    (365 * yoe + yoe / 4 - yoe / 100 + doy
      - (365 * yoe + yoe / 4 - yoe / 100 + doy) / 1460
      + (365 * yoe + yoe / 4 - yoe / 100 + doy) / 36524
      - (365 * yoe + yoe / 4 - yoe / 100 + doy) / 146096) / 365 = yoe := by
  have hc : yoe / 100 = 3 := by omega
  have hlo : 134771 ≤ 365 * yoe + yoe / 4 - yoe / 100 + doy := by omega
  have hde : 365 * yoe + yoe / 4 - yoe / 100 + doy ≤ 146096 := by omega
  have hef : (365 * yoe + yoe / 4 - yoe / 100 + doy) / 36524
      - (365 * yoe + yoe / 4 - yoe / 100 + doy) / 146096 = 3 := by omega
  have he4 : (365 * yoe + yoe / 4 - yoe / 100 + doy) / 36524 ≤ 4 := by omega
  have hf : (365 * yoe + yoe / 4 - yoe / 100 + doy) / 146096 ≤ 1 := by omega
  have hq : (365 * yoe + yoe / 4 - yoe / 100 + doy) / 1460 =
      yoe / 4 + (if 365 * (yoe % 4) + yoe / 4 + doy - 3 < 1460 then 0 else 1) := by
    split <;> omega
  split at hq <;> omega

theorem yoe_recover_era5 (yoe doy : Nat) (h1 : yoe ≤ 99) (h2 : doy ≤ 365)
    (h3 : doy = 365 → (yoe % 4 = 3 ∧ yoe ≠ 99)) :
    (365 * yoe + yoe / 4 - yoe / 100 + doy
      - (365 * yoe + yoe / 4 - yoe / 100 + doy) / 1460
      + (365 * yoe + yoe / 4 - yoe / 100 + doy) / 36524
      - (365 * yoe + yoe / 4 - yoe / 100 + doy) / 146096) / 365 = yoe := by
  have h100 : yoe / 100 = 0 := Nat.div_eq_of_lt (by omega)
  have hde : 365 * yoe + yoe / 4 - yoe / 100 + doy ≤ 36523 := by omega
  have he : (365 * yoe + yoe / 4 - yoe / 100 + doy) / 36524 = 0 := Nat.div_eq_of_lt (by omega)
  have hf : (365 * yoe + yoe / 4 - yoe / 100 + doy) / 146096 = 0 := Nat.div_eq_of_lt (by omega)
  have hq : (365 * yoe + yoe / 4 - yoe / 100 + doy) / 1460 =
      yoe / 4 + (if 365 * (yoe % 4) + yoe / 4 + doy < 1460 then 0 else 1) := by
    split <;> omega
  rw [he, hf] at *
  split at hq <;> omega

theorem days_from_civil_spec (n m d era yoe q : Nat) (hm : 1 ≤ m) (hm2 : m ≤ 12) (hn : 1 ≤ n)
    (hera : (n - (if m ≤ 2 then 1 else 0)) / 400 = era)
    (hyoe : n - (if m ≤ 2 then 1 else 0) - 400 * era = yoe)
    (hq : (153 * (if 2 < m then m - 3 else m + 9) + 2) / 5 = q)
    (hge : 719468 ≤ era * 146097 + (365 * yoe + yoe / 4 - yoe / 100 + (q + d - 1))) :
    days_from_civil (n : Int) m d =
      ((era * 146097 + (365 * yoe + yoe / 4 - yoe / 100 + (q + d - 1)) - 719468 : Nat) : Int) := by
  rcases le_or_lt m 2 with h | h
  · simp only [if_pos h, if_neg (show ¬ 2 < m by omega)] at hera hyoe hq
    simp only [days_from_civil, if_pos h, if_neg (show ¬ 2 < m by omega)]
    rw [if_pos (show (0:Int) ≤ (n:Int) - 1 by omega),
        Int.tdiv_eq_ediv (show (0:Int) ≤ (n:Int) - 1 by omega) (by omega)]
    rw [show ((n:Int) - 1) / 400 = ((era : Nat) : Int) by omega]
    rw [show ((n:Int) - 1 - (era : Int) * 400).toNat = yoe by omega]
    rw [hq]
    omega
  · simp only [if_neg (show ¬ m ≤ 2 by omega), if_pos h] at hera hyoe hq
    simp only [days_from_civil, if_neg (show ¬ m ≤ 2 by omega), if_pos h]
    rw [show (n:Int) - 0 = (n:Int) by ring]
    rw [if_pos (show (0:Int) ≤ (n:Int) by omega),
        Int.tdiv_eq_ediv (show (0:Int) ≤ (n:Int) by omega) (by omega)]
    rw [show ((n:Int)) / 400 = ((era : Nat) : Int) by omega]
    rw [show ((n:Int) - (era : Int) * 400).toNat = yoe by omega]
    rw [hq]
    omega

theorem civil_from_days_spec (zn era doe yoe doy mp : Nat)
    (hera : (zn + 719468) / 146097 = era)
    (hdoe : zn + 719468 - era * 146097 = doe)
    (hyoe : (doe - doe / 1460 + doe / 36524 - doe / 146096) / 365 = yoe)
    (hdoy : doe - (365 * yoe + yoe / 4 - yoe / 100) = doy)
    (hmp : (5 * doy + 2) / 153 = mp) :
    civil_from_days (zn : Int) =
      (((yoe + era * 400 : Nat) : Int) + (if (if mp < 10 then mp + 3 else mp - 9) ≤ 2 then 1 else 0),
       (if mp < 10 then mp + 3 else mp - 9),
       doy - (153 * mp + 2) / 5 + 1) := by
  simp only [civil_from_days]
  rw [if_pos (show (0:Int) ≤ (zn:Int) + 719468 by omega),
      Int.tdiv_eq_ediv (show (0:Int) ≤ (zn:Int) + 719468 by omega) (by omega)]
  rw [show ((zn:Int) + 719468) / 146097 = ((era:Nat) : Int) by omega]
  rw [show ((zn:Int) + 719468 - (era:Int) * 146097).toNat = doe by omega]
  rw [hyoe, hdoy, hmp]
  simp only [Prod.mk.injEq, and_true]
  split <;> omega

theorem days_spec_le2 (n m d era yoe q : Nat) (hm : 1 ≤ m) (hmle : m ≤ 2) (hn : 1 ≤ n)
    (hera : (n - 1) / 400 = era)
    (hyoe : n - 1 - 400 * era = yoe)
    (hq : (153 * (m + 9) + 2) / 5 = q)
    (hge : 719468 ≤ era * 146097 + (365 * yoe + yoe / 4 - yoe / 100 + (q + d - 1))) :
    days_from_civil (n : Int) m d =
      ((era * 146097 + (365 * yoe + yoe / 4 - yoe / 100 + (q + d - 1)) - 719468 : Nat) : Int) := by
  refine days_from_civil_spec n m d era yoe q hm (by omega) hn ?_ ?_ ?_ hge <;>
    simp only [if_pos hmle, if_neg (show ¬ 2 < m by omega)]
  · exact hera
  · exact hyoe
  · exact hq

theorem days_spec_gt2 (n m d era yoe q : Nat) (hmgt : 2 < m) (hm2 : m ≤ 12) (hn : 1 ≤ n)
    (hera : n / 400 = era)
    (hyoe : n - 400 * era = yoe)
    (hq : (153 * (m - 3) + 2) / 5 = q)
    (hge : 719468 ≤ era * 146097 + (365 * yoe + yoe / 4 - yoe / 100 + (q + d - 1))) :
    days_from_civil (n : Int) m d =
      ((era * 146097 + (365 * yoe + yoe / 4 - yoe / 100 + (q + d - 1)) - 719468 : Nat) : Int) := by
  refine days_from_civil_spec n m d era yoe q (by omega) hm2 hn ?_ ?_ ?_ hge <;>
    simp only [if_neg (show ¬ m ≤ 2 by omega), if_pos hmgt]
  · simpa using hera
  · simpa using hyoe
  · exact hq

theorem civil_days_roundtrip (n m d : Nat) (h1 : 1970 ≤ n) (h2 : n ≤ 2099)
    (hm1 : 1 ≤ m) (hm2 : m ≤ 12) (hd1 : 1 ≤ d) (hd31 : d ≤ 31)
    (hd30 : m = 4 ∨ m = 6 ∨ m = 9 ∨ m = 11 → d ≤ 30)
    (hd29 : m = 2 → d ≤ 29)
    (hfeb : m = 2 → d = 29 → n % 4 = 0) :
    civil_from_days (days_from_civil (n : Int) m d) = ((n : Int), m, d) := by
  rcases le_or_lt m 2 with hm' | hm'
  · interval_cases m
    · rcases le_or_lt n 2000 with hb | hb
      · have h4 : 92 ≤ (n - 1601) / 4 := by omega
        have h4b : (n - 1601) / 4 ≤ 99 := by omega
        have h100 : (n - 1601) / 100 = 3 := by omega
        rw [days_spec_le2 n 1 d 4 (n - 1601) 306 (by omega) (by omega) (by omega)
          (by omega) (by omega) (by omega) (by omega)]
        have hkey := yoe_recover_era4 (n - 1601) (306 + d - 1) (by omega) (by omega)
          (by omega) (by omega)
        rw [civil_from_days_spec _ 4
          (365 * (n - 1601) + (n - 1601) / 4 - (n - 1601) / 100 + (306 + d - 1))
          (n - 1601) (306 + d - 1) 10
          (by omega) (by omega) hkey (by omega) (by omega)]
        clear hkey
        rw [if_neg (show ¬ (10:Nat) < 10 by omega), if_pos (show 10 - 9 ≤ 2 by omega)]
        simp only [Prod.mk.injEq]
        refine ⟨?_, ?_, ?_⟩ <;> first | trivial | omega
      · have h4 : (n - 2001) / 4 ≤ 24 := by omega
        have h100 : (n - 2001) / 100 = 0 := by omega
        rw [days_spec_le2 n 1 d 5 (n - 2001) 306 (by omega) (by omega) (by omega)
          (by omega) (by omega) (by omega) (by omega)]
        have hkey := yoe_recover_era5 (n - 2001) (306 + d - 1) (by omega) (by omega) (by omega)
        rw [civil_from_days_spec _ 5
          (365 * (n - 2001) + (n - 2001) / 4 - (n - 2001) / 100 + (306 + d - 1))
          (n - 2001) (306 + d - 1) 10
          (by omega) (by omega) hkey (by omega) (by omega)]
        clear hkey
        rw [if_neg (show ¬ (10:Nat) < 10 by omega), if_pos (show 10 - 9 ≤ 2 by omega)]
        simp only [Prod.mk.injEq]
        refine ⟨?_, ?_, ?_⟩ <;> first | trivial | omega
    · have hd29' : d ≤ 29 := hd29 rfl
      rcases le_or_lt n 2000 with hb | hb
      · have h4 : 92 ≤ (n - 1601) / 4 := by omega
        have h4b : (n - 1601) / 4 ≤ 99 := by omega
        have h100 : (n - 1601) / 100 = 3 := by omega
        rw [days_spec_le2 n 2 d 4 (n - 1601) 337 (by omega) (by omega) (by omega)
          (by omega) (by omega) (by omega) (by omega)]
        have hkey := yoe_recover_era4 (n - 1601) (337 + d - 1) (by omega) (by omega)
          (by omega) (by intro hy; have := hfeb rfl (by omega); omega)
        rw [civil_from_days_spec _ 4
          (365 * (n - 1601) + (n - 1601) / 4 - (n - 1601) / 100 + (337 + d - 1))
          (n - 1601) (337 + d - 1) 11
          (by omega) (by omega) hkey (by omega) (by omega)]
        clear hkey
        rw [if_neg (show ¬ (11:Nat) < 10 by omega), if_pos (show 11 - 9 ≤ 2 by omega)]
        simp only [Prod.mk.injEq]
        refine ⟨?_, ?_, ?_⟩ <;> first | trivial | omega
      · have h4 : (n - 2001) / 4 ≤ 24 := by omega
        have h100 : (n - 2001) / 100 = 0 := by omega
        rw [days_spec_le2 n 2 d 5 (n - 2001) 337 (by omega) (by omega) (by omega)
          (by omega) (by omega) (by omega) (by omega)]
        have hkey := yoe_recover_era5 (n - 2001) (337 + d - 1) (by omega) (by omega)
          (by intro hy; have := hfeb rfl (by omega); omega)
        rw [civil_from_days_spec _ 5
          (365 * (n - 2001) + (n - 2001) / 4 - (n - 2001) / 100 + (337 + d - 1))
          (n - 2001) (337 + d - 1) 11
          (by omega) (by omega) hkey (by omega) (by omega)]
        clear hkey
        rw [if_neg (show ¬ (11:Nat) < 10 by omega), if_pos (show 11 - 9 ≤ 2 by omega)]
        simp only [Prod.mk.injEq]
        refine ⟨?_, ?_, ?_⟩ <;> first | trivial | omega
  · have hmp : (5 * ((153 * (m - 3) + 2) / 5 + d - 1) + 2) / 153 = m - 3 := by
      rcases le_or_lt d 30 with hd' | hd'
      · omega
      · have h4 : m ≠ 4 := fun hh => by have := hd30 (Or.inl hh); omega
        have h6 : m ≠ 6 := fun hh => by have := hd30 (Or.inr (Or.inl hh)); omega
        have h9 : m ≠ 9 := fun hh => by have := hd30 (Or.inr (Or.inr (Or.inl hh))); omega
        have h11 : m ≠ 11 := fun hh => by have := hd30 (Or.inr (Or.inr (Or.inr hh))); omega
        interval_cases m <;> omega
    rcases le_or_lt n 1999 with hb | hb
    · have h4 : 92 ≤ (n - 1600) / 4 := by omega
      have h4b : (n - 1600) / 4 ≤ 99 := by omega
      have h100 : (n - 1600) / 100 = 3 := by omega
      rw [days_spec_gt2 n m d 4 (n - 1600) ((153 * (m - 3) + 2) / 5)
        hm' (by omega) (by omega) (by omega) (by omega) rfl (by omega)]
      have hkey := yoe_recover_era4 (n - 1600) ((153 * (m - 3) + 2) / 5 + d - 1) (by omega)
        (by omega) (by omega) (by omega)
      rw [civil_from_days_spec _ 4
        (365 * (n - 1600) + (n - 1600) / 4 - (n - 1600) / 100 + ((153 * (m - 3) + 2) / 5 + d - 1))
        (n - 1600) ((153 * (m - 3) + 2) / 5 + d - 1) (m - 3)
        (by omega) (by omega) hkey (by omega) hmp]
      clear hkey hmp
      rw [if_pos (show m - 3 < 10 by omega), if_neg (show ¬ (m - 3 + 3 ≤ 2) by omega)]
      simp only [Prod.mk.injEq]
      refine ⟨?_, ?_, ?_⟩ <;> first | trivial | omega
    · have h4 : (n - 2000) / 4 ≤ 24 := by omega
      have h100 : (n - 2000) / 100 = 0 := by omega
      rw [days_spec_gt2 n m d 5 (n - 2000) ((153 * (m - 3) + 2) / 5)
        hm' (by omega) (by omega) (by omega) (by omega) rfl (by omega)]
      have hkey := yoe_recover_era5 (n - 2000) ((153 * (m - 3) + 2) / 5 + d - 1) (by omega)
        (by omega) (by omega)
      rw [civil_from_days_spec _ 5
        (365 * (n - 2000) + (n - 2000) / 4 - (n - 2000) / 100 + ((153 * (m - 3) + 2) / 5 + d - 1))
        (n - 2000) ((153 * (m - 3) + 2) / 5 + d - 1) (m - 3)
        (by omega) (by omega) hkey (by omega) hmp]
      clear hkey hmp
      rw [if_pos (show m - 3 < 10 by omega), if_neg (show ¬ (m - 3 + 3 ≤ 2) by omega)]
      simp only [Prod.mk.injEq]
      refine ⟨?_, ?_, ?_⟩ <;> first | trivial | omega

theorem days_from_civil_as_nat (n m d : Nat) (h1 : 1970 ≤ n) (h2 : n ≤ 2099)
    (hm1 : 1 ≤ m) (hm2 : m ≤ 12) (hd1 : 1 ≤ d) (hd31 : d ≤ 31) :
    ∃ zn : Nat, days_from_civil (n : Int) m d = (zn : Int) ∧ zn ≤ 47481 := by
  rcases le_or_lt m 2 with hm' | hm'
  · rcases le_or_lt n 2000 with hb | hb
    · have h4 : 92 ≤ (n - 1601) / 4 := by omega
      have h4b : (n - 1601) / 4 ≤ 99 := by omega
      have h100 : (n - 1601) / 100 = 3 := by omega
      rw [days_spec_le2 n m d 4 (n - 1601) ((153 * (m + 9) + 2) / 5) (by omega) (by omega)
        (by omega) (by omega) (by omega) rfl (by omega)]
      exact ⟨_, rfl, by omega⟩
    · have h4 : (n - 2001) / 4 ≤ 24 := by omega
      have h100 : (n - 2001) / 100 = 0 := by omega
      rw [days_spec_le2 n m d 5 (n - 2001) ((153 * (m + 9) + 2) / 5) (by omega) (by omega)
        (by omega) (by omega) (by omega) rfl (by omega)]
      exact ⟨_, rfl, by omega⟩
  · rcases le_or_lt n 1999 with hb | hb
    · have h4 : 92 ≤ (n - 1600) / 4 := by omega
      have h4b : (n - 1600) / 4 ≤ 99 := by omega
      have h100 : (n - 1600) / 100 = 3 := by omega
      rw [days_spec_gt2 n m d 4 (n - 1600) ((153 * (m - 3) + 2) / 5)
        hm' (by omega) (by omega) (by omega) (by omega) rfl (by omega)]
      exact ⟨_, rfl, by omega⟩
    · have h4 : (n - 2000) / 4 ≤ 24 := by omega
      have h100 : (n - 2000) / 100 = 0 := by omega
      rw [days_spec_gt2 n m d 5 (n - 2000) ((153 * (m - 3) + 2) / 5)
        hm' (by omega) (by omega) (by omega) (by omega) rfl (by omega)]
      exact ⟨_, rfl, by omega⟩

theorem decompose_ts_spec (D T : Nat) (hT : T < 86400000) :
    decompose_ts ((D : Int) * 86400000 + (T : Int)) =
      { year := (civil_from_days (D : Int)).1, month := (civil_from_days (D : Int)).2.1,
        date := (civil_from_days (D : Int)).2.2,
        day_of_week_ix := (((D : Int) + 4).emod 7).toNat,
        hour := T / 3600000, minute := T % 3600000 / 60000,
        second := T % 60000 / 1000, millisecond := T % 1000 } := by
  simp only [decompose_ts]
  rw [show Int.ediv ((D:Int) * 86400000 + (T:Int)) 86400000 = (D:Int) by
    rw [show Int.ediv ((D:Int) * 86400000 + (T:Int)) 86400000
        = ((D:Int) * 86400000 + (T:Int)) / 86400000 from rfl]
    omega]
  rw [show ((D:Int) * 86400000 + (T:Int) - (D:Int) * 86400000).toNat = T by omega]

theorem decompose_tsOf (n m d h mi s ms : Nat) (h1 : 1970 ≤ n) (h2 : n ≤ 2099)
    (hm1 : 1 ≤ m) (hm2 : m ≤ 12) (hd1 : 1 ≤ d) (hd31 : d ≤ 31)
    (hd30 : m = 4 ∨ m = 6 ∨ m = 9 ∨ m = 11 → d ≤ 30)
    (hd29 : m = 2 → d ≤ 29)
    (hfeb : m = 2 → d = 29 → n % 4 = 0)
    (hh : h ≤ 23) (hmi : mi ≤ 59) (hs : s ≤ 59) (hms : ms ≤ 999) :
    decompose_ts (tsOf (n : Int) m d h mi s ms) =
      { year := (n : Int), month := m, date := d,
        day_of_week_ix := ((days_from_civil (n : Int) m d + 4).emod 7).toNat,
        hour := h, minute := mi, second := s, millisecond := ms } := by
  obtain ⟨zn, hz, hzb⟩ := days_from_civil_as_nat n m d h1 h2 hm1 hm2 hd1 hd31
  have hrt := civil_days_roundtrip n m d h1 h2 hm1 hm2 hd1 hd31 hd30 hd29 hfeb
  rw [hz] at hrt
  have hts : tsOf (n : Int) m d h mi s ms =
      (zn : Int) * 86400000 + ((h * 3600000 + mi * 60000 + s * 1000 + ms : Nat) : Int) := by
    simp only [tsOf, hz]
    push_cast
    ring
  rw [hts, decompose_ts_spec zn _ (by omega), hrt, hz]
  simp only [TsParts.mk.injEq, and_true, true_and]
  refine ⟨?_, ?_, ?_, ?_⟩ <;> omega

theorem parseSpec_nil (sp : Char) (st : PState) : parseSpec sp [] st = none := by
  unfold parseSpec
  split <;> simp [numField, nameField, readNum, matchNameIx, convert_string_to_number,
    cMonthNames, cAbbrevMonthNames, cAbbrevDaysOfWeek]

theorem runFmt_nil_line (f : Char) (fmt : List Char) (st : PState) :
    runFmt (f :: fmt) [] st = none := by
  rw [runFmt.eq_def]
  split <;> first | rfl | simp_all

theorem runFmt_step {sp : Char} {x : List Char} {st st2 : PState} {r : List Char}
    (fmt : List Char) (h : parseSpec sp x st = some (st2, r)) :
    runFmt ('%' :: sp :: fmt) x st = runFmt fmt r st2 := by
  cases x with
  | nil => rw [parseSpec_nil] at h; exact absurd h (by simp)
  | cons c s =>
    rw [show runFmt ('%' :: sp :: fmt) (c :: s) st =
        (match parseSpec sp (c :: s) st with
         | some (st2, r) => runFmt fmt r st2
         | none => none) from rfl, h]

theorem runFmt_step_fail {sp : Char} {x : List Char} {st : PState}
    (fmt : List Char) (h : parseSpec sp x st = none) :
    runFmt ('%' :: sp :: fmt) x st = none := by
  cases x with
  | nil => rfl
  | cons c s =>
    rw [show runFmt ('%' :: sp :: fmt) (c :: s) st =
        (match parseSpec sp (c :: s) st with
         | some (st2, r) => runFmt fmt r st2
         | none => none) from rfl, h]

theorem runFmt_lit_fail {c d : Char} (hc : c ≠ '%') (hd : c ≠ d)
    (fmt : List Char) (s : List Char) (st : PState) :
    runFmt (c :: fmt) (d :: s) st = none := by
  rw [runFmt_cons_lit hc, if_neg hd]

theorem numField_forward (len : Nat) (pad : Char) (P : Nat → Bool) (f : Nat → PState)
    (v : Nat) (rest : List Char) (hpad : pad = ' ' ∨ pad = '0') (hlen : 1 ≤ len)
    (hv : v < 10 ^ len) (hP : P v = true) :
    numField len pad P f (append_padded_value v pad len ++ rest) = some (f v, rest) := by
  unfold numField
  rw [readNum_padded len pad v rest hpad hlen hv]
  simp [hP]

theorem matchNameIx_forward {names : List (List Char)} :
    ∀ {ix : Nat} {nm : List Char},
    names.Pairwise (fun a b => a.take b.length ≠ b ∧ b.take a.length ≠ a) →
    names.get? ix = some nm →
    ∀ rest, matchNameIx names (nm ++ rest) = some (ix, rest) := by
  induction names with
  | nil =>
    intro ix nm _ hget
    simp at hget
  | cons nm0 tailn ih =>
    intro ix nm hpw hget rest
    cases ix with
    | zero =>
      simp only [List.get?] at hget
      obtain rfl : nm0 = nm := by simpa using hget
      rw [matchNameIx, if_pos (List.take_left _ _), List.drop_left]
    | succ k =>
      simp only [List.get?] at hget
      have hmem : nm ∈ tailn := List.get?_mem hget
      have hpair := (List.pairwise_cons.mp hpw).1 nm hmem
      rw [matchNameIx, if_neg ?hne, ih (List.pairwise_cons.mp hpw).2 hget rest,
        Option.map_some']
      case hne =>
        intro habs
        by_cases hlen : nm0.length ≤ nm.length
        · rw [List.take_append_of_le_length hlen] at habs
          exact hpair.2 habs
        · apply hpair.1
          have h2 := congrArg (List.take nm.length) habs
          rw [take_take_of_le _ (by omega), List.take_left] at h2
          exact h2.symm

theorem parseSpec_y_fwd (st : PState) (v : Nat) (rest : List Char) (hv : v ≤ 99) :
    parseSpec 'y' (append_padded_value v '0' 2 ++ rest) st = some ({ st with year := twoDigitToYear v }, rest) := by
  rw [show parseSpec 'y' (append_padded_value v '0' 2 ++ rest) st
      = numField 2 '0' (fun v => v ≤ 99) (fun v => { st with year := twoDigitToYear v })
          (append_padded_value v '0' 2 ++ rest) from rfl]
  exact numField_forward _ _ _ _ _ _ (Or.inr rfl) (by omega) (by omega)
    (by simp only [Bool.and_eq_true, decide_eq_true_eq]; omega)

theorem parseSpec_Y_fwd (st : PState) (v : Nat) (rest : List Char) (hv : v ≤ 9999) :
    parseSpec 'Y' (append_padded_value v '0' 4 ++ rest) st = some ({ st with year := v }, rest) := by
  rw [show parseSpec 'Y' (append_padded_value v '0' 4 ++ rest) st
      = numField 4 '0' (fun v => v ≤ 9999) (fun v => { st with year := v })
          (append_padded_value v '0' 4 ++ rest) from rfl]
  exact numField_forward _ _ _ _ _ _ (Or.inr rfl) (by omega) (by omega)
    (by simp only [Bool.and_eq_true, decide_eq_true_eq]; omega)

theorem parseSpec_m_fwd (st : PState) (v : Nat) (rest : List Char) (hv1 : 1 ≤ v) (hv2 : v ≤ 12) :
    parseSpec 'm' (append_padded_value v '0' 2 ++ rest) st = some ({ st with month := v }, rest) := by
  rw [show parseSpec 'm' (append_padded_value v '0' 2 ++ rest) st
      = numField 2 '0' (fun v => 1 ≤ v && v ≤ 12) (fun v => { st with month := v })
          (append_padded_value v '0' 2 ++ rest) from rfl]
  exact numField_forward _ _ _ _ _ _ (Or.inr rfl) (by omega) (by omega)
    (by simp only [Bool.and_eq_true, decide_eq_true_eq]; omega)

theorem parseSpec_d_fwd (st : PState) (v : Nat) (rest : List Char) (hv1 : 1 ≤ v) (hv2 : v ≤ 31) :
    parseSpec 'd' (append_padded_value v '0' 2 ++ rest) st = some ({ st with date := v }, rest) := by
  rw [show parseSpec 'd' (append_padded_value v '0' 2 ++ rest) st
      = numField 2 '0' (fun v => 1 ≤ v && v ≤ 31) (fun v => { st with date := v })
          (append_padded_value v '0' 2 ++ rest) from rfl]
  exact numField_forward _ _ _ _ _ _ (Or.inr rfl) (by omega) (by omega)
    (by simp only [Bool.and_eq_true, decide_eq_true_eq]; omega)

theorem parseSpec_e_fwd (st : PState) (v : Nat) (rest : List Char) (hv1 : 1 ≤ v) (hv2 : v ≤ 31) :
    parseSpec 'e' (append_padded_value v ' ' 2 ++ rest) st = some ({ st with date := v }, rest) := by
  rw [show parseSpec 'e' (append_padded_value v ' ' 2 ++ rest) st
      = numField 2 ' ' (fun v => 1 ≤ v && v ≤ 31) (fun v => { st with date := v })
          (append_padded_value v ' ' 2 ++ rest) from rfl]
  exact numField_forward _ _ _ _ _ _ (Or.inl rfl) (by omega) (by omega)
    (by simp only [Bool.and_eq_true, decide_eq_true_eq]; omega)

theorem parseSpec_H_fwd (st : PState) (v : Nat) (rest : List Char) (hv : v ≤ 23) :
    parseSpec 'H' (append_padded_value v '0' 2 ++ rest) st = some ({ st with hour := v }, rest) := by
  rw [show parseSpec 'H' (append_padded_value v '0' 2 ++ rest) st
      = numField 2 '0' (fun v => v ≤ 23) (fun v => { st with hour := v })
          (append_padded_value v '0' 2 ++ rest) from rfl]
  exact numField_forward _ _ _ _ _ _ (Or.inr rfl) (by omega) (by omega)
    (by simp only [Bool.and_eq_true, decide_eq_true_eq]; omega)

theorem parseSpec_k_fwd (st : PState) (v : Nat) (rest : List Char) (hv : v ≤ 23) :
    parseSpec 'k' (append_padded_value v ' ' 2 ++ rest) st = some ({ st with hour := v }, rest) := by
  rw [show parseSpec 'k' (append_padded_value v ' ' 2 ++ rest) st
      = numField 2 ' ' (fun v => v ≤ 23) (fun v => { st with hour := v })
          (append_padded_value v ' ' 2 ++ rest) from rfl]
  exact numField_forward _ _ _ _ _ _ (Or.inl rfl) (by omega) (by omega)
    (by simp only [Bool.and_eq_true, decide_eq_true_eq]; omega)

theorem parseSpec_I_fwd (st : PState) (v : Nat) (rest : List Char) (hv1 : 1 ≤ v) (hv2 : v ≤ 12) :
    parseSpec 'I' (append_padded_value v '0' 2 ++ rest) st = some ({ st with hour := v, uses_12_hour_clock := true }, rest) := by
  rw [show parseSpec 'I' (append_padded_value v '0' 2 ++ rest) st
      = numField 2 '0' (fun v => 1 ≤ v && v ≤ 12) (fun v => { st with hour := v, uses_12_hour_clock := true })
          (append_padded_value v '0' 2 ++ rest) from rfl]
  exact numField_forward _ _ _ _ _ _ (Or.inr rfl) (by omega) (by omega)
    (by simp only [Bool.and_eq_true, decide_eq_true_eq]; omega)

theorem parseSpec_l_fwd (st : PState) (v : Nat) (rest : List Char) (hv1 : 1 ≤ v) (hv2 : v ≤ 12) :
    parseSpec 'l' (append_padded_value v ' ' 2 ++ rest) st = some ({ st with hour := v, uses_12_hour_clock := true }, rest) := by
  rw [show parseSpec 'l' (append_padded_value v ' ' 2 ++ rest) st
      = numField 2 ' ' (fun v => 1 ≤ v && v ≤ 12) (fun v => { st with hour := v, uses_12_hour_clock := true })
          (append_padded_value v ' ' 2 ++ rest) from rfl]
  exact numField_forward _ _ _ _ _ _ (Or.inl rfl) (by omega) (by omega)
    (by simp only [Bool.and_eq_true, decide_eq_true_eq]; omega)

theorem parseSpec_M_fwd (st : PState) (v : Nat) (rest : List Char) (hv : v ≤ 59) :
    parseSpec 'M' (append_padded_value v '0' 2 ++ rest) st = some ({ st with minute := v }, rest) := by
  rw [show parseSpec 'M' (append_padded_value v '0' 2 ++ rest) st
      = numField 2 '0' (fun v => v ≤ 59) (fun v => { st with minute := v })
          (append_padded_value v '0' 2 ++ rest) from rfl]
  exact numField_forward _ _ _ _ _ _ (Or.inr rfl) (by omega) (by omega)
    (by simp only [Bool.and_eq_true, decide_eq_true_eq]; omega)

theorem parseSpec_S_fwd (st : PState) (v : Nat) (rest : List Char) (hv : v ≤ 60) :
    parseSpec 'S' (append_padded_value v '0' 2 ++ rest) st = some ({ st with second := v }, rest) := by
  rw [show parseSpec 'S' (append_padded_value v '0' 2 ++ rest) st
      = numField 2 '0' (fun v => v ≤ 60) (fun v => { st with second := v })
          (append_padded_value v '0' 2 ++ rest) from rfl]
  exact numField_forward _ _ _ _ _ _ (Or.inr rfl) (by omega) (by omega)
    (by simp only [Bool.and_eq_true, decide_eq_true_eq]; omega)

theorem parseSpec_ms_fwd (st : PState) (v : Nat) (rest : List Char) (hv : v ≤ 999) :
    parseSpec '3' (append_padded_value v '0' 3 ++ rest) st = some ({ st with millisecond := v }, rest) := by
  rw [show parseSpec '3' (append_padded_value v '0' 3 ++ rest) st
      = numField 3 '0' (fun v => v ≤ 999) (fun v => { st with millisecond := v })
          (append_padded_value v '0' 3 ++ rest) from rfl]
  exact numField_forward _ _ _ _ _ _ (Or.inr rfl) (by omega) (by omega)
    (by simp only [Bool.and_eq_true, decide_eq_true_eq]; omega)

theorem parseSpec_b_fwd (st : PState) (ix : Nat) (nm : List Char) (rest : List Char)
    (hget : cAbbrevMonthNames.get? ix = some nm) :
    parseSpec 'b' (nm ++ rest) st = some ({ st with month := ix + 1 }, rest) := by
  rw [show parseSpec 'b' (nm ++ rest) st
      = nameField cAbbrevMonthNames (fun ix => { st with month := ix + 1 }) (nm ++ rest) from rfl]
  unfold nameField
  rw [matchNameIx_forward (by decide) hget rest]

theorem parseSpec_B_fwd (st : PState) (ix : Nat) (nm : List Char) (rest : List Char)
    (hget : cMonthNames.get? ix = some nm) :
    parseSpec 'B' (nm ++ rest) st = some ({ st with month := ix + 1 }, rest) := by
  rw [show parseSpec 'B' (nm ++ rest) st
      = nameField cMonthNames (fun ix => { st with month := ix + 1 }) (nm ++ rest) from rfl]
  unfold nameField
  rw [matchNameIx_forward (by decide) hget rest]

theorem parseSpec_a_fwd (st : PState) (ix : Nat) (nm : List Char) (rest : List Char)
    (hget : cAbbrevDaysOfWeek.get? ix = some nm) :
    parseSpec 'a' (nm ++ rest) st = some (st, rest) := by
  rw [show parseSpec 'a' (nm ++ rest) st
      = nameField cAbbrevDaysOfWeek (fun _ => st) (nm ++ rest) from rfl]
  unfold nameField
  rw [matchNameIx_forward (by decide) hget rest]

theorem parseSpec_p_AM (st : PState) (rest : List Char) :
    parseSpec 'p' ('A' :: 'M' :: rest) st = some ({ st with is_pm := false }, rest) := by
  simp [parseSpec]

theorem parseSpec_p_PM (st : PState) (rest : List Char) :
    parseSpec 'p' ('P' :: 'M' :: rest) st = some ({ st with is_pm := true }, rest) := by
  simp [parseSpec]

theorem runFmt_lit (c : Char) {fmt s : List Char} {st : PState} (hc : c ≠ '%') :
    runFmt (c :: fmt) (c :: s) st = runFmt fmt s st := by
  rw [runFmt_cons_lit hc, if_pos rfl]

theorem runFmt_Y {v : Nat} (hv : v ≤ 9999) {fmt rest : List Char} {st : PState} :
    runFmt ('%' :: 'Y' :: fmt) (append_padded_value v '0' 4 ++ rest) st
      = runFmt fmt rest { st with year := v } :=
  runFmt_step fmt (parseSpec_Y_fwd st v rest hv)

theorem runFmt_y {v : Nat} (hv : v ≤ 99) {fmt rest : List Char} {st : PState} :
    runFmt ('%' :: 'y' :: fmt) (append_padded_value v '0' 2 ++ rest) st
      = runFmt fmt rest { st with year := twoDigitToYear v } :=
  runFmt_step fmt (parseSpec_y_fwd st v rest hv)

theorem runFmt_m {v : Nat} (hv1 : 1 ≤ v) (hv2 : v ≤ 12) {fmt rest : List Char} {st : PState} :
    runFmt ('%' :: 'm' :: fmt) (append_padded_value v '0' 2 ++ rest) st
      = runFmt fmt rest { st with month := v } :=
  runFmt_step fmt (parseSpec_m_fwd st v rest hv1 hv2)

theorem runFmt_d {v : Nat} (hv1 : 1 ≤ v) (hv2 : v ≤ 31) {fmt rest : List Char} {st : PState} :
    runFmt ('%' :: 'd' :: fmt) (append_padded_value v '0' 2 ++ rest) st
      = runFmt fmt rest { st with date := v } :=
  runFmt_step fmt (parseSpec_d_fwd st v rest hv1 hv2)

theorem runFmt_e {v : Nat} (hv1 : 1 ≤ v) (hv2 : v ≤ 31) {fmt rest : List Char} {st : PState} :
    runFmt ('%' :: 'e' :: fmt) (append_padded_value v ' ' 2 ++ rest) st
      = runFmt fmt rest { st with date := v } :=
  runFmt_step fmt (parseSpec_e_fwd st v rest hv1 hv2)

theorem runFmt_H {v : Nat} (hv : v ≤ 23) {fmt rest : List Char} {st : PState} :
    runFmt ('%' :: 'H' :: fmt) (append_padded_value v '0' 2 ++ rest) st
      = runFmt fmt rest { st with hour := v } :=
  runFmt_step fmt (parseSpec_H_fwd st v rest hv)

theorem runFmt_k {v : Nat} (hv : v ≤ 23) {fmt rest : List Char} {st : PState} :
    runFmt ('%' :: 'k' :: fmt) (append_padded_value v ' ' 2 ++ rest) st
      = runFmt fmt rest { st with hour := v } :=
  runFmt_step fmt (parseSpec_k_fwd st v rest hv)

theorem runFmt_l {v : Nat} (hv1 : 1 ≤ v) (hv2 : v ≤ 12) {fmt rest : List Char} {st : PState} :
    runFmt ('%' :: 'l' :: fmt) (append_padded_value v ' ' 2 ++ rest) st
      = runFmt fmt rest { st with hour := v, uses_12_hour_clock := true } :=
  runFmt_step fmt (parseSpec_l_fwd st v rest hv1 hv2)

theorem runFmt_M {v : Nat} (hv : v ≤ 59) {fmt rest : List Char} {st : PState} :
    runFmt ('%' :: 'M' :: fmt) (append_padded_value v '0' 2 ++ rest) st
      = runFmt fmt rest { st with minute := v } :=
  runFmt_step fmt (parseSpec_M_fwd st v rest hv)

theorem runFmt_S {v : Nat} (hv : v ≤ 60) {fmt rest : List Char} {st : PState} :
    runFmt ('%' :: 'S' :: fmt) (append_padded_value v '0' 2 ++ rest) st
      = runFmt fmt rest { st with second := v } :=
  runFmt_step fmt (parseSpec_S_fwd st v rest hv)

theorem runFmt_ms {v : Nat} (hv : v ≤ 999) {fmt rest : List Char} {st : PState} :
    runFmt ('%' :: '3' :: fmt) (append_padded_value v '0' 3 ++ rest) st
      = runFmt fmt rest { st with millisecond := v } :=
  runFmt_step fmt (parseSpec_ms_fwd st v rest hv)

theorem runFmt_b {ix : Nat} {nm : List Char} (hget : cAbbrevMonthNames.get? ix = some nm)
    {fmt rest : List Char} {st : PState} :
    runFmt ('%' :: 'b' :: fmt) (nm ++ rest) st
      = runFmt fmt rest { st with month := ix + 1 } :=
  runFmt_step fmt (parseSpec_b_fwd st ix nm rest hget)

theorem runFmt_B {ix : Nat} {nm : List Char} (hget : cMonthNames.get? ix = some nm)
    {fmt rest : List Char} {st : PState} :
    runFmt ('%' :: 'B' :: fmt) (nm ++ rest) st
      = runFmt fmt rest { st with month := ix + 1 } :=
  runFmt_step fmt (parseSpec_B_fwd st ix nm rest hget)

theorem runFmt_a {ix : Nat} {nm : List Char} (hget : cAbbrevDaysOfWeek.get? ix = some nm)
    {fmt rest : List Char} {st : PState} :
    runFmt ('%' :: 'a' :: fmt) (nm ++ rest) st
      = runFmt fmt rest st :=
  runFmt_step fmt (parseSpec_a_fwd st ix nm rest hget)

theorem runFmt_p_AM {fmt rest : List Char} {st : PState} :
    runFmt ('%' :: 'p' :: fmt) ('A' :: 'M' :: rest) st
      = runFmt fmt rest { st with is_pm := false } :=
  runFmt_step fmt (parseSpec_p_AM st rest)

theorem runFmt_p_PM {fmt rest : List Char} {st : PState} :
    runFmt ('%' :: 'p' :: fmt) ('P' :: 'M' :: rest) st
      = runFmt fmt rest { st with is_pm := true } :=
  runFmt_step fmt (parseSpec_p_PM st rest)

theorem pat0_fwd (t : TsParts) (rest : List Char)
    (hY : t.year.toNat ≤ 9999) (hm1 : 1 ≤ t.month) (hm2 : t.month ≤ 12)
    (hd1 : 1 ≤ t.date) (hd2 : t.date ≤ 31) (hH : t.hour ≤ 23) (hM : t.minute ≤ 59)
    (hS : t.second ≤ 60) (hms : t.millisecond ≤ 999) :
    format_fields ['%','Y','-','%','m','-','%','d','T','%','H',':','%','M',':','%','S','.','%','3'] t =
      .ok (append_padded_value t.year.toNat '0' 4 ++
        '-' :: (append_padded_value t.month '0' 2 ++
          '-' :: (append_padded_value t.date '0' 2 ++
            'T' :: (append_padded_value t.hour '0' 2 ++
              ':' :: (append_padded_value t.minute '0' 2 ++
                ':' :: (append_padded_value t.second '0' 2 ++
                  '.' :: (append_padded_value t.millisecond '0' 3 ++ []))))))) ∧
    runFmt ['%','Y','-','%','m','-','%','d','T','%','H',':','%','M',':','%','S','.','%','3']
      ((append_padded_value t.year.toNat '0' 4 ++
        '-' :: (append_padded_value t.month '0' 2 ++
          '-' :: (append_padded_value t.date '0' 2 ++
            'T' :: (append_padded_value t.hour '0' 2 ++
              ':' :: (append_padded_value t.minute '0' 2 ++
                ':' :: (append_padded_value t.second '0' 2 ++
                  '.' :: (append_padded_value t.millisecond '0' 3 ++ [])))))))
        ++ rest) initPState
      = some ({ date := t.date, month := t.month, year := t.year.toNat, hour := t.hour,
                uses_12_hour_clock := false, minute := t.minute, second := t.second,
                millisecond := t.millisecond, is_pm := false }, rest) := by
  constructor
  · simp only [format_fields, specOut, Except.map]
  · simp only [List.append_assoc, List.cons_append, List.nil_append, List.append_nil]
    rw [runFmt_Y hY, runFmt_lit '-' (by decide), runFmt_m hm1 hm2, runFmt_lit '-' (by decide),
        runFmt_d hd1 hd2, runFmt_lit 'T' (by decide), runFmt_H hH, runFmt_lit ':' (by decide),
        runFmt_M hM, runFmt_lit ':' (by decide), runFmt_S hS, runFmt_lit '.' (by decide),
        runFmt_ms hms]
    rfl

theorem abbrevMonth_get (mo : Nat) (h1 : 1 ≤ mo) (h2 : mo ≤ 12) :
    cAbbrevMonthNames.get? (mo - 1) = some (cAbbrevMonthNames.getD (mo - 1) []) := by
  interval_cases mo <;> rfl

theorem fullMonth_get (mo : Nat) (h1 : 1 ≤ mo) (h2 : mo ≤ 12) :
    cMonthNames.get? (mo - 1) = some (cMonthNames.getD (mo - 1) []) := by
  interval_cases mo <;> rfl

theorem weekday_get (w : Nat) (hw : w ≤ 6) :
    cAbbrevDaysOfWeek.get? w = some (cAbbrevDaysOfWeek.getD w []) := by
  interval_cases w <;> rfl

theorem pat1_fwd (t : TsParts) (rest : List Char)
    (hY : t.year.toNat ≤ 9999) (hm1 : 1 ≤ t.month) (hm2 : t.month ≤ 12) (hd1 : 1 ≤ t.date) (hd2 : t.date ≤ 31) (hH : t.hour ≤ 23) (hM : t.minute ≤ 59) (hS : t.second ≤ 60) (hms : t.millisecond ≤ 999) :
    format_fields ['%','Y','-','%','m','-','%','d','T','%','H',':','%','M',':','%','S',',','%','3'] t =
      .ok (append_padded_value t.year.toNat '0' 4 ++ ('-' :: (append_padded_value t.month '0' 2 ++ ('-' :: (append_padded_value t.date '0' 2 ++ ('T' :: (append_padded_value t.hour '0' 2 ++ (':' :: (append_padded_value t.minute '0' 2 ++ (':' :: (append_padded_value t.second '0' 2 ++ (',' :: (append_padded_value t.millisecond '0' 3 ++ []))))))))))))) ∧
    runFmt ['%','Y','-','%','m','-','%','d','T','%','H',':','%','M',':','%','S',',','%','3']
      ((append_padded_value t.year.toNat '0' 4 ++ ('-' :: (append_padded_value t.month '0' 2 ++ ('-' :: (append_padded_value t.date '0' 2 ++ ('T' :: (append_padded_value t.hour '0' 2 ++ (':' :: (append_padded_value t.minute '0' 2 ++ (':' :: (append_padded_value t.second '0' 2 ++ (',' :: (append_padded_value t.millisecond '0' 3 ++ [])))))))))))))
        ++ rest) initPState
      = some ({ date := t.date, month := t.month, year := t.year.toNat, hour := t.hour,
                uses_12_hour_clock := false, minute := t.minute, second := t.second,
                millisecond := t.millisecond, is_pm := false }, rest) := by
  constructor
  · simp only [format_fields, specOut, Except.map]
  · simp only [List.append_assoc, List.cons_append, List.nil_append, List.append_nil]
    rw [runFmt_Y hY,
        runFmt_lit '-' (by decide),
        runFmt_m hm1 hm2,
        runFmt_lit '-' (by decide),
        runFmt_d hd1 hd2,
        runFmt_lit 'T' (by decide),
        runFmt_H hH,
        runFmt_lit ':' (by decide),
        runFmt_M hM,
        runFmt_lit ':' (by decide),
        runFmt_S hS,
        runFmt_lit ',' (by decide),
        runFmt_ms hms]
    rfl

theorem pat2_fwd (t : TsParts) (rest : List Char)
    (hY : t.year.toNat ≤ 9999) (hm1 : 1 ≤ t.month) (hm2 : t.month ≤ 12) (hd1 : 1 ≤ t.date) (hd2 : t.date ≤ 31) (hH : t.hour ≤ 23) (hM : t.minute ≤ 59) (hS : t.second ≤ 60) :
    format_fields ['[','%','Y','-','%','m','-','%','d','T','%','H',':','%','M',':','%','S'] t =
      .ok ('[' :: (append_padded_value t.year.toNat '0' 4 ++ ('-' :: (append_padded_value t.month '0' 2 ++ ('-' :: (append_padded_value t.date '0' 2 ++ ('T' :: (append_padded_value t.hour '0' 2 ++ (':' :: (append_padded_value t.minute '0' 2 ++ (':' :: (append_padded_value t.second '0' 2 ++ [])))))))))))) ∧
    runFmt ['[','%','Y','-','%','m','-','%','d','T','%','H',':','%','M',':','%','S']
      (('[' :: (append_padded_value t.year.toNat '0' 4 ++ ('-' :: (append_padded_value t.month '0' 2 ++ ('-' :: (append_padded_value t.date '0' 2 ++ ('T' :: (append_padded_value t.hour '0' 2 ++ (':' :: (append_padded_value t.minute '0' 2 ++ (':' :: (append_padded_value t.second '0' 2 ++ []))))))))))))
        ++ rest) initPState
      = some ({ date := t.date, month := t.month, year := t.year.toNat, hour := t.hour,
                uses_12_hour_clock := false, minute := t.minute, second := t.second,
                millisecond := 0, is_pm := false }, rest) := by
  constructor
  · simp only [format_fields, specOut, Except.map]
  · simp only [List.append_assoc, List.cons_append, List.nil_append, List.append_nil]
    rw [runFmt_lit '[' (by decide),
        runFmt_Y hY,
        runFmt_lit '-' (by decide),
        runFmt_m hm1 hm2,
        runFmt_lit '-' (by decide),
        runFmt_d hd1 hd2,
        runFmt_lit 'T' (by decide),
        runFmt_H hH,
        runFmt_lit ':' (by decide),
        runFmt_M hM,
        runFmt_lit ':' (by decide),
        runFmt_S hS]
    rfl

theorem pat3_fwd (t : TsParts) (rest : List Char)
    (hY : t.year.toNat ≤ 9999) (hm1 : 1 ≤ t.month) (hm2 : t.month ≤ 12) (hd1 : 1 ≤ t.date) (hd2 : t.date ≤ 31) (hH : t.hour ≤ 23) (hM : t.minute ≤ 59) (hS : t.second ≤ 60) :
    format_fields ['[','%','Y','%','m','%','d','-','%','H',':','%','M',':','%','S',']'] t =
      .ok ('[' :: (append_padded_value t.year.toNat '0' 4 ++ (append_padded_value t.month '0' 2 ++ (append_padded_value t.date '0' 2 ++ ('-' :: (append_padded_value t.hour '0' 2 ++ (':' :: (append_padded_value t.minute '0' 2 ++ (':' :: (append_padded_value t.second '0' 2 ++ (']' :: []))))))))))) ∧
    runFmt ['[','%','Y','%','m','%','d','-','%','H',':','%','M',':','%','S',']']
      (('[' :: (append_padded_value t.year.toNat '0' 4 ++ (append_padded_value t.month '0' 2 ++ (append_padded_value t.date '0' 2 ++ ('-' :: (append_padded_value t.hour '0' 2 ++ (':' :: (append_padded_value t.minute '0' 2 ++ (':' :: (append_padded_value t.second '0' 2 ++ (']' :: [])))))))))))
        ++ rest) initPState
      = some ({ date := t.date, month := t.month, year := t.year.toNat, hour := t.hour,
                uses_12_hour_clock := false, minute := t.minute, second := t.second,
                millisecond := 0, is_pm := false }, rest) := by
  constructor
  · simp only [format_fields, specOut, Except.map]
  · simp only [List.append_assoc, List.cons_append, List.nil_append, List.append_nil]
    rw [runFmt_lit '[' (by decide),
        runFmt_Y hY,
        runFmt_m hm1 hm2,
        runFmt_d hd1 hd2,
        runFmt_lit '-' (by decide),
        runFmt_H hH,
        runFmt_lit ':' (by decide),
        runFmt_M hM,
        runFmt_lit ':' (by decide),
        runFmt_S hS,
        runFmt_lit ']' (by decide)]
    rfl

theorem pat4_fwd (t : TsParts) (rest : List Char)
    (hY : t.year.toNat ≤ 9999) (hm1 : 1 ≤ t.month) (hm2 : t.month ≤ 12) (hd1 : 1 ≤ t.date) (hd2 : t.date ≤ 31) (hH : t.hour ≤ 23) (hM : t.minute ≤ 59) (hS : t.second ≤ 60) (hms : t.millisecond ≤ 999) :
    format_fields ['%','Y','-','%','m','-','%','d',' ','%','H',':','%','M',':','%','S',',','%','3'] t =
      .ok (append_padded_value t.year.toNat '0' 4 ++ ('-' :: (append_padded_value t.month '0' 2 ++ ('-' :: (append_padded_value t.date '0' 2 ++ (' ' :: (append_padded_value t.hour '0' 2 ++ (':' :: (append_padded_value t.minute '0' 2 ++ (':' :: (append_padded_value t.second '0' 2 ++ (',' :: (append_padded_value t.millisecond '0' 3 ++ []))))))))))))) ∧
    runFmt ['%','Y','-','%','m','-','%','d',' ','%','H',':','%','M',':','%','S',',','%','3']
      ((append_padded_value t.year.toNat '0' 4 ++ ('-' :: (append_padded_value t.month '0' 2 ++ ('-' :: (append_padded_value t.date '0' 2 ++ (' ' :: (append_padded_value t.hour '0' 2 ++ (':' :: (append_padded_value t.minute '0' 2 ++ (':' :: (append_padded_value t.second '0' 2 ++ (',' :: (append_padded_value t.millisecond '0' 3 ++ [])))))))))))))
        ++ rest) initPState
      = some ({ date := t.date, month := t.month, year := t.year.toNat, hour := t.hour,
                uses_12_hour_clock := false, minute := t.minute, second := t.second,
                millisecond := t.millisecond, is_pm := false }, rest) := by
  constructor
  · simp only [format_fields, specOut, Except.map]
  · simp only [List.append_assoc, List.cons_append, List.nil_append, List.append_nil]
    rw [runFmt_Y hY,
        runFmt_lit '-' (by decide),
        runFmt_m hm1 hm2,
        runFmt_lit '-' (by decide),
        runFmt_d hd1 hd2,
        runFmt_lit ' ' (by decide),
        runFmt_H hH,
        runFmt_lit ':' (by decide),
        runFmt_M hM,
        runFmt_lit ':' (by decide),
        runFmt_S hS,
        runFmt_lit ',' (by decide),
        runFmt_ms hms]
    rfl

theorem pat5_fwd (t : TsParts) (rest : List Char)
    (hY : t.year.toNat ≤ 9999) (hm1 : 1 ≤ t.month) (hm2 : t.month ≤ 12) (hd1 : 1 ≤ t.date) (hd2 : t.date ≤ 31) (hH : t.hour ≤ 23) (hM : t.minute ≤ 59) (hS : t.second ≤ 60) (hms : t.millisecond ≤ 999) :
    format_fields ['%','Y','-','%','m','-','%','d',' ','%','H',':','%','M',':','%','S','.','%','3'] t =
      .ok (append_padded_value t.year.toNat '0' 4 ++ ('-' :: (append_padded_value t.month '0' 2 ++ ('-' :: (append_padded_value t.date '0' 2 ++ (' ' :: (append_padded_value t.hour '0' 2 ++ (':' :: (append_padded_value t.minute '0' 2 ++ (':' :: (append_padded_value t.second '0' 2 ++ ('.' :: (append_padded_value t.millisecond '0' 3 ++ []))))))))))))) ∧
    runFmt ['%','Y','-','%','m','-','%','d',' ','%','H',':','%','M',':','%','S','.','%','3']
      ((append_padded_value t.year.toNat '0' 4 ++ ('-' :: (append_padded_value t.month '0' 2 ++ ('-' :: (append_padded_value t.date '0' 2 ++ (' ' :: (append_padded_value t.hour '0' 2 ++ (':' :: (append_padded_value t.minute '0' 2 ++ (':' :: (append_padded_value t.second '0' 2 ++ ('.' :: (append_padded_value t.millisecond '0' 3 ++ [])))))))))))))
        ++ rest) initPState
      = some ({ date := t.date, month := t.month, year := t.year.toNat, hour := t.hour,
                uses_12_hour_clock := false, minute := t.minute, second := t.second,
                millisecond := t.millisecond, is_pm := false }, rest) := by
  constructor
  · simp only [format_fields, specOut, Except.map]
  · simp only [List.append_assoc, List.cons_append, List.nil_append, List.append_nil]
    rw [runFmt_Y hY,
        runFmt_lit '-' (by decide),
        runFmt_m hm1 hm2,
        runFmt_lit '-' (by decide),
        runFmt_d hd1 hd2,
        runFmt_lit ' ' (by decide),
        runFmt_H hH,
        runFmt_lit ':' (by decide),
        runFmt_M hM,
        runFmt_lit ':' (by decide),
        runFmt_S hS,
        runFmt_lit '.' (by decide),
        runFmt_ms hms]
    rfl

theorem pat6_fwd (t : TsParts) (rest : List Char)
    (hY : t.year.toNat ≤ 9999) (hm1 : 1 ≤ t.month) (hm2 : t.month ≤ 12) (hd1 : 1 ≤ t.date) (hd2 : t.date ≤ 31) (hH : t.hour ≤ 23) (hM : t.minute ≤ 59) (hS : t.second ≤ 60) (hms : t.millisecond ≤ 999) :
    format_fields ['[','%','Y','-','%','m','-','%','d',' ','%','H',':','%','M',':','%','S',',','%','3',']'] t =
      .ok ('[' :: (append_padded_value t.year.toNat '0' 4 ++ ('-' :: (append_padded_value t.month '0' 2 ++ ('-' :: (append_padded_value t.date '0' 2 ++ (' ' :: (append_padded_value t.hour '0' 2 ++ (':' :: (append_padded_value t.minute '0' 2 ++ (':' :: (append_padded_value t.second '0' 2 ++ (',' :: (append_padded_value t.millisecond '0' 3 ++ (']' :: []))))))))))))))) ∧
    runFmt ['[','%','Y','-','%','m','-','%','d',' ','%','H',':','%','M',':','%','S',',','%','3',']']
      (('[' :: (append_padded_value t.year.toNat '0' 4 ++ ('-' :: (append_padded_value t.month '0' 2 ++ ('-' :: (append_padded_value t.date '0' 2 ++ (' ' :: (append_padded_value t.hour '0' 2 ++ (':' :: (append_padded_value t.minute '0' 2 ++ (':' :: (append_padded_value t.second '0' 2 ++ (',' :: (append_padded_value t.millisecond '0' 3 ++ (']' :: [])))))))))))))))
        ++ rest) initPState
      = some ({ date := t.date, month := t.month, year := t.year.toNat, hour := t.hour,
                uses_12_hour_clock := false, minute := t.minute, second := t.second,
                millisecond := t.millisecond, is_pm := false }, rest) := by
  constructor
  · simp only [format_fields, specOut, Except.map]
  · simp only [List.append_assoc, List.cons_append, List.nil_append, List.append_nil]
    rw [runFmt_lit '[' (by decide),
        runFmt_Y hY,
        runFmt_lit '-' (by decide),
        runFmt_m hm1 hm2,
        runFmt_lit '-' (by decide),
        runFmt_d hd1 hd2,
        runFmt_lit ' ' (by decide),
        runFmt_H hH,
        runFmt_lit ':' (by decide),
        runFmt_M hM,
        runFmt_lit ':' (by decide),
        runFmt_S hS,
        runFmt_lit ',' (by decide),
        runFmt_ms hms,
        runFmt_lit ']' (by decide)]
    rfl

theorem pat7_fwd (t : TsParts) (rest : List Char)
    (hY : t.year.toNat ≤ 9999) (hm1 : 1 ≤ t.month) (hm2 : t.month ≤ 12) (hd1 : 1 ≤ t.date) (hd2 : t.date ≤ 31) (hH : t.hour ≤ 23) (hM : t.minute ≤ 59) (hS : t.second ≤ 60) :
    format_fields ['%','Y','-','%','m','-','%','d',' ','%','H',':','%','M',':','%','S'] t =
      .ok (append_padded_value t.year.toNat '0' 4 ++ ('-' :: (append_padded_value t.month '0' 2 ++ ('-' :: (append_padded_value t.date '0' 2 ++ (' ' :: (append_padded_value t.hour '0' 2 ++ (':' :: (append_padded_value t.minute '0' 2 ++ (':' :: (append_padded_value t.second '0' 2 ++ []))))))))))) ∧
    runFmt ['%','Y','-','%','m','-','%','d',' ','%','H',':','%','M',':','%','S']
      ((append_padded_value t.year.toNat '0' 4 ++ ('-' :: (append_padded_value t.month '0' 2 ++ ('-' :: (append_padded_value t.date '0' 2 ++ (' ' :: (append_padded_value t.hour '0' 2 ++ (':' :: (append_padded_value t.minute '0' 2 ++ (':' :: (append_padded_value t.second '0' 2 ++ [])))))))))))
        ++ rest) initPState
      = some ({ date := t.date, month := t.month, year := t.year.toNat, hour := t.hour,
                uses_12_hour_clock := false, minute := t.minute, second := t.second,
                millisecond := 0, is_pm := false }, rest) := by
  constructor
  · simp only [format_fields, specOut, Except.map]
  · simp only [List.append_assoc, List.cons_append, List.nil_append, List.append_nil]
    rw [runFmt_Y hY,
        runFmt_lit '-' (by decide),
        runFmt_m hm1 hm2,
        runFmt_lit '-' (by decide),
        runFmt_d hd1 hd2,
        runFmt_lit ' ' (by decide),
        runFmt_H hH,
        runFmt_lit ':' (by decide),
        runFmt_M hM,
        runFmt_lit ':' (by decide),
        runFmt_S hS]
    rfl

theorem pat8_fwd (t : TsParts) (rest : List Char)
    (hY : t.year.toNat ≤ 9999) (hm1 : 1 ≤ t.month) (hm2 : t.month ≤ 12) (hd1 : 1 ≤ t.date) (hd2 : t.date ≤ 31) (hH : t.hour ≤ 23) (hM : t.minute ≤ 59) (hS : t.second ≤ 60) :
    format_fields ['%','Y','-','%','m','-','%','d',' ',' ','%','H',':','%','M',':','%','S'] t =
      .ok (append_padded_value t.year.toNat '0' 4 ++ ('-' :: (append_padded_value t.month '0' 2 ++ ('-' :: (append_padded_value t.date '0' 2 ++ (' ' :: (' ' :: (append_padded_value t.hour '0' 2 ++ (':' :: (append_padded_value t.minute '0' 2 ++ (':' :: (append_padded_value t.second '0' 2 ++ [])))))))))))) ∧
    runFmt ['%','Y','-','%','m','-','%','d',' ',' ','%','H',':','%','M',':','%','S']
      ((append_padded_value t.year.toNat '0' 4 ++ ('-' :: (append_padded_value t.month '0' 2 ++ ('-' :: (append_padded_value t.date '0' 2 ++ (' ' :: (' ' :: (append_padded_value t.hour '0' 2 ++ (':' :: (append_padded_value t.minute '0' 2 ++ (':' :: (append_padded_value t.second '0' 2 ++ []))))))))))))
        ++ rest) initPState
      = some ({ date := t.date, month := t.month, year := t.year.toNat, hour := t.hour,
                uses_12_hour_clock := false, minute := t.minute, second := t.second,
                millisecond := 0, is_pm := false }, rest) := by
  constructor
  · simp only [format_fields, specOut, Except.map]
  · simp only [List.append_assoc, List.cons_append, List.nil_append, List.append_nil]
    rw [runFmt_Y hY,
        runFmt_lit '-' (by decide),
        runFmt_m hm1 hm2,
        runFmt_lit '-' (by decide),
        runFmt_d hd1 hd2,
        runFmt_lit ' ' (by decide),
        runFmt_lit ' ' (by decide),
        runFmt_H hH,
        runFmt_lit ':' (by decide),
        runFmt_M hM,
        runFmt_lit ':' (by decide),
        runFmt_S hS]
    rfl

theorem pat9_fwd (t : TsParts) (rest : List Char)
    (hY : t.year.toNat ≤ 9999) (hm1 : 1 ≤ t.month) (hm2 : t.month ≤ 12) (hd1 : 1 ≤ t.date) (hd2 : t.date ≤ 31) (hH : t.hour ≤ 23) (hM : t.minute ≤ 59) (hS : t.second ≤ 60) :
    format_fields ['%','Y','/','%','m','/','%','d',' ','%','H',':','%','M',':','%','S'] t =
      .ok (append_padded_value t.year.toNat '0' 4 ++ ('/' :: (append_padded_value t.month '0' 2 ++ ('/' :: (append_padded_value t.date '0' 2 ++ (' ' :: (append_padded_value t.hour '0' 2 ++ (':' :: (append_padded_value t.minute '0' 2 ++ (':' :: (append_padded_value t.second '0' 2 ++ []))))))))))) ∧
    runFmt ['%','Y','/','%','m','/','%','d',' ','%','H',':','%','M',':','%','S']
      ((append_padded_value t.year.toNat '0' 4 ++ ('/' :: (append_padded_value t.month '0' 2 ++ ('/' :: (append_padded_value t.date '0' 2 ++ (' ' :: (append_padded_value t.hour '0' 2 ++ (':' :: (append_padded_value t.minute '0' 2 ++ (':' :: (append_padded_value t.second '0' 2 ++ [])))))))))))
        ++ rest) initPState
      = some ({ date := t.date, month := t.month, year := t.year.toNat, hour := t.hour,
                uses_12_hour_clock := false, minute := t.minute, second := t.second,
                millisecond := 0, is_pm := false }, rest) := by
  constructor
  · simp only [format_fields, specOut, Except.map]
  · simp only [List.append_assoc, List.cons_append, List.nil_append, List.append_nil]
    rw [runFmt_Y hY,
        runFmt_lit '/' (by decide),
        runFmt_m hm1 hm2,
        runFmt_lit '/' (by decide),
        runFmt_d hd1 hd2,
        runFmt_lit ' ' (by decide),
        runFmt_H hH,
        runFmt_lit ':' (by decide),
        runFmt_M hM,
        runFmt_lit ':' (by decide),
        runFmt_S hS]
    rfl

theorem pat10_fwd (t : TsParts) (rest : List Char)
    (hy : yearToTwoDigit t.year ≤ 99) (hm1 : 1 ≤ t.month) (hm2 : t.month ≤ 12) (hd1 : 1 ≤ t.date) (hd2 : t.date ≤ 31) (hH : t.hour ≤ 23) (hM : t.minute ≤ 59) (hS : t.second ≤ 60) :
    format_fields ['%','y','/','%','m','/','%','d',' ','%','H',':','%','M',':','%','S'] t =
      .ok (append_padded_value (yearToTwoDigit t.year) '0' 2 ++ ('/' :: (append_padded_value t.month '0' 2 ++ ('/' :: (append_padded_value t.date '0' 2 ++ (' ' :: (append_padded_value t.hour '0' 2 ++ (':' :: (append_padded_value t.minute '0' 2 ++ (':' :: (append_padded_value t.second '0' 2 ++ []))))))))))) ∧
    runFmt ['%','y','/','%','m','/','%','d',' ','%','H',':','%','M',':','%','S']
      ((append_padded_value (yearToTwoDigit t.year) '0' 2 ++ ('/' :: (append_padded_value t.month '0' 2 ++ ('/' :: (append_padded_value t.date '0' 2 ++ (' ' :: (append_padded_value t.hour '0' 2 ++ (':' :: (append_padded_value t.minute '0' 2 ++ (':' :: (append_padded_value t.second '0' 2 ++ [])))))))))))
        ++ rest) initPState
      = some ({ date := t.date, month := t.month, year := twoDigitToYear (yearToTwoDigit t.year), hour := t.hour,
                uses_12_hour_clock := false, minute := t.minute, second := t.second,
                millisecond := 0, is_pm := false }, rest) := by
  constructor
  · simp only [format_fields, specOut, Except.map]
  · simp only [List.append_assoc, List.cons_append, List.nil_append, List.append_nil]
    rw [runFmt_y hy,
        runFmt_lit '/' (by decide),
        runFmt_m hm1 hm2,
        runFmt_lit '/' (by decide),
        runFmt_d hd1 hd2,
        runFmt_lit ' ' (by decide),
        runFmt_H hH,
        runFmt_lit ':' (by decide),
        runFmt_M hM,
        runFmt_lit ':' (by decide),
        runFmt_S hS]
    rfl

theorem pat11_fwd (t : TsParts) (rest : List Char)
    (hy : yearToTwoDigit t.year ≤ 99) (hm1 : 1 ≤ t.month) (hm2 : t.month ≤ 12) (hd1 : 1 ≤ t.date) (hd2 : t.date ≤ 31) (hH : t.hour ≤ 23) (hM : t.minute ≤ 59) (hS : t.second ≤ 60) :
    format_fields ['%','y','%','m','%','d',' ','%','k',':','%','M',':','%','S'] t =
      .ok (append_padded_value (yearToTwoDigit t.year) '0' 2 ++ (append_padded_value t.month '0' 2 ++ (append_padded_value t.date '0' 2 ++ (' ' :: (append_padded_value t.hour ' ' 2 ++ (':' :: (append_padded_value t.minute '0' 2 ++ (':' :: (append_padded_value t.second '0' 2 ++ []))))))))) ∧
    runFmt ['%','y','%','m','%','d',' ','%','k',':','%','M',':','%','S']
      ((append_padded_value (yearToTwoDigit t.year) '0' 2 ++ (append_padded_value t.month '0' 2 ++ (append_padded_value t.date '0' 2 ++ (' ' :: (append_padded_value t.hour ' ' 2 ++ (':' :: (append_padded_value t.minute '0' 2 ++ (':' :: (append_padded_value t.second '0' 2 ++ [])))))))))
        ++ rest) initPState
      = some ({ date := t.date, month := t.month, year := twoDigitToYear (yearToTwoDigit t.year), hour := t.hour,
                uses_12_hour_clock := false, minute := t.minute, second := t.second,
                millisecond := 0, is_pm := false }, rest) := by
  constructor
  · simp only [format_fields, specOut, Except.map]
  · simp only [List.append_assoc, List.cons_append, List.nil_append, List.append_nil]
    rw [runFmt_y hy,
        runFmt_m hm1 hm2,
        runFmt_d hd1 hd2,
        runFmt_lit ' ' (by decide),
        runFmt_k hH,
        runFmt_lit ':' (by decide),
        runFmt_M hM,
        runFmt_lit ':' (by decide),
        runFmt_S hS]
    rfl

theorem pat12_fwd (t : TsParts) (rest : List Char)
    (hd1 : 1 ≤ t.date) (hd2 : t.date ≤ 31) (hm1 : 1 ≤ t.month) (hm2 : t.month ≤ 12) (hY : t.year.toNat ≤ 9999) (hH : t.hour ≤ 23) (hM : t.minute ≤ 59) (hS : t.second ≤ 60) (hms : t.millisecond ≤ 999) :
    format_fields ['%','d',' ','%','b',' ','%','Y',' ','%','H',':','%','M',':','%','S',',','%','3'] t =
      .ok (append_padded_value t.date '0' 2 ++ (' ' :: (cAbbrevMonthNames.getD (t.month - 1) [] ++ (' ' :: (append_padded_value t.year.toNat '0' 4 ++ (' ' :: (append_padded_value t.hour '0' 2 ++ (':' :: (append_padded_value t.minute '0' 2 ++ (':' :: (append_padded_value t.second '0' 2 ++ (',' :: (append_padded_value t.millisecond '0' 3 ++ []))))))))))))) ∧
    runFmt ['%','d',' ','%','b',' ','%','Y',' ','%','H',':','%','M',':','%','S',',','%','3']
      ((append_padded_value t.date '0' 2 ++ (' ' :: (cAbbrevMonthNames.getD (t.month - 1) [] ++ (' ' :: (append_padded_value t.year.toNat '0' 4 ++ (' ' :: (append_padded_value t.hour '0' 2 ++ (':' :: (append_padded_value t.minute '0' 2 ++ (':' :: (append_padded_value t.second '0' 2 ++ (',' :: (append_padded_value t.millisecond '0' 3 ++ [])))))))))))))
        ++ rest) initPState
      = some ({ date := t.date, month := t.month, year := t.year.toNat, hour := t.hour,
                uses_12_hour_clock := false, minute := t.minute, second := t.second,
                millisecond := t.millisecond, is_pm := false }, rest) := by
  constructor
  · simp only [format_fields, specOut, Except.map]
  · simp only [List.append_assoc, List.cons_append, List.nil_append, List.append_nil]
    rw [runFmt_d hd1 hd2,
        runFmt_lit ' ' (by decide),
        runFmt_b (abbrevMonth_get t.month hm1 hm2),
        runFmt_lit ' ' (by decide),
        runFmt_Y hY,
        runFmt_lit ' ' (by decide),
        runFmt_H hH,
        runFmt_lit ':' (by decide),
        runFmt_M hM,
        runFmt_lit ':' (by decide),
        runFmt_S hS,
        runFmt_lit ',' (by decide),
        runFmt_ms hms]
    rw [show t.month - 1 + 1 = t.month from by omega]
    rfl

theorem pat13_fwd (t : TsParts) (rest : List Char)
    (hm1 : 1 ≤ t.month) (hm2 : t.month ≤ 12) (hd1 : 1 ≤ t.date) (hd2 : t.date ≤ 31) (hY : t.year.toNat ≤ 9999) (h12a : 1 ≤ hour12Out t.hour) (h12b : hour12Out t.hour ≤ 12) (hM : t.minute ≤ 59) (hS : t.second ≤ 60) :
    format_fields ['%','b',' ','%','d',',',' ','%','Y',' ','%','l',':','%','M',':','%','S',' ','%','p'] t =
      .ok (cAbbrevMonthNames.getD (t.month - 1) [] ++ (' ' :: (append_padded_value t.date '0' 2 ++ (',' :: (' ' :: (append_padded_value t.year.toNat '0' 4 ++ (' ' :: (append_padded_value (hour12Out t.hour) ' ' 2 ++ (':' :: (append_padded_value t.minute '0' 2 ++ (':' :: (append_padded_value t.second '0' 2 ++ (' ' :: ((if 11 < t.hour then ['P','M'] else ['A','M']) ++ [])))))))))))))) ∧
    runFmt ['%','b',' ','%','d',',',' ','%','Y',' ','%','l',':','%','M',':','%','S',' ','%','p']
      ((cAbbrevMonthNames.getD (t.month - 1) [] ++ (' ' :: (append_padded_value t.date '0' 2 ++ (',' :: (' ' :: (append_padded_value t.year.toNat '0' 4 ++ (' ' :: (append_padded_value (hour12Out t.hour) ' ' 2 ++ (':' :: (append_padded_value t.minute '0' 2 ++ (':' :: (append_padded_value t.second '0' 2 ++ (' ' :: ((if 11 < t.hour then ['P','M'] else ['A','M']) ++ []))))))))))))))
        ++ rest) initPState
      = some ({ date := t.date, month := t.month, year := t.year.toNat, hour := hour12Out t.hour,
                uses_12_hour_clock := true, minute := t.minute, second := t.second,
                millisecond := 0, is_pm := decide (11 < t.hour) }, rest) := by
  constructor
  · simp only [format_fields, specOut, Except.map]
  · simp only [List.append_assoc, List.cons_append, List.nil_append, List.append_nil]
    rcases lt_or_ge 11 t.hour with hpm | hpm
    · rw [if_pos hpm]
      simp only [List.cons_append, List.nil_append]
      rw [runFmt_b (abbrevMonth_get t.month hm1 hm2),
          runFmt_lit ' ' (by decide),
          runFmt_d hd1 hd2,
          runFmt_lit ',' (by decide),
          runFmt_lit ' ' (by decide),
          runFmt_Y hY,
          runFmt_lit ' ' (by decide),
          runFmt_l h12a h12b,
          runFmt_lit ':' (by decide),
          runFmt_M hM,
          runFmt_lit ':' (by decide),
          runFmt_S hS,
          runFmt_lit ' ' (by decide),
          runFmt_p_PM]
      rw [show t.month - 1 + 1 = t.month from by omega,
          show true = decide (11 < t.hour) from by simp [hpm]]
      rfl
    · rw [if_neg (by omega)]
      simp only [List.cons_append, List.nil_append]
      rw [runFmt_b (abbrevMonth_get t.month hm1 hm2),
          runFmt_lit ' ' (by decide),
          runFmt_d hd1 hd2,
          runFmt_lit ',' (by decide),
          runFmt_lit ' ' (by decide),
          runFmt_Y hY,
          runFmt_lit ' ' (by decide),
          runFmt_l h12a h12b,
          runFmt_lit ':' (by decide),
          runFmt_M hM,
          runFmt_lit ':' (by decide),
          runFmt_S hS,
          runFmt_lit ' ' (by decide),
          runFmt_p_AM]
      rw [show t.month - 1 + 1 = t.month from by omega,
          show false = decide (11 < t.hour) from by simp; omega]
      rfl

theorem pat14_fwd (t : TsParts) (rest : List Char)
    (hm1 : 1 ≤ t.month) (hm2 : t.month ≤ 12) (hd1 : 1 ≤ t.date) (hd2 : t.date ≤ 31) (hY : t.year.toNat ≤ 9999) (hH : t.hour ≤ 23) (hM : t.minute ≤ 59) :
    format_fields ['%','B',' ','%','d',',',' ','%','Y',' ','%','H',':','%','M'] t =
      .ok (cMonthNames.getD (t.month - 1) [] ++ (' ' :: (append_padded_value t.date '0' 2 ++ (',' :: (' ' :: (append_padded_value t.year.toNat '0' 4 ++ (' ' :: (append_padded_value t.hour '0' 2 ++ (':' :: (append_padded_value t.minute '0' 2 ++ [])))))))))) ∧
    runFmt ['%','B',' ','%','d',',',' ','%','Y',' ','%','H',':','%','M']
      ((cMonthNames.getD (t.month - 1) [] ++ (' ' :: (append_padded_value t.date '0' 2 ++ (',' :: (' ' :: (append_padded_value t.year.toNat '0' 4 ++ (' ' :: (append_padded_value t.hour '0' 2 ++ (':' :: (append_padded_value t.minute '0' 2 ++ []))))))))))
        ++ rest) initPState
      = some ({ date := t.date, month := t.month, year := t.year.toNat, hour := t.hour,
                uses_12_hour_clock := false, minute := t.minute, second := 0,
                millisecond := 0, is_pm := false }, rest) := by
  constructor
  · simp only [format_fields, specOut, Except.map]
  · simp only [List.append_assoc, List.cons_append, List.nil_append, List.append_nil]
    rw [runFmt_B (fullMonth_get t.month hm1 hm2),
        runFmt_lit ' ' (by decide),
        runFmt_d hd1 hd2,
        runFmt_lit ',' (by decide),
        runFmt_lit ' ' (by decide),
        runFmt_Y hY,
        runFmt_lit ' ' (by decide),
        runFmt_H hH,
        runFmt_lit ':' (by decide),
        runFmt_M hM]
    rw [show t.month - 1 + 1 = t.month from by omega]
    rfl

theorem pat15_fwd (t : TsParts) (rest : List Char)
    (hd1 : 1 ≤ t.date) (hd2 : t.date ≤ 31) (hm1 : 1 ≤ t.month) (hm2 : t.month ≤ 12) (hY : t.year.toNat ≤ 9999) (hH : t.hour ≤ 23) (hM : t.minute ≤ 59) (hS : t.second ≤ 60) :
    format_fields ['[','%','d','/','%','b','/','%','Y',':','%','H',':','%','M',':','%','S'] t =
      .ok ('[' :: (append_padded_value t.date '0' 2 ++ ('/' :: (cAbbrevMonthNames.getD (t.month - 1) [] ++ ('/' :: (append_padded_value t.year.toNat '0' 4 ++ (':' :: (append_padded_value t.hour '0' 2 ++ (':' :: (append_padded_value t.minute '0' 2 ++ (':' :: (append_padded_value t.second '0' 2 ++ [])))))))))))) ∧
    runFmt ['[','%','d','/','%','b','/','%','Y',':','%','H',':','%','M',':','%','S']
      (('[' :: (append_padded_value t.date '0' 2 ++ ('/' :: (cAbbrevMonthNames.getD (t.month - 1) [] ++ ('/' :: (append_padded_value t.year.toNat '0' 4 ++ (':' :: (append_padded_value t.hour '0' 2 ++ (':' :: (append_padded_value t.minute '0' 2 ++ (':' :: (append_padded_value t.second '0' 2 ++ []))))))))))))
        ++ rest) initPState
      = some ({ date := t.date, month := t.month, year := t.year.toNat, hour := t.hour,
                uses_12_hour_clock := false, minute := t.minute, second := t.second,
                millisecond := 0, is_pm := false }, rest) := by
  constructor
  · simp only [format_fields, specOut, Except.map]
  · simp only [List.append_assoc, List.cons_append, List.nil_append, List.append_nil]
    rw [runFmt_lit '[' (by decide),
        runFmt_d hd1 hd2,
        runFmt_lit '/' (by decide),
        runFmt_b (abbrevMonth_get t.month hm1 hm2),
        runFmt_lit '/' (by decide),
        runFmt_Y hY,
        runFmt_lit ':' (by decide),
        runFmt_H hH,
        runFmt_lit ':' (by decide),
        runFmt_M hM,
        runFmt_lit ':' (by decide),
        runFmt_S hS]
    rw [show t.month - 1 + 1 = t.month from by omega]
    rfl

theorem pat17_fwd (t : TsParts) (rest : List Char)
    (hd1 : 1 ≤ t.date) (hd2 : t.date ≤ 31) (hm1 : 1 ≤ t.month) (hm2 : t.month ≤ 12) (hY : t.year.toNat ≤ 9999) (hH : t.hour ≤ 23) (hM : t.minute ≤ 59) (hS : t.second ≤ 60) :
    format_fields ['[','%','d','/','%','m','/','%','Y',':','%','H',':','%','M',':','%','S'] t =
      .ok ('[' :: (append_padded_value t.date '0' 2 ++ ('/' :: (append_padded_value t.month '0' 2 ++ ('/' :: (append_padded_value t.year.toNat '0' 4 ++ (':' :: (append_padded_value t.hour '0' 2 ++ (':' :: (append_padded_value t.minute '0' 2 ++ (':' :: (append_padded_value t.second '0' 2 ++ [])))))))))))) ∧
    runFmt ['[','%','d','/','%','m','/','%','Y',':','%','H',':','%','M',':','%','S']
      (('[' :: (append_padded_value t.date '0' 2 ++ ('/' :: (append_padded_value t.month '0' 2 ++ ('/' :: (append_padded_value t.year.toNat '0' 4 ++ (':' :: (append_padded_value t.hour '0' 2 ++ (':' :: (append_padded_value t.minute '0' 2 ++ (':' :: (append_padded_value t.second '0' 2 ++ []))))))))))))
        ++ rest) initPState
      = some ({ date := t.date, month := t.month, year := t.year.toNat, hour := t.hour,
                uses_12_hour_clock := false, minute := t.minute, second := t.second,
                millisecond := 0, is_pm := false }, rest) := by
  constructor
  · simp only [format_fields, specOut, Except.map]
  · simp only [List.append_assoc, List.cons_append, List.nil_append, List.append_nil]
    rw [runFmt_lit '[' (by decide),
        runFmt_d hd1 hd2,
        runFmt_lit '/' (by decide),
        runFmt_m hm1 hm2,
        runFmt_lit '/' (by decide),
        runFmt_Y hY,
        runFmt_lit ':' (by decide),
        runFmt_H hH,
        runFmt_lit ':' (by decide),
        runFmt_M hM,
        runFmt_lit ':' (by decide),
        runFmt_S hS]
    rfl

theorem pat21_fwd (t : TsParts) (rest : List Char)
    (hw : t.day_of_week_ix ≤ 6) (hm1 : 1 ≤ t.month) (hm2 : t.month ≤ 12) (hd1 : 1 ≤ t.date) (hd2 : t.date ≤ 31) (hH : t.hour ≤ 23) (hM : t.minute ≤ 59) (hS : t.second ≤ 60) (hY : t.year.toNat ≤ 9999) :
    format_fields ['%','a',' ','%','b',' ','%','e',' ','%','H',':','%','M',':','%','S',' ','%','Y'] t =
      .ok (cAbbrevDaysOfWeek.getD t.day_of_week_ix [] ++ (' ' :: (cAbbrevMonthNames.getD (t.month - 1) [] ++ (' ' :: (append_padded_value t.date ' ' 2 ++ (' ' :: (append_padded_value t.hour '0' 2 ++ (':' :: (append_padded_value t.minute '0' 2 ++ (':' :: (append_padded_value t.second '0' 2 ++ (' ' :: (append_padded_value t.year.toNat '0' 4 ++ []))))))))))))) ∧
    runFmt ['%','a',' ','%','b',' ','%','e',' ','%','H',':','%','M',':','%','S',' ','%','Y']
      ((cAbbrevDaysOfWeek.getD t.day_of_week_ix [] ++ (' ' :: (cAbbrevMonthNames.getD (t.month - 1) [] ++ (' ' :: (append_padded_value t.date ' ' 2 ++ (' ' :: (append_padded_value t.hour '0' 2 ++ (':' :: (append_padded_value t.minute '0' 2 ++ (':' :: (append_padded_value t.second '0' 2 ++ (' ' :: (append_padded_value t.year.toNat '0' 4 ++ [])))))))))))))
        ++ rest) initPState
      = some ({ date := t.date, month := t.month, year := t.year.toNat, hour := t.hour,
                uses_12_hour_clock := false, minute := t.minute, second := t.second,
                millisecond := 0, is_pm := false }, rest) := by
  constructor
  · simp only [format_fields, specOut, Except.map]
  · simp only [List.append_assoc, List.cons_append, List.nil_append, List.append_nil]
    rw [runFmt_a (weekday_get t.day_of_week_ix hw),
        runFmt_lit ' ' (by decide),
        runFmt_b (abbrevMonth_get t.month hm1 hm2),
        runFmt_lit ' ' (by decide),
        runFmt_e hd1 hd2,
        runFmt_lit ' ' (by decide),
        runFmt_H hH,
        runFmt_lit ':' (by decide),
        runFmt_M hM,
        runFmt_lit ':' (by decide),
        runFmt_S hS,
        runFmt_lit ' ' (by decide),
        runFmt_Y hY]
    rw [show t.month - 1 + 1 = t.month from by omega]
    rfl

theorem pat22_fwd (t : TsParts) (rest : List Char)
    (hY : t.year.toNat ≤ 9999) (hm1 : 1 ≤ t.month) (hm2 : t.month ≤ 12) (hd1 : 1 ≤ t.date) (hd2 : t.date ≤ 31) (hH : t.hour ≤ 23) (hM : t.minute ≤ 59) (hS : t.second ≤ 60) (hms : t.millisecond ≤ 999) :
    format_fields ['<','<','<','%','Y','-','%','m','-','%','d',' ','%','H',':','%','M',':','%','S',':','%','3'] t =
      .ok ('<' :: ('<' :: ('<' :: (append_padded_value t.year.toNat '0' 4 ++ ('-' :: (append_padded_value t.month '0' 2 ++ ('-' :: (append_padded_value t.date '0' 2 ++ (' ' :: (append_padded_value t.hour '0' 2 ++ (':' :: (append_padded_value t.minute '0' 2 ++ (':' :: (append_padded_value t.second '0' 2 ++ (':' :: (append_padded_value t.millisecond '0' 3 ++ [])))))))))))))))) ∧
    runFmt ['<','<','<','%','Y','-','%','m','-','%','d',' ','%','H',':','%','M',':','%','S',':','%','3']
      (('<' :: ('<' :: ('<' :: (append_padded_value t.year.toNat '0' 4 ++ ('-' :: (append_padded_value t.month '0' 2 ++ ('-' :: (append_padded_value t.date '0' 2 ++ (' ' :: (append_padded_value t.hour '0' 2 ++ (':' :: (append_padded_value t.minute '0' 2 ++ (':' :: (append_padded_value t.second '0' 2 ++ (':' :: (append_padded_value t.millisecond '0' 3 ++ []))))))))))))))))
        ++ rest) initPState
      = some ({ date := t.date, month := t.month, year := t.year.toNat, hour := t.hour,
                uses_12_hour_clock := false, minute := t.minute, second := t.second,
                millisecond := t.millisecond, is_pm := false }, rest) := by
  constructor
  · simp only [format_fields, specOut, Except.map]
  · simp only [List.append_assoc, List.cons_append, List.nil_append, List.append_nil]
    rw [runFmt_lit '<' (by decide),
        runFmt_lit '<' (by decide),
        runFmt_lit '<' (by decide),
        runFmt_Y hY,
        runFmt_lit '-' (by decide),
        runFmt_m hm1 hm2,
        runFmt_lit '-' (by decide),
        runFmt_d hd1 hd2,
        runFmt_lit ' ' (by decide),
        runFmt_H hH,
        runFmt_lit ':' (by decide),
        runFmt_M hM,
        runFmt_lit ':' (by decide),
        runFmt_S hS,
        runFmt_lit ':' (by decide),
        runFmt_ms hms]
    rfl

theorem pat23_fwd (t : TsParts) (rest : List Char)
    (hm1 : 1 ≤ t.month) (hm2 : t.month ≤ 12) (hd1 : 1 ≤ t.date) (hd2 : t.date ≤ 31) (hH : t.hour ≤ 23) (hM : t.minute ≤ 59) (hS : t.second ≤ 60) :
    format_fields ['%','b',' ','%','d',' ','%','H',':','%','M',':','%','S'] t =
      .ok (cAbbrevMonthNames.getD (t.month - 1) [] ++ (' ' :: (append_padded_value t.date '0' 2 ++ (' ' :: (append_padded_value t.hour '0' 2 ++ (':' :: (append_padded_value t.minute '0' 2 ++ (':' :: (append_padded_value t.second '0' 2 ++ []))))))))) ∧
    runFmt ['%','b',' ','%','d',' ','%','H',':','%','M',':','%','S']
      ((cAbbrevMonthNames.getD (t.month - 1) [] ++ (' ' :: (append_padded_value t.date '0' 2 ++ (' ' :: (append_padded_value t.hour '0' 2 ++ (':' :: (append_padded_value t.minute '0' 2 ++ (':' :: (append_padded_value t.second '0' 2 ++ [])))))))))
        ++ rest) initPState
      = some ({ date := t.date, month := t.month, year := 1970, hour := t.hour,
                uses_12_hour_clock := false, minute := t.minute, second := t.second,
                millisecond := 0, is_pm := false }, rest) := by
  constructor
  · simp only [format_fields, specOut, Except.map]
  · simp only [List.append_assoc, List.cons_append, List.nil_append, List.append_nil]
    rw [runFmt_b (abbrevMonth_get t.month hm1 hm2),
        runFmt_lit ' ' (by decide),
        runFmt_d hd1 hd2,
        runFmt_lit ' ' (by decide),
        runFmt_H hH,
        runFmt_lit ':' (by decide),
        runFmt_M hM,
        runFmt_lit ':' (by decide),
        runFmt_S hS]
    rw [show t.month - 1 + 1 = t.month from by omega]
    rfl


theorem afterNthSpace_replicate (n : Nat) (s : List Char) :
    afterNthSpace n (List.replicate n ' ' ++ s) = some (List.replicate n ' ', s) := by
  induction n with
  | zero => simp [afterNthSpace]
  | succ k ih =>
    rw [List.replicate_succ, List.cons_append, afterNthSpace, if_pos rfl, ih]
    rfl

theorem ymdOk_of_bounds (n m d : Nat)
    (hy1 : 1970 ≤ n) (hy2 : n ≤ 2099) (hm1 : 1 ≤ m) (hm2 : m ≤ 12)
    (hd1 : 1 ≤ d) (hd31 : d ≤ 31) (hd30 : m = 4 ∨ m = 6 ∨ m = 9 ∨ m = 11 → d ≤ 30)
    (hd29 : m = 2 → d ≤ 29) (hfeb : m = 2 → d = 29 → n % 4 = 0) :
    ymdOk (n : Int) m d = true := by
  simp only [ymdOk, last_day_of_month, yearIsLeap, Bool.and_eq_true, decide_eq_true_eq]
  refine ⟨⟨⟨⟨⟨by omega, by omega⟩, hm1⟩, hm2⟩, hd1⟩, ?_⟩
  split
  · rename_i hm2'
    subst hm2'
    have h29 := hd29 rfl
    split
    · omega
    · rename_i hleap
      simp only [Bool.and_eq_true, Bool.or_eq_true, decide_eq_true_eq, Bool.not_eq_true] at hleap
      rcases le_or_lt d 28 with h28 | h28
      · omega
      · have hd29' : d = 29 := by omega
        have h4 := hfeb rfl hd29'
        exfalso
        apply hleap
        constructor
        · omega
        · rcases eq_or_ne (n % 100) 0 with h100 | h100
          · right
            have : n = 2000 := by omega
            omega
          · left
            simp only [ne_eq, decide_eq_true_eq]
            omega
  · split
    · exact hd30 (by omega)
    · omega

theorem pat0_assembly (n m d h mi s ms : Nat)
    (hy1 : 1970 ≤ n) (hy2 : n ≤ 2099) (hm1 : 1 ≤ m) (hm2 : m ≤ 12)
    (hd1 : 1 ≤ d) (hd31 : d ≤ 31) (hd30 : m = 4 ∨ m = 6 ∨ m = 9 ∨ m = 11 → d ≤ 30)
    (hd29 : m = 2 → d ≤ 29) (hfeb : m = 2 → d = 29 → n % 4 = 0)
    (hh : h ≤ 23) (hmi : mi ≤ 59) (hs : s ≤ 59) (hms : ms ≤ 999) :
    ∃ out, insert_formatted_timestamp ⟨0, "%Y-%m-%dT%H:%M:%S.%3"⟩
        (tsOf (n : Int) m d h mi s ms) [] = .ok out ∧
      parse_timestamp_core ⟨0, "%Y-%m-%dT%H:%M:%S.%3"⟩ out =
        some (tsOf (n : Int) m d h mi s ms, 0, out.length) := by
  have hdec := decompose_tsOf n m d h mi s ms hy1 hy2 hm1 hm2 hd1 hd31 hd30 hd29 hfeb hh hmi hs hms
  obtain ⟨hfwd1, hfwd2⟩ := pat0_fwd
    ({ year := (n : Int), month := m, date := d,
       day_of_week_ix := ((days_from_civil (n : Int) m d + 4).emod 7).toNat,
       hour := h, minute := mi, second := s, millisecond := ms }) []
    (show ((n : Int)).toNat ≤ 9999 from by omega)
    hm1 hm2 hd1 hd31 hh hmi (show s ≤ 60 from by omega) hms
  dsimp only at hfwd1 hfwd2
  simp only [List.append_nil] at hfwd1 hfwd2
  have hins : insert_formatted_timestamp ⟨0, "%Y-%m-%dT%H:%M:%S.%3"⟩
      (tsOf (n : Int) m d h mi s ms) []
      = Except.map (fun body => [] ++ body ++ [])
          (format_fields ['%','Y','-','%','m','-','%','d','T','%','H',':','%','M',':','%','S','.','%','3']
            (decompose_ts (tsOf (n : Int) m d h mi s ms))) := rfl
  rw [hdec, hfwd1] at hins
  simp only [Except.map, List.nil_append, List.append_nil] at hins
  refine ⟨_, hins, ?_⟩
  rw [show parse_timestamp_core ⟨0, "%Y-%m-%dT%H:%M:%S.%3"⟩
    = fun line =>
      (match afterNthSpace 0 line with
      | none => none
      | some (pre, rest) =>
        match runFmt ['%','Y','-','%','m','-','%','d','T','%','H',':','%','M',':','%','S','.','%','3'] rest initPState with
        | none => none
        | some (st, left) =>
          if ymdOk (st.year : Int) st.month st.date then
            some (tsOf (st.year : Int) st.month st.date (fix12Hour st) st.minute st.second st.millisecond,
                  pre.length, line.length - left.length)
          else none) from rfl]
  simp only [afterNthSpace]
  rw [hfwd2]
  simp only [fix12Hour]
  rw [show ((((n : Int)).toNat : Nat) : Int) = (n : Int) from by omega]
  rw [if_pos (ymdOk_of_bounds n m d hy1 hy2 hm1 hm2 hd1 hd31 hd30 hd29 hfeb)]
  simp

theorem fix12_round {dd mm yy mi0 s0 ms0 h : Nat} (hh : h ≤ 23) (h13 : h ≠ 13) :
    fix12Hour { date := dd, month := mm, year := yy, hour := hour12Out h,
                uses_12_hour_clock := true, minute := mi0, second := s0,
                millisecond := ms0, is_pm := decide (11 < h) } = h := by
  simp only [fix12Hour, hour12Out]
  split_ifs <;> simp_all <;> omega

theorem pat1_assembly (n m d h mi s ms : Nat)
    (hy1 : 1970 ≤ n) (hy2 : n ≤ 2099) (hm1 : 1 ≤ m) (hm2 : m ≤ 12)
    (hd1 : 1 ≤ d) (hd31 : d ≤ 31) (hd30 : m = 4 ∨ m = 6 ∨ m = 9 ∨ m = 11 → d ≤ 30)
    (hd29 : m = 2 → d ≤ 29) (hfeb : m = 2 → d = 29 → n % 4 = 0)
    (hh : h ≤ 23) (hmi : mi ≤ 59) (hs : s ≤ 59) (hms : ms ≤ 999) :
    ∃ out, insert_formatted_timestamp ⟨0, "%Y-%m-%dT%H:%M:%S,%3"⟩
        (tsOf (n : Int) m d h mi s ms) [] = .ok out ∧
      parse_timestamp_core ⟨0, "%Y-%m-%dT%H:%M:%S,%3"⟩ out =
        some (tsOf (n : Int) m d h mi s ms, 0, out.length) := by
  have hdec := decompose_tsOf n m d h mi s ms hy1 hy2 hm1 hm2 hd1 hd31 hd30 hd29 hfeb hh hmi hs hms
  obtain ⟨hfwd1, hfwd2⟩ := pat1_fwd
    ({ year := (n : Int), month := m, date := d,
       day_of_week_ix := ((days_from_civil (n : Int) m d + 4).emod 7).toNat,
       hour := h, minute := mi, second := s, millisecond := ms }) []
    (show ((n : Int)).toNat ≤ 9999 from by omega)
    hm1 hm2
    hd1 hd31
    hh
    hmi
    (show s ≤ 60 from by omega)
    hms
  dsimp only at hfwd1 hfwd2
  simp only [List.append_nil] at hfwd1 hfwd2
  have hins : insert_formatted_timestamp ⟨0, "%Y-%m-%dT%H:%M:%S,%3"⟩
      (tsOf (n : Int) m d h mi s ms) []
      = Except.map (fun body => [] ++ body ++ [])
          (format_fields ['%','Y','-','%','m','-','%','d','T','%','H',':','%','M',':','%','S',',','%','3']
            (decompose_ts (tsOf (n : Int) m d h mi s ms))) := rfl
  rw [hdec, hfwd1] at hins
  simp only [Except.map, List.nil_append, List.append_nil] at hins
  refine ⟨_, hins, ?_⟩
  rw [show parse_timestamp_core ⟨0, "%Y-%m-%dT%H:%M:%S,%3"⟩
    = fun line =>
      (match afterNthSpace 0 line with
      | none => none
      | some (pre, rest) =>
        match runFmt ['%','Y','-','%','m','-','%','d','T','%','H',':','%','M',':','%','S',',','%','3'] rest initPState with
        | none => none
        | some (st, left) =>
          if ymdOk (st.year : Int) st.month st.date then
            some (tsOf (st.year : Int) st.month st.date (fix12Hour st) st.minute st.second st.millisecond,
                  pre.length, line.length - left.length)
          else none) from rfl]
  simp only [afterNthSpace]
  rw [hfwd2]
  simp only [fix12Hour]
  rw [show ((((n : Int)).toNat : Nat) : Int) = (n : Int) from by omega]
  rw [if_pos (ymdOk_of_bounds n m d hy1 hy2 hm1 hm2 hd1 hd31 hd30 hd29 hfeb)]
  simp

theorem pat2_assembly (n m d h mi s ms : Nat)
    (hy1 : 1970 ≤ n) (hy2 : n ≤ 2099) (hm1 : 1 ≤ m) (hm2 : m ≤ 12)
    (hd1 : 1 ≤ d) (hd31 : d ≤ 31) (hd30 : m = 4 ∨ m = 6 ∨ m = 9 ∨ m = 11 → d ≤ 30)
    (hd29 : m = 2 → d ≤ 29) (hfeb : m = 2 → d = 29 → n % 4 = 0)
    (hh : h ≤ 23) (hmi : mi ≤ 59) (hs : s ≤ 59) (hms : ms ≤ 999) :
    ∃ out, insert_formatted_timestamp ⟨0, "[%Y-%m-%dT%H:%M:%S"⟩
        (tsOf (n : Int) m d h mi s ms) [] = .ok out ∧
      parse_timestamp_core ⟨0, "[%Y-%m-%dT%H:%M:%S"⟩ out =
        some (tsOf (n : Int) m d h mi s 0, 0, out.length) := by
  have hdec := decompose_tsOf n m d h mi s ms hy1 hy2 hm1 hm2 hd1 hd31 hd30 hd29 hfeb hh hmi hs hms
  obtain ⟨hfwd1, hfwd2⟩ := pat2_fwd
    ({ year := (n : Int), month := m, date := d,
       day_of_week_ix := ((days_from_civil (n : Int) m d + 4).emod 7).toNat,
       hour := h, minute := mi, second := s, millisecond := ms }) []
    (show ((n : Int)).toNat ≤ 9999 from by omega)
    hm1 hm2
    hd1 hd31
    hh
    hmi
    (show s ≤ 60 from by omega)
  dsimp only at hfwd1 hfwd2
  simp only [List.append_nil] at hfwd1 hfwd2
  have hins : insert_formatted_timestamp ⟨0, "[%Y-%m-%dT%H:%M:%S"⟩
      (tsOf (n : Int) m d h mi s ms) []
      = Except.map (fun body => [] ++ body ++ [])
          (format_fields ['[','%','Y','-','%','m','-','%','d','T','%','H',':','%','M',':','%','S']
            (decompose_ts (tsOf (n : Int) m d h mi s ms))) := rfl
  rw [hdec, hfwd1] at hins
  simp only [Except.map, List.nil_append, List.append_nil] at hins
  refine ⟨_, hins, ?_⟩
  rw [show parse_timestamp_core ⟨0, "[%Y-%m-%dT%H:%M:%S"⟩
    = fun line =>
      (match afterNthSpace 0 line with
      | none => none
      | some (pre, rest) =>
        match runFmt ['[','%','Y','-','%','m','-','%','d','T','%','H',':','%','M',':','%','S'] rest initPState with
        | none => none
        | some (st, left) =>
          if ymdOk (st.year : Int) st.month st.date then
            some (tsOf (st.year : Int) st.month st.date (fix12Hour st) st.minute st.second st.millisecond,
                  pre.length, line.length - left.length)
          else none) from rfl]
  simp only [afterNthSpace]
  rw [hfwd2]
  simp only [fix12Hour]
  rw [show ((((n : Int)).toNat : Nat) : Int) = (n : Int) from by omega]
  rw [if_pos (ymdOk_of_bounds n m d hy1 hy2 hm1 hm2 hd1 hd31 hd30 hd29 hfeb)]
  simp

theorem pat3_assembly (n m d h mi s ms : Nat)
    (hy1 : 1970 ≤ n) (hy2 : n ≤ 2099) (hm1 : 1 ≤ m) (hm2 : m ≤ 12)
    (hd1 : 1 ≤ d) (hd31 : d ≤ 31) (hd30 : m = 4 ∨ m = 6 ∨ m = 9 ∨ m = 11 → d ≤ 30)
    (hd29 : m = 2 → d ≤ 29) (hfeb : m = 2 → d = 29 → n % 4 = 0)
    (hh : h ≤ 23) (hmi : mi ≤ 59) (hs : s ≤ 59) (hms : ms ≤ 999) :
    ∃ out, insert_formatted_timestamp ⟨0, "[%Y%m%d-%H:%M:%S]"⟩
        (tsOf (n : Int) m d h mi s ms) [] = .ok out ∧
      parse_timestamp_core ⟨0, "[%Y%m%d-%H:%M:%S]"⟩ out =
        some (tsOf (n : Int) m d h mi s 0, 0, out.length) := by
  have hdec := decompose_tsOf n m d h mi s ms hy1 hy2 hm1 hm2 hd1 hd31 hd30 hd29 hfeb hh hmi hs hms
  obtain ⟨hfwd1, hfwd2⟩ := pat3_fwd
    ({ year := (n : Int), month := m, date := d,
       day_of_week_ix := ((days_from_civil (n : Int) m d + 4).emod 7).toNat,
       hour := h, minute := mi, second := s, millisecond := ms }) []
    (show ((n : Int)).toNat ≤ 9999 from by omega)
    hm1 hm2
    hd1 hd31
    hh
    hmi
    (show s ≤ 60 from by omega)
  dsimp only at hfwd1 hfwd2
  simp only [List.append_nil] at hfwd1 hfwd2
  have hins : insert_formatted_timestamp ⟨0, "[%Y%m%d-%H:%M:%S]"⟩
      (tsOf (n : Int) m d h mi s ms) []
      = Except.map (fun body => [] ++ body ++ [])
          (format_fields ['[','%','Y','%','m','%','d','-','%','H',':','%','M',':','%','S',']']
            (decompose_ts (tsOf (n : Int) m d h mi s ms))) := rfl
  rw [hdec, hfwd1] at hins
  simp only [Except.map, List.nil_append, List.append_nil] at hins
  refine ⟨_, hins, ?_⟩
  rw [show parse_timestamp_core ⟨0, "[%Y%m%d-%H:%M:%S]"⟩
    = fun line =>
      (match afterNthSpace 0 line with
      | none => none
      | some (pre, rest) =>
        match runFmt ['[','%','Y','%','m','%','d','-','%','H',':','%','M',':','%','S',']'] rest initPState with
        | none => none
        | some (st, left) =>
          if ymdOk (st.year : Int) st.month st.date then
            some (tsOf (st.year : Int) st.month st.date (fix12Hour st) st.minute st.second st.millisecond,
                  pre.length, line.length - left.length)
          else none) from rfl]
  simp only [afterNthSpace]
  rw [hfwd2]
  simp only [fix12Hour]
  rw [show ((((n : Int)).toNat : Nat) : Int) = (n : Int) from by omega]
  rw [if_pos (ymdOk_of_bounds n m d hy1 hy2 hm1 hm2 hd1 hd31 hd30 hd29 hfeb)]
  simp

theorem pat4_assembly (n m d h mi s ms : Nat)
    (hy1 : 1970 ≤ n) (hy2 : n ≤ 2099) (hm1 : 1 ≤ m) (hm2 : m ≤ 12)
    (hd1 : 1 ≤ d) (hd31 : d ≤ 31) (hd30 : m = 4 ∨ m = 6 ∨ m = 9 ∨ m = 11 → d ≤ 30)
    (hd29 : m = 2 → d ≤ 29) (hfeb : m = 2 → d = 29 → n % 4 = 0)
    (hh : h ≤ 23) (hmi : mi ≤ 59) (hs : s ≤ 59) (hms : ms ≤ 999) :
    ∃ out, insert_formatted_timestamp ⟨0, "%Y-%m-%d %H:%M:%S,%3"⟩
        (tsOf (n : Int) m d h mi s ms) [] = .ok out ∧
      parse_timestamp_core ⟨0, "%Y-%m-%d %H:%M:%S,%3"⟩ out =
        some (tsOf (n : Int) m d h mi s ms, 0, out.length) := by
  have hdec := decompose_tsOf n m d h mi s ms hy1 hy2 hm1 hm2 hd1 hd31 hd30 hd29 hfeb hh hmi hs hms
  obtain ⟨hfwd1, hfwd2⟩ := pat4_fwd
    ({ year := (n : Int), month := m, date := d,
       day_of_week_ix := ((days_from_civil (n : Int) m d + 4).emod 7).toNat,
       hour := h, minute := mi, second := s, millisecond := ms }) []
    (show ((n : Int)).toNat ≤ 9999 from by omega)
    hm1 hm2
    hd1 hd31
    hh
    hmi
    (show s ≤ 60 from by omega)
    hms
  dsimp only at hfwd1 hfwd2
  simp only [List.append_nil] at hfwd1 hfwd2
  have hins : insert_formatted_timestamp ⟨0, "%Y-%m-%d %H:%M:%S,%3"⟩
      (tsOf (n : Int) m d h mi s ms) []
      = Except.map (fun body => [] ++ body ++ [])
          (format_fields ['%','Y','-','%','m','-','%','d',' ','%','H',':','%','M',':','%','S',',','%','3']
            (decompose_ts (tsOf (n : Int) m d h mi s ms))) := rfl
  rw [hdec, hfwd1] at hins
  simp only [Except.map, List.nil_append, List.append_nil] at hins
  refine ⟨_, hins, ?_⟩
  rw [show parse_timestamp_core ⟨0, "%Y-%m-%d %H:%M:%S,%3"⟩
    = fun line =>
      (match afterNthSpace 0 line with
      | none => none
      | some (pre, rest) =>
        match runFmt ['%','Y','-','%','m','-','%','d',' ','%','H',':','%','M',':','%','S',',','%','3'] rest initPState with
        | none => none
        | some (st, left) =>
          if ymdOk (st.year : Int) st.month st.date then
            some (tsOf (st.year : Int) st.month st.date (fix12Hour st) st.minute st.second st.millisecond,
                  pre.length, line.length - left.length)
          else none) from rfl]
  simp only [afterNthSpace]
  rw [hfwd2]
  simp only [fix12Hour]
  rw [show ((((n : Int)).toNat : Nat) : Int) = (n : Int) from by omega]
  rw [if_pos (ymdOk_of_bounds n m d hy1 hy2 hm1 hm2 hd1 hd31 hd30 hd29 hfeb)]
  simp

theorem pat5_assembly (n m d h mi s ms : Nat)
    (hy1 : 1970 ≤ n) (hy2 : n ≤ 2099) (hm1 : 1 ≤ m) (hm2 : m ≤ 12)
    (hd1 : 1 ≤ d) (hd31 : d ≤ 31) (hd30 : m = 4 ∨ m = 6 ∨ m = 9 ∨ m = 11 → d ≤ 30)
    (hd29 : m = 2 → d ≤ 29) (hfeb : m = 2 → d = 29 → n % 4 = 0)
    (hh : h ≤ 23) (hmi : mi ≤ 59) (hs : s ≤ 59) (hms : ms ≤ 999) :
    ∃ out, insert_formatted_timestamp ⟨0, "%Y-%m-%d %H:%M:%S.%3"⟩
        (tsOf (n : Int) m d h mi s ms) [] = .ok out ∧
      parse_timestamp_core ⟨0, "%Y-%m-%d %H:%M:%S.%3"⟩ out =
        some (tsOf (n : Int) m d h mi s ms, 0, out.length) := by
  have hdec := decompose_tsOf n m d h mi s ms hy1 hy2 hm1 hm2 hd1 hd31 hd30 hd29 hfeb hh hmi hs hms
  obtain ⟨hfwd1, hfwd2⟩ := pat5_fwd
    ({ year := (n : Int), month := m, date := d,
       day_of_week_ix := ((days_from_civil (n : Int) m d + 4).emod 7).toNat,
       hour := h, minute := mi, second := s, millisecond := ms }) []
    (show ((n : Int)).toNat ≤ 9999 from by omega)
    hm1 hm2
    hd1 hd31
    hh
    hmi
    (show s ≤ 60 from by omega)
    hms
  dsimp only at hfwd1 hfwd2
  simp only [List.append_nil] at hfwd1 hfwd2
  have hins : insert_formatted_timestamp ⟨0, "%Y-%m-%d %H:%M:%S.%3"⟩
      (tsOf (n : Int) m d h mi s ms) []
      = Except.map (fun body => [] ++ body ++ [])
          (format_fields ['%','Y','-','%','m','-','%','d',' ','%','H',':','%','M',':','%','S','.','%','3']
            (decompose_ts (tsOf (n : Int) m d h mi s ms))) := rfl
  rw [hdec, hfwd1] at hins
  simp only [Except.map, List.nil_append, List.append_nil] at hins
  refine ⟨_, hins, ?_⟩
  rw [show parse_timestamp_core ⟨0, "%Y-%m-%d %H:%M:%S.%3"⟩
    = fun line =>
      (match afterNthSpace 0 line with
      | none => none
      | some (pre, rest) =>
        match runFmt ['%','Y','-','%','m','-','%','d',' ','%','H',':','%','M',':','%','S','.','%','3'] rest initPState with
        | none => none
        | some (st, left) =>
          if ymdOk (st.year : Int) st.month st.date then
            some (tsOf (st.year : Int) st.month st.date (fix12Hour st) st.minute st.second st.millisecond,
                  pre.length, line.length - left.length)
          else none) from rfl]
  simp only [afterNthSpace]
  rw [hfwd2]
  simp only [fix12Hour]
  rw [show ((((n : Int)).toNat : Nat) : Int) = (n : Int) from by omega]
  rw [if_pos (ymdOk_of_bounds n m d hy1 hy2 hm1 hm2 hd1 hd31 hd30 hd29 hfeb)]
  simp

theorem pat6_assembly (n m d h mi s ms : Nat)
    (hy1 : 1970 ≤ n) (hy2 : n ≤ 2099) (hm1 : 1 ≤ m) (hm2 : m ≤ 12)
    (hd1 : 1 ≤ d) (hd31 : d ≤ 31) (hd30 : m = 4 ∨ m = 6 ∨ m = 9 ∨ m = 11 → d ≤ 30)
    (hd29 : m = 2 → d ≤ 29) (hfeb : m = 2 → d = 29 → n % 4 = 0)
    (hh : h ≤ 23) (hmi : mi ≤ 59) (hs : s ≤ 59) (hms : ms ≤ 999) :
    ∃ out, insert_formatted_timestamp ⟨0, "[%Y-%m-%d %H:%M:%S,%3]"⟩
        (tsOf (n : Int) m d h mi s ms) [] = .ok out ∧
      parse_timestamp_core ⟨0, "[%Y-%m-%d %H:%M:%S,%3]"⟩ out =
        some (tsOf (n : Int) m d h mi s ms, 0, out.length) := by
  have hdec := decompose_tsOf n m d h mi s ms hy1 hy2 hm1 hm2 hd1 hd31 hd30 hd29 hfeb hh hmi hs hms
  obtain ⟨hfwd1, hfwd2⟩ := pat6_fwd
    ({ year := (n : Int), month := m, date := d,
       day_of_week_ix := ((days_from_civil (n : Int) m d + 4).emod 7).toNat,
       hour := h, minute := mi, second := s, millisecond := ms }) []
    (show ((n : Int)).toNat ≤ 9999 from by omega)
    hm1 hm2
    hd1 hd31
    hh
    hmi
    (show s ≤ 60 from by omega)
    hms
  dsimp only at hfwd1 hfwd2
  simp only [List.append_nil] at hfwd1 hfwd2
  have hins : insert_formatted_timestamp ⟨0, "[%Y-%m-%d %H:%M:%S,%3]"⟩
      (tsOf (n : Int) m d h mi s ms) []
      = Except.map (fun body => [] ++ body ++ [])
          (format_fields ['[','%','Y','-','%','m','-','%','d',' ','%','H',':','%','M',':','%','S',',','%','3',']']
            (decompose_ts (tsOf (n : Int) m d h mi s ms))) := rfl
  rw [hdec, hfwd1] at hins
  simp only [Except.map, List.nil_append, List.append_nil] at hins
  refine ⟨_, hins, ?_⟩
  rw [show parse_timestamp_core ⟨0, "[%Y-%m-%d %H:%M:%S,%3]"⟩
    = fun line =>
      (match afterNthSpace 0 line with
      | none => none
      | some (pre, rest) =>
        match runFmt ['[','%','Y','-','%','m','-','%','d',' ','%','H',':','%','M',':','%','S',',','%','3',']'] rest initPState with
        | none => none
        | some (st, left) =>
          if ymdOk (st.year : Int) st.month st.date then
            some (tsOf (st.year : Int) st.month st.date (fix12Hour st) st.minute st.second st.millisecond,
                  pre.length, line.length - left.length)
          else none) from rfl]
  simp only [afterNthSpace]
  rw [hfwd2]
  simp only [fix12Hour]
  rw [show ((((n : Int)).toNat : Nat) : Int) = (n : Int) from by omega]
  rw [if_pos (ymdOk_of_bounds n m d hy1 hy2 hm1 hm2 hd1 hd31 hd30 hd29 hfeb)]
  simp

theorem pat7_assembly (n m d h mi s ms : Nat)
    (hy1 : 1970 ≤ n) (hy2 : n ≤ 2099) (hm1 : 1 ≤ m) (hm2 : m ≤ 12)
    (hd1 : 1 ≤ d) (hd31 : d ≤ 31) (hd30 : m = 4 ∨ m = 6 ∨ m = 9 ∨ m = 11 → d ≤ 30)
    (hd29 : m = 2 → d ≤ 29) (hfeb : m = 2 → d = 29 → n % 4 = 0)
    (hh : h ≤ 23) (hmi : mi ≤ 59) (hs : s ≤ 59) (hms : ms ≤ 999) :
    ∃ out, insert_formatted_timestamp ⟨0, "%Y-%m-%d %H:%M:%S"⟩
        (tsOf (n : Int) m d h mi s ms) [] = .ok out ∧
      parse_timestamp_core ⟨0, "%Y-%m-%d %H:%M:%S"⟩ out =
        some (tsOf (n : Int) m d h mi s 0, 0, out.length) := by
  have hdec := decompose_tsOf n m d h mi s ms hy1 hy2 hm1 hm2 hd1 hd31 hd30 hd29 hfeb hh hmi hs hms
  obtain ⟨hfwd1, hfwd2⟩ := pat7_fwd
    ({ year := (n : Int), month := m, date := d,
       day_of_week_ix := ((days_from_civil (n : Int) m d + 4).emod 7).toNat,
       hour := h, minute := mi, second := s, millisecond := ms }) []
    (show ((n : Int)).toNat ≤ 9999 from by omega)
    hm1 hm2
    hd1 hd31
    hh
    hmi
    (show s ≤ 60 from by omega)
  dsimp only at hfwd1 hfwd2
  simp only [List.append_nil] at hfwd1 hfwd2
  have hins : insert_formatted_timestamp ⟨0, "%Y-%m-%d %H:%M:%S"⟩
      (tsOf (n : Int) m d h mi s ms) []
      = Except.map (fun body => [] ++ body ++ [])
          (format_fields ['%','Y','-','%','m','-','%','d',' ','%','H',':','%','M',':','%','S']
            (decompose_ts (tsOf (n : Int) m d h mi s ms))) := rfl
  rw [hdec, hfwd1] at hins
  simp only [Except.map, List.nil_append, List.append_nil] at hins
  refine ⟨_, hins, ?_⟩
  rw [show parse_timestamp_core ⟨0, "%Y-%m-%d %H:%M:%S"⟩
    = fun line =>
      (match afterNthSpace 0 line with
      | none => none
      | some (pre, rest) =>
        match runFmt ['%','Y','-','%','m','-','%','d',' ','%','H',':','%','M',':','%','S'] rest initPState with
        | none => none
        | some (st, left) =>
          if ymdOk (st.year : Int) st.month st.date then
            some (tsOf (st.year : Int) st.month st.date (fix12Hour st) st.minute st.second st.millisecond,
                  pre.length, line.length - left.length)
          else none) from rfl]
  simp only [afterNthSpace]
  rw [hfwd2]
  simp only [fix12Hour]
  rw [show ((((n : Int)).toNat : Nat) : Int) = (n : Int) from by omega]
  rw [if_pos (ymdOk_of_bounds n m d hy1 hy2 hm1 hm2 hd1 hd31 hd30 hd29 hfeb)]
  simp

theorem pat8_assembly (n m d h mi s ms : Nat)
    (hy1 : 1970 ≤ n) (hy2 : n ≤ 2099) (hm1 : 1 ≤ m) (hm2 : m ≤ 12)
    (hd1 : 1 ≤ d) (hd31 : d ≤ 31) (hd30 : m = 4 ∨ m = 6 ∨ m = 9 ∨ m = 11 → d ≤ 30)
    (hd29 : m = 2 → d ≤ 29) (hfeb : m = 2 → d = 29 → n % 4 = 0)
    (hh : h ≤ 23) (hmi : mi ≤ 59) (hs : s ≤ 59) (hms : ms ≤ 999) :
    ∃ out, insert_formatted_timestamp ⟨1, "%Y-%m-%d  %H:%M:%S"⟩
        (tsOf (n : Int) m d h mi s ms) (List.replicate 1 ' ') = .ok out ∧
      parse_timestamp_core ⟨1, "%Y-%m-%d  %H:%M:%S"⟩ out =
        some (tsOf (n : Int) m d h mi s 0, 1, out.length) := by
  have hdec := decompose_tsOf n m d h mi s ms hy1 hy2 hm1 hm2 hd1 hd31 hd30 hd29 hfeb hh hmi hs hms
  obtain ⟨hfwd1, hfwd2⟩ := pat8_fwd
    ({ year := (n : Int), month := m, date := d,
       day_of_week_ix := ((days_from_civil (n : Int) m d + 4).emod 7).toNat,
       hour := h, minute := mi, second := s, millisecond := ms }) []
    (show ((n : Int)).toNat ≤ 9999 from by omega)
    hm1 hm2
    hd1 hd31
    hh
    hmi
    (show s ≤ 60 from by omega)
  dsimp only at hfwd1 hfwd2
  simp only [List.append_nil] at hfwd1 hfwd2
  have hins : insert_formatted_timestamp ⟨1, "%Y-%m-%d  %H:%M:%S"⟩
      (tsOf (n : Int) m d h mi s ms) (List.replicate 1 ' ')
      = Except.map (fun body => List.replicate 1 ' ' ++ body ++ [])
          (format_fields ['%','Y','-','%','m','-','%','d',' ',' ','%','H',':','%','M',':','%','S']
            (decompose_ts (tsOf (n : Int) m d h mi s ms))) := rfl
  rw [hdec, hfwd1] at hins
  simp only [Except.map, List.nil_append, List.append_nil] at hins
  refine ⟨_, hins, ?_⟩
  rw [show parse_timestamp_core ⟨1, "%Y-%m-%d  %H:%M:%S"⟩
    = fun line =>
      (match afterNthSpace 1 line with
      | none => none
      | some (pre, rest) =>
        match runFmt ['%','Y','-','%','m','-','%','d',' ',' ','%','H',':','%','M',':','%','S'] rest initPState with
        | none => none
        | some (st, left) =>
          if ymdOk (st.year : Int) st.month st.date then
            some (tsOf (st.year : Int) st.month st.date (fix12Hour st) st.minute st.second st.millisecond,
                  pre.length, line.length - left.length)
          else none) from rfl]
  simp only [afterNthSpace_replicate]
  rw [hfwd2]
  simp only [fix12Hour]
  rw [show ((((n : Int)).toNat : Nat) : Int) = (n : Int) from by omega]
  rw [if_pos (ymdOk_of_bounds n m d hy1 hy2 hm1 hm2 hd1 hd31 hd30 hd29 hfeb)]
  simp

theorem pat9_assembly (n m d h mi s ms : Nat)
    (hy1 : 1970 ≤ n) (hy2 : n ≤ 2099) (hm1 : 1 ≤ m) (hm2 : m ≤ 12)
    (hd1 : 1 ≤ d) (hd31 : d ≤ 31) (hd30 : m = 4 ∨ m = 6 ∨ m = 9 ∨ m = 11 → d ≤ 30)
    (hd29 : m = 2 → d ≤ 29) (hfeb : m = 2 → d = 29 → n % 4 = 0)
    (hh : h ≤ 23) (hmi : mi ≤ 59) (hs : s ≤ 59) (hms : ms ≤ 999) :
    ∃ out, insert_formatted_timestamp ⟨0, "%Y/%m/%d %H:%M:%S"⟩
        (tsOf (n : Int) m d h mi s ms) [] = .ok out ∧
      parse_timestamp_core ⟨0, "%Y/%m/%d %H:%M:%S"⟩ out =
        some (tsOf (n : Int) m d h mi s 0, 0, out.length) := by
  have hdec := decompose_tsOf n m d h mi s ms hy1 hy2 hm1 hm2 hd1 hd31 hd30 hd29 hfeb hh hmi hs hms
  obtain ⟨hfwd1, hfwd2⟩ := pat9_fwd
    ({ year := (n : Int), month := m, date := d,
       day_of_week_ix := ((days_from_civil (n : Int) m d + 4).emod 7).toNat,
       hour := h, minute := mi, second := s, millisecond := ms }) []
    (show ((n : Int)).toNat ≤ 9999 from by omega)
    hm1 hm2
    hd1 hd31
    hh
    hmi
    (show s ≤ 60 from by omega)
  dsimp only at hfwd1 hfwd2
  simp only [List.append_nil] at hfwd1 hfwd2
  have hins : insert_formatted_timestamp ⟨0, "%Y/%m/%d %H:%M:%S"⟩
      (tsOf (n : Int) m d h mi s ms) []
      = Except.map (fun body => [] ++ body ++ [])
          (format_fields ['%','Y','/','%','m','/','%','d',' ','%','H',':','%','M',':','%','S']
            (decompose_ts (tsOf (n : Int) m d h mi s ms))) := rfl
  rw [hdec, hfwd1] at hins
  simp only [Except.map, List.nil_append, List.append_nil] at hins
  refine ⟨_, hins, ?_⟩
  rw [show parse_timestamp_core ⟨0, "%Y/%m/%d %H:%M:%S"⟩
    = fun line =>
      (match afterNthSpace 0 line with
      | none => none
      | some (pre, rest) =>
        match runFmt ['%','Y','/','%','m','/','%','d',' ','%','H',':','%','M',':','%','S'] rest initPState with
        | none => none
        | some (st, left) =>
          if ymdOk (st.year : Int) st.month st.date then
            some (tsOf (st.year : Int) st.month st.date (fix12Hour st) st.minute st.second st.millisecond,
                  pre.length, line.length - left.length)
          else none) from rfl]
  simp only [afterNthSpace]
  rw [hfwd2]
  simp only [fix12Hour]
  rw [show ((((n : Int)).toNat : Nat) : Int) = (n : Int) from by omega]
  rw [if_pos (ymdOk_of_bounds n m d hy1 hy2 hm1 hm2 hd1 hd31 hd30 hd29 hfeb)]
  simp

theorem pat10_assembly (n m d h mi s ms : Nat)
    (hy1 : 1970 ≤ n) (hy2 : n ≤ 2099) (hm1 : 1 ≤ m) (hm2 : m ≤ 12)
    (hd1 : 1 ≤ d) (hd31 : d ≤ 31) (hd30 : m = 4 ∨ m = 6 ∨ m = 9 ∨ m = 11 → d ≤ 30)
    (hd29 : m = 2 → d ≤ 29) (hfeb : m = 2 → d = 29 → n % 4 = 0)
    (hh : h ≤ 23) (hmi : mi ≤ 59) (hs : s ≤ 59) (hms : ms ≤ 999) (hy68 : n ≤ 2068) :
    ∃ out, insert_formatted_timestamp ⟨0, "%y/%m/%d %H:%M:%S"⟩
        (tsOf (n : Int) m d h mi s ms) [] = .ok out ∧
      parse_timestamp_core ⟨0, "%y/%m/%d %H:%M:%S"⟩ out =
        some (tsOf (n : Int) m d h mi s 0, 0, out.length) := by
  have hdec := decompose_tsOf n m d h mi s ms hy1 hy2 hm1 hm2 hd1 hd31 hd30 hd29 hfeb hh hmi hs hms
  obtain ⟨hfwd1, hfwd2⟩ := pat10_fwd
    ({ year := (n : Int), month := m, date := d,
       day_of_week_ix := ((days_from_civil (n : Int) m d + 4).emod 7).toNat,
       hour := h, minute := mi, second := s, millisecond := ms }) []
    (show yearToTwoDigit (n : Int) ≤ 99 from by unfold yearToTwoDigit; split <;> omega)
    hm1 hm2
    hd1 hd31
    hh
    hmi
    (show s ≤ 60 from by omega)
  dsimp only at hfwd1 hfwd2
  simp only [List.append_nil] at hfwd1 hfwd2
  have hins : insert_formatted_timestamp ⟨0, "%y/%m/%d %H:%M:%S"⟩
      (tsOf (n : Int) m d h mi s ms) []
      = Except.map (fun body => [] ++ body ++ [])
          (format_fields ['%','y','/','%','m','/','%','d',' ','%','H',':','%','M',':','%','S']
            (decompose_ts (tsOf (n : Int) m d h mi s ms))) := rfl
  rw [hdec, hfwd1] at hins
  simp only [Except.map, List.nil_append, List.append_nil] at hins
  refine ⟨_, hins, ?_⟩
  rw [show parse_timestamp_core ⟨0, "%y/%m/%d %H:%M:%S"⟩
    = fun line =>
      (match afterNthSpace 0 line with
      | none => none
      | some (pre, rest) =>
        match runFmt ['%','y','/','%','m','/','%','d',' ','%','H',':','%','M',':','%','S'] rest initPState with
        | none => none
        | some (st, left) =>
          if ymdOk (st.year : Int) st.month st.date then
            some (tsOf (st.year : Int) st.month st.date (fix12Hour st) st.minute st.second st.millisecond,
                  pre.length, line.length - left.length)
          else none) from rfl]
  simp only [afterNthSpace]
  rw [hfwd2]
  simp only [fix12Hour]
  rw [show twoDigitToYear (yearToTwoDigit (n : Int)) = n from by
    unfold twoDigitToYear yearToTwoDigit; split_ifs <;> omega]
  rw [if_pos (ymdOk_of_bounds n m d hy1 hy2 hm1 hm2 hd1 hd31 hd30 hd29 hfeb)]
  simp

theorem pat11_assembly (n m d h mi s ms : Nat)
    (hy1 : 1970 ≤ n) (hy2 : n ≤ 2099) (hm1 : 1 ≤ m) (hm2 : m ≤ 12)
    (hd1 : 1 ≤ d) (hd31 : d ≤ 31) (hd30 : m = 4 ∨ m = 6 ∨ m = 9 ∨ m = 11 → d ≤ 30)
    (hd29 : m = 2 → d ≤ 29) (hfeb : m = 2 → d = 29 → n % 4 = 0)
    (hh : h ≤ 23) (hmi : mi ≤ 59) (hs : s ≤ 59) (hms : ms ≤ 999) (hy68 : n ≤ 2068) :
    ∃ out, insert_formatted_timestamp ⟨0, "%y%m%d %k:%M:%S"⟩
        (tsOf (n : Int) m d h mi s ms) [] = .ok out ∧
      parse_timestamp_core ⟨0, "%y%m%d %k:%M:%S"⟩ out =
        some (tsOf (n : Int) m d h mi s 0, 0, out.length) := by
  have hdec := decompose_tsOf n m d h mi s ms hy1 hy2 hm1 hm2 hd1 hd31 hd30 hd29 hfeb hh hmi hs hms
  obtain ⟨hfwd1, hfwd2⟩ := pat11_fwd
    ({ year := (n : Int), month := m, date := d,
       day_of_week_ix := ((days_from_civil (n : Int) m d + 4).emod 7).toNat,
       hour := h, minute := mi, second := s, millisecond := ms }) []
    (show yearToTwoDigit (n : Int) ≤ 99 from by unfold yearToTwoDigit; split <;> omega)
    hm1 hm2
    hd1 hd31
    hh
    hmi
    (show s ≤ 60 from by omega)
  dsimp only at hfwd1 hfwd2
  simp only [List.append_nil] at hfwd1 hfwd2
  have hins : insert_formatted_timestamp ⟨0, "%y%m%d %k:%M:%S"⟩
      (tsOf (n : Int) m d h mi s ms) []
      = Except.map (fun body => [] ++ body ++ [])
          (format_fields ['%','y','%','m','%','d',' ','%','k',':','%','M',':','%','S']
            (decompose_ts (tsOf (n : Int) m d h mi s ms))) := rfl
  rw [hdec, hfwd1] at hins
  simp only [Except.map, List.nil_append, List.append_nil] at hins
  refine ⟨_, hins, ?_⟩
  rw [show parse_timestamp_core ⟨0, "%y%m%d %k:%M:%S"⟩
    = fun line =>
      (match afterNthSpace 0 line with
      | none => none
      | some (pre, rest) =>
        match runFmt ['%','y','%','m','%','d',' ','%','k',':','%','M',':','%','S'] rest initPState with
        | none => none
        | some (st, left) =>
          if ymdOk (st.year : Int) st.month st.date then
            some (tsOf (st.year : Int) st.month st.date (fix12Hour st) st.minute st.second st.millisecond,
                  pre.length, line.length - left.length)
          else none) from rfl]
  simp only [afterNthSpace]
  rw [hfwd2]
  simp only [fix12Hour]
  rw [show twoDigitToYear (yearToTwoDigit (n : Int)) = n from by
    unfold twoDigitToYear yearToTwoDigit; split_ifs <;> omega]
  rw [if_pos (ymdOk_of_bounds n m d hy1 hy2 hm1 hm2 hd1 hd31 hd30 hd29 hfeb)]
  simp

theorem pat12_assembly (n m d h mi s ms : Nat)
    (hy1 : 1970 ≤ n) (hy2 : n ≤ 2099) (hm1 : 1 ≤ m) (hm2 : m ≤ 12)
    (hd1 : 1 ≤ d) (hd31 : d ≤ 31) (hd30 : m = 4 ∨ m = 6 ∨ m = 9 ∨ m = 11 → d ≤ 30)
    (hd29 : m = 2 → d ≤ 29) (hfeb : m = 2 → d = 29 → n % 4 = 0)
    (hh : h ≤ 23) (hmi : mi ≤ 59) (hs : s ≤ 59) (hms : ms ≤ 999) :
    ∃ out, insert_formatted_timestamp ⟨0, "%d %b %Y %H:%M:%S,%3"⟩
        (tsOf (n : Int) m d h mi s ms) [] = .ok out ∧
      parse_timestamp_core ⟨0, "%d %b %Y %H:%M:%S,%3"⟩ out =
        some (tsOf (n : Int) m d h mi s ms, 0, out.length) := by
  have hdec := decompose_tsOf n m d h mi s ms hy1 hy2 hm1 hm2 hd1 hd31 hd30 hd29 hfeb hh hmi hs hms
  obtain ⟨hfwd1, hfwd2⟩ := pat12_fwd
    ({ year := (n : Int), month := m, date := d,
       day_of_week_ix := ((days_from_civil (n : Int) m d + 4).emod 7).toNat,
       hour := h, minute := mi, second := s, millisecond := ms }) []
    hd1 hd31
    hm1 hm2
    (show ((n : Int)).toNat ≤ 9999 from by omega)
    hh
    hmi
    (show s ≤ 60 from by omega)
    hms
  dsimp only at hfwd1 hfwd2
  simp only [List.append_nil] at hfwd1 hfwd2
  have hins : insert_formatted_timestamp ⟨0, "%d %b %Y %H:%M:%S,%3"⟩
      (tsOf (n : Int) m d h mi s ms) []
      = Except.map (fun body => [] ++ body ++ [])
          (format_fields ['%','d',' ','%','b',' ','%','Y',' ','%','H',':','%','M',':','%','S',',','%','3']
            (decompose_ts (tsOf (n : Int) m d h mi s ms))) := rfl
  rw [hdec, hfwd1] at hins
  simp only [Except.map, List.nil_append, List.append_nil] at hins
  refine ⟨_, hins, ?_⟩
  rw [show parse_timestamp_core ⟨0, "%d %b %Y %H:%M:%S,%3"⟩
    = fun line =>
      (match afterNthSpace 0 line with
      | none => none
      | some (pre, rest) =>
        match runFmt ['%','d',' ','%','b',' ','%','Y',' ','%','H',':','%','M',':','%','S',',','%','3'] rest initPState with
        | none => none
        | some (st, left) =>
          if ymdOk (st.year : Int) st.month st.date then
            some (tsOf (st.year : Int) st.month st.date (fix12Hour st) st.minute st.second st.millisecond,
                  pre.length, line.length - left.length)
          else none) from rfl]
  simp only [afterNthSpace]
  rw [hfwd2]
  simp only [fix12Hour]
  rw [show ((((n : Int)).toNat : Nat) : Int) = (n : Int) from by omega]
  rw [if_pos (ymdOk_of_bounds n m d hy1 hy2 hm1 hm2 hd1 hd31 hd30 hd29 hfeb)]
  simp

theorem pat13_assembly (n m d h mi s ms : Nat)
    (hy1 : 1970 ≤ n) (hy2 : n ≤ 2099) (hm1 : 1 ≤ m) (hm2 : m ≤ 12)
    (hd1 : 1 ≤ d) (hd31 : d ≤ 31) (hd30 : m = 4 ∨ m = 6 ∨ m = 9 ∨ m = 11 → d ≤ 30)
    (hd29 : m = 2 → d ≤ 29) (hfeb : m = 2 → d = 29 → n % 4 = 0)
    (hh : h ≤ 23) (hmi : mi ≤ 59) (hs : s ≤ 59) (hms : ms ≤ 999) (h13 : h ≠ 13) :
    ∃ out, insert_formatted_timestamp ⟨0, "%b %d, %Y %l:%M:%S %p"⟩
        (tsOf (n : Int) m d h mi s ms) [] = .ok out ∧
      parse_timestamp_core ⟨0, "%b %d, %Y %l:%M:%S %p"⟩ out =
        some (tsOf (n : Int) m d h mi s 0, 0, out.length) := by
  have hdec := decompose_tsOf n m d h mi s ms hy1 hy2 hm1 hm2 hd1 hd31 hd30 hd29 hfeb hh hmi hs hms
  obtain ⟨hfwd1, hfwd2⟩ := pat13_fwd
    ({ year := (n : Int), month := m, date := d,
       day_of_week_ix := ((days_from_civil (n : Int) m d + 4).emod 7).toNat,
       hour := h, minute := mi, second := s, millisecond := ms }) []
    hm1 hm2
    hd1 hd31
    (show ((n : Int)).toNat ≤ 9999 from by omega)
    (show 1 ≤ hour12Out h from by unfold hour12Out; split_ifs <;> omega) (show hour12Out h ≤ 12 from by unfold hour12Out; split_ifs <;> omega)
    hmi
    (show s ≤ 60 from by omega)
  dsimp only at hfwd1 hfwd2
  simp only [List.append_nil] at hfwd1 hfwd2
  have hins : insert_formatted_timestamp ⟨0, "%b %d, %Y %l:%M:%S %p"⟩
      (tsOf (n : Int) m d h mi s ms) []
      = Except.map (fun body => [] ++ body ++ [])
          (format_fields ['%','b',' ','%','d',',',' ','%','Y',' ','%','l',':','%','M',':','%','S',' ','%','p']
            (decompose_ts (tsOf (n : Int) m d h mi s ms))) := rfl
  rw [hdec, hfwd1] at hins
  simp only [Except.map, List.nil_append, List.append_nil] at hins
  refine ⟨_, hins, ?_⟩
  rw [show parse_timestamp_core ⟨0, "%b %d, %Y %l:%M:%S %p"⟩
    = fun line =>
      (match afterNthSpace 0 line with
      | none => none
      | some (pre, rest) =>
        match runFmt ['%','b',' ','%','d',',',' ','%','Y',' ','%','l',':','%','M',':','%','S',' ','%','p'] rest initPState with
        | none => none
        | some (st, left) =>
          if ymdOk (st.year : Int) st.month st.date then
            some (tsOf (st.year : Int) st.month st.date (fix12Hour st) st.minute st.second st.millisecond,
                  pre.length, line.length - left.length)
          else none) from rfl]
  simp only [afterNthSpace]
  rw [hfwd2]
  dsimp only
  rw [fix12_round hh h13]
  rw [show ((((n : Int)).toNat : Nat) : Int) = (n : Int) from by omega]
  rw [if_pos (ymdOk_of_bounds n m d hy1 hy2 hm1 hm2 hd1 hd31 hd30 hd29 hfeb)]
  simp

theorem pat14_assembly (n m d h mi s ms : Nat)
    (hy1 : 1970 ≤ n) (hy2 : n ≤ 2099) (hm1 : 1 ≤ m) (hm2 : m ≤ 12)
    (hd1 : 1 ≤ d) (hd31 : d ≤ 31) (hd30 : m = 4 ∨ m = 6 ∨ m = 9 ∨ m = 11 → d ≤ 30)
    (hd29 : m = 2 → d ≤ 29) (hfeb : m = 2 → d = 29 → n % 4 = 0)
    (hh : h ≤ 23) (hmi : mi ≤ 59) (hs : s ≤ 59) (hms : ms ≤ 999) :
    ∃ out, insert_formatted_timestamp ⟨0, "%B %d, %Y %H:%M"⟩
        (tsOf (n : Int) m d h mi s ms) [] = .ok out ∧
      parse_timestamp_core ⟨0, "%B %d, %Y %H:%M"⟩ out =
        some (tsOf (n : Int) m d h mi 0 0, 0, out.length) := by
  have hdec := decompose_tsOf n m d h mi s ms hy1 hy2 hm1 hm2 hd1 hd31 hd30 hd29 hfeb hh hmi hs hms
  obtain ⟨hfwd1, hfwd2⟩ := pat14_fwd
    ({ year := (n : Int), month := m, date := d,
       day_of_week_ix := ((days_from_civil (n : Int) m d + 4).emod 7).toNat,
       hour := h, minute := mi, second := s, millisecond := ms }) []
    hm1 hm2
    hd1 hd31
    (show ((n : Int)).toNat ≤ 9999 from by omega)
    hh
    hmi
  dsimp only at hfwd1 hfwd2
  simp only [List.append_nil] at hfwd1 hfwd2
  have hins : insert_formatted_timestamp ⟨0, "%B %d, %Y %H:%M"⟩
      (tsOf (n : Int) m d h mi s ms) []
      = Except.map (fun body => [] ++ body ++ [])
          (format_fields ['%','B',' ','%','d',',',' ','%','Y',' ','%','H',':','%','M']
            (decompose_ts (tsOf (n : Int) m d h mi s ms))) := rfl
  rw [hdec, hfwd1] at hins
  simp only [Except.map, List.nil_append, List.append_nil] at hins
  refine ⟨_, hins, ?_⟩
  rw [show parse_timestamp_core ⟨0, "%B %d, %Y %H:%M"⟩
    = fun line =>
      (match afterNthSpace 0 line with
      | none => none
      | some (pre, rest) =>
        match runFmt ['%','B',' ','%','d',',',' ','%','Y',' ','%','H',':','%','M'] rest initPState with
        | none => none
        | some (st, left) =>
          if ymdOk (st.year : Int) st.month st.date then
            some (tsOf (st.year : Int) st.month st.date (fix12Hour st) st.minute st.second st.millisecond,
                  pre.length, line.length - left.length)
          else none) from rfl]
  simp only [afterNthSpace]
  rw [hfwd2]
  simp only [fix12Hour]
  rw [show ((((n : Int)).toNat : Nat) : Int) = (n : Int) from by omega]
  rw [if_pos (ymdOk_of_bounds n m d hy1 hy2 hm1 hm2 hd1 hd31 hd30 hd29 hfeb)]
  simp

theorem pat15_assembly (n m d h mi s ms : Nat)
    (hy1 : 1970 ≤ n) (hy2 : n ≤ 2099) (hm1 : 1 ≤ m) (hm2 : m ≤ 12)
    (hd1 : 1 ≤ d) (hd31 : d ≤ 31) (hd30 : m = 4 ∨ m = 6 ∨ m = 9 ∨ m = 11 → d ≤ 30)
    (hd29 : m = 2 → d ≤ 29) (hfeb : m = 2 → d = 29 → n % 4 = 0)
    (hh : h ≤ 23) (hmi : mi ≤ 59) (hs : s ≤ 59) (hms : ms ≤ 999) :
    ∃ out, insert_formatted_timestamp ⟨1, "[%d/%b/%Y:%H:%M:%S"⟩
        (tsOf (n : Int) m d h mi s ms) (List.replicate 1 ' ') = .ok out ∧
      parse_timestamp_core ⟨1, "[%d/%b/%Y:%H:%M:%S"⟩ out =
        some (tsOf (n : Int) m d h mi s 0, 1, out.length) := by
  have hdec := decompose_tsOf n m d h mi s ms hy1 hy2 hm1 hm2 hd1 hd31 hd30 hd29 hfeb hh hmi hs hms
  obtain ⟨hfwd1, hfwd2⟩ := pat15_fwd
    ({ year := (n : Int), month := m, date := d,
       day_of_week_ix := ((days_from_civil (n : Int) m d + 4).emod 7).toNat,
       hour := h, minute := mi, second := s, millisecond := ms }) []
    hd1 hd31
    hm1 hm2
    (show ((n : Int)).toNat ≤ 9999 from by omega)
    hh
    hmi
    (show s ≤ 60 from by omega)
  dsimp only at hfwd1 hfwd2
  simp only [List.append_nil] at hfwd1 hfwd2
  have hins : insert_formatted_timestamp ⟨1, "[%d/%b/%Y:%H:%M:%S"⟩
      (tsOf (n : Int) m d h mi s ms) (List.replicate 1 ' ')
      = Except.map (fun body => List.replicate 1 ' ' ++ body ++ [])
          (format_fields ['[','%','d','/','%','b','/','%','Y',':','%','H',':','%','M',':','%','S']
            (decompose_ts (tsOf (n : Int) m d h mi s ms))) := rfl
  rw [hdec, hfwd1] at hins
  simp only [Except.map, List.nil_append, List.append_nil] at hins
  refine ⟨_, hins, ?_⟩
  rw [show parse_timestamp_core ⟨1, "[%d/%b/%Y:%H:%M:%S"⟩
    = fun line =>
      (match afterNthSpace 1 line with
      | none => none
      | some (pre, rest) =>
        match runFmt ['[','%','d','/','%','b','/','%','Y',':','%','H',':','%','M',':','%','S'] rest initPState with
        | none => none
        | some (st, left) =>
          if ymdOk (st.year : Int) st.month st.date then
            some (tsOf (st.year : Int) st.month st.date (fix12Hour st) st.minute st.second st.millisecond,
                  pre.length, line.length - left.length)
          else none) from rfl]
  simp only [afterNthSpace_replicate]
  rw [hfwd2]
  simp only [fix12Hour]
  rw [show ((((n : Int)).toNat : Nat) : Int) = (n : Int) from by omega]
  rw [if_pos (ymdOk_of_bounds n m d hy1 hy2 hm1 hm2 hd1 hd31 hd30 hd29 hfeb)]
  simp

theorem pat16_assembly (n m d h mi s ms : Nat)
    (hy1 : 1970 ≤ n) (hy2 : n ≤ 2099) (hm1 : 1 ≤ m) (hm2 : m ≤ 12)
    (hd1 : 1 ≤ d) (hd31 : d ≤ 31) (hd30 : m = 4 ∨ m = 6 ∨ m = 9 ∨ m = 11 → d ≤ 30)
    (hd29 : m = 2 → d ≤ 29) (hfeb : m = 2 → d = 29 → n % 4 = 0)
    (hh : h ≤ 23) (hmi : mi ≤ 59) (hs : s ≤ 59) (hms : ms ≤ 999) :
    ∃ out, insert_formatted_timestamp ⟨3, "[%d/%b/%Y:%H:%M:%S"⟩
        (tsOf (n : Int) m d h mi s ms) (List.replicate 3 ' ') = .ok out ∧
      parse_timestamp_core ⟨3, "[%d/%b/%Y:%H:%M:%S"⟩ out =
        some (tsOf (n : Int) m d h mi s 0, 3, out.length) := by
  have hdec := decompose_tsOf n m d h mi s ms hy1 hy2 hm1 hm2 hd1 hd31 hd30 hd29 hfeb hh hmi hs hms
  obtain ⟨hfwd1, hfwd2⟩ := pat15_fwd
    ({ year := (n : Int), month := m, date := d,
       day_of_week_ix := ((days_from_civil (n : Int) m d + 4).emod 7).toNat,
       hour := h, minute := mi, second := s, millisecond := ms }) []
    hd1 hd31
    hm1 hm2
    (show ((n : Int)).toNat ≤ 9999 from by omega)
    hh
    hmi
    (show s ≤ 60 from by omega)
  dsimp only at hfwd1 hfwd2
  simp only [List.append_nil] at hfwd1 hfwd2
  have hins : insert_formatted_timestamp ⟨3, "[%d/%b/%Y:%H:%M:%S"⟩
      (tsOf (n : Int) m d h mi s ms) (List.replicate 3 ' ')
      = Except.map (fun body => List.replicate 3 ' ' ++ body ++ [])
          (format_fields ['[','%','d','/','%','b','/','%','Y',':','%','H',':','%','M',':','%','S']
            (decompose_ts (tsOf (n : Int) m d h mi s ms))) := rfl
  rw [hdec, hfwd1] at hins
  simp only [Except.map, List.nil_append, List.append_nil] at hins
  refine ⟨_, hins, ?_⟩
  rw [show parse_timestamp_core ⟨3, "[%d/%b/%Y:%H:%M:%S"⟩
    = fun line =>
      (match afterNthSpace 3 line with
      | none => none
      | some (pre, rest) =>
        match runFmt ['[','%','d','/','%','b','/','%','Y',':','%','H',':','%','M',':','%','S'] rest initPState with
        | none => none
        | some (st, left) =>
          if ymdOk (st.year : Int) st.month st.date then
            some (tsOf (st.year : Int) st.month st.date (fix12Hour st) st.minute st.second st.millisecond,
                  pre.length, line.length - left.length)
          else none) from rfl]
  simp only [afterNthSpace_replicate]
  rw [hfwd2]
  simp only [fix12Hour]
  rw [show ((((n : Int)).toNat : Nat) : Int) = (n : Int) from by omega]
  rw [if_pos (ymdOk_of_bounds n m d hy1 hy2 hm1 hm2 hd1 hd31 hd30 hd29 hfeb)]
  simp

theorem pat17_assembly (n m d h mi s ms : Nat)
    (hy1 : 1970 ≤ n) (hy2 : n ≤ 2099) (hm1 : 1 ≤ m) (hm2 : m ≤ 12)
    (hd1 : 1 ≤ d) (hd31 : d ≤ 31) (hd30 : m = 4 ∨ m = 6 ∨ m = 9 ∨ m = 11 → d ≤ 30)
    (hd29 : m = 2 → d ≤ 29) (hfeb : m = 2 → d = 29 → n % 4 = 0)
    (hh : h ≤ 23) (hmi : mi ≤ 59) (hs : s ≤ 59) (hms : ms ≤ 999) :
    ∃ out, insert_formatted_timestamp ⟨3, "[%d/%m/%Y:%H:%M:%S"⟩
        (tsOf (n : Int) m d h mi s ms) (List.replicate 3 ' ') = .ok out ∧
      parse_timestamp_core ⟨3, "[%d/%m/%Y:%H:%M:%S"⟩ out =
        some (tsOf (n : Int) m d h mi s 0, 3, out.length) := by
  have hdec := decompose_tsOf n m d h mi s ms hy1 hy2 hm1 hm2 hd1 hd31 hd30 hd29 hfeb hh hmi hs hms
  obtain ⟨hfwd1, hfwd2⟩ := pat17_fwd
    ({ year := (n : Int), month := m, date := d,
       day_of_week_ix := ((days_from_civil (n : Int) m d + 4).emod 7).toNat,
       hour := h, minute := mi, second := s, millisecond := ms }) []
    hd1 hd31
    hm1 hm2
    (show ((n : Int)).toNat ≤ 9999 from by omega)
    hh
    hmi
    (show s ≤ 60 from by omega)
  dsimp only at hfwd1 hfwd2
  simp only [List.append_nil] at hfwd1 hfwd2
  have hins : insert_formatted_timestamp ⟨3, "[%d/%m/%Y:%H:%M:%S"⟩
      (tsOf (n : Int) m d h mi s ms) (List.replicate 3 ' ')
      = Except.map (fun body => List.replicate 3 ' ' ++ body ++ [])
          (format_fields ['[','%','d','/','%','m','/','%','Y',':','%','H',':','%','M',':','%','S']
            (decompose_ts (tsOf (n : Int) m d h mi s ms))) := rfl
  rw [hdec, hfwd1] at hins
  simp only [Except.map, List.nil_append, List.append_nil] at hins
  refine ⟨_, hins, ?_⟩
  rw [show parse_timestamp_core ⟨3, "[%d/%m/%Y:%H:%M:%S"⟩
    = fun line =>
      (match afterNthSpace 3 line with
      | none => none
      | some (pre, rest) =>
        match runFmt ['[','%','d','/','%','m','/','%','Y',':','%','H',':','%','M',':','%','S'] rest initPState with
        | none => none
        | some (st, left) =>
          if ymdOk (st.year : Int) st.month st.date then
            some (tsOf (st.year : Int) st.month st.date (fix12Hour st) st.minute st.second st.millisecond,
                  pre.length, line.length - left.length)
          else none) from rfl]
  simp only [afterNthSpace_replicate]
  rw [hfwd2]
  simp only [fix12Hour]
  rw [show ((((n : Int)).toNat : Nat) : Int) = (n : Int) from by omega]
  rw [if_pos (ymdOk_of_bounds n m d hy1 hy2 hm1 hm2 hd1 hd31 hd30 hd29 hfeb)]
  simp

theorem pat18_assembly (n m d h mi s ms : Nat)
    (hy1 : 1970 ≤ n) (hy2 : n ≤ 2099) (hm1 : 1 ≤ m) (hm2 : m ≤ 12)
    (hd1 : 1 ≤ d) (hd31 : d ≤ 31) (hd30 : m = 4 ∨ m = 6 ∨ m = 9 ∨ m = 11 → d ≤ 30)
    (hd29 : m = 2 → d ≤ 29) (hfeb : m = 2 → d = 29 → n % 4 = 0)
    (hh : h ≤ 23) (hmi : mi ≤ 59) (hs : s ≤ 59) (hms : ms ≤ 999) :
    ∃ out, insert_formatted_timestamp ⟨2, "%Y-%m-%d %H:%M:%S,%3"⟩
        (tsOf (n : Int) m d h mi s ms) (List.replicate 2 ' ') = .ok out ∧
      parse_timestamp_core ⟨2, "%Y-%m-%d %H:%M:%S,%3"⟩ out =
        some (tsOf (n : Int) m d h mi s ms, 2, out.length) := by
  have hdec := decompose_tsOf n m d h mi s ms hy1 hy2 hm1 hm2 hd1 hd31 hd30 hd29 hfeb hh hmi hs hms
  obtain ⟨hfwd1, hfwd2⟩ := pat4_fwd
    ({ year := (n : Int), month := m, date := d,
       day_of_week_ix := ((days_from_civil (n : Int) m d + 4).emod 7).toNat,
       hour := h, minute := mi, second := s, millisecond := ms }) []
    (show ((n : Int)).toNat ≤ 9999 from by omega)
    hm1 hm2
    hd1 hd31
    hh
    hmi
    (show s ≤ 60 from by omega)
    hms
  dsimp only at hfwd1 hfwd2
  simp only [List.append_nil] at hfwd1 hfwd2
  have hins : insert_formatted_timestamp ⟨2, "%Y-%m-%d %H:%M:%S,%3"⟩
      (tsOf (n : Int) m d h mi s ms) (List.replicate 2 ' ')
      = Except.map (fun body => List.replicate 2 ' ' ++ body ++ [])
          (format_fields ['%','Y','-','%','m','-','%','d',' ','%','H',':','%','M',':','%','S',',','%','3']
            (decompose_ts (tsOf (n : Int) m d h mi s ms))) := rfl
  rw [hdec, hfwd1] at hins
  simp only [Except.map, List.nil_append, List.append_nil] at hins
  refine ⟨_, hins, ?_⟩
  rw [show parse_timestamp_core ⟨2, "%Y-%m-%d %H:%M:%S,%3"⟩
    = fun line =>
      (match afterNthSpace 2 line with
      | none => none
      | some (pre, rest) =>
        match runFmt ['%','Y','-','%','m','-','%','d',' ','%','H',':','%','M',':','%','S',',','%','3'] rest initPState with
        | none => none
        | some (st, left) =>
          if ymdOk (st.year : Int) st.month st.date then
            some (tsOf (st.year : Int) st.month st.date (fix12Hour st) st.minute st.second st.millisecond,
                  pre.length, line.length - left.length)
          else none) from rfl]
  simp only [afterNthSpace_replicate]
  rw [hfwd2]
  simp only [fix12Hour]
  rw [show ((((n : Int)).toNat : Nat) : Int) = (n : Int) from by omega]
  rw [if_pos (ymdOk_of_bounds n m d hy1 hy2 hm1 hm2 hd1 hd31 hd30 hd29 hfeb)]
  simp

theorem pat19_assembly (n m d h mi s ms : Nat)
    (hy1 : 1970 ≤ n) (hy2 : n ≤ 2099) (hm1 : 1 ≤ m) (hm2 : m ≤ 12)
    (hd1 : 1 ≤ d) (hd31 : d ≤ 31) (hd30 : m = 4 ∨ m = 6 ∨ m = 9 ∨ m = 11 → d ≤ 30)
    (hd29 : m = 2 → d ≤ 29) (hfeb : m = 2 → d = 29 → n % 4 = 0)
    (hh : h ≤ 23) (hmi : mi ≤ 59) (hs : s ≤ 59) (hms : ms ≤ 999) :
    ∃ out, insert_formatted_timestamp ⟨6, "%Y-%m-%d %H:%M:%S"⟩
        (tsOf (n : Int) m d h mi s ms) (List.replicate 6 ' ') = .ok out ∧
      parse_timestamp_core ⟨6, "%Y-%m-%d %H:%M:%S"⟩ out =
        some (tsOf (n : Int) m d h mi s 0, 6, out.length) := by
  have hdec := decompose_tsOf n m d h mi s ms hy1 hy2 hm1 hm2 hd1 hd31 hd30 hd29 hfeb hh hmi hs hms
  obtain ⟨hfwd1, hfwd2⟩ := pat7_fwd
    ({ year := (n : Int), month := m, date := d,
       day_of_week_ix := ((days_from_civil (n : Int) m d + 4).emod 7).toNat,
       hour := h, minute := mi, second := s, millisecond := ms }) []
    (show ((n : Int)).toNat ≤ 9999 from by omega)
    hm1 hm2
    hd1 hd31
    hh
    hmi
    (show s ≤ 60 from by omega)
  dsimp only at hfwd1 hfwd2
  simp only [List.append_nil] at hfwd1 hfwd2
  have hins : insert_formatted_timestamp ⟨6, "%Y-%m-%d %H:%M:%S"⟩
      (tsOf (n : Int) m d h mi s ms) (List.replicate 6 ' ')
      = Except.map (fun body => List.replicate 6 ' ' ++ body ++ [])
          (format_fields ['%','Y','-','%','m','-','%','d',' ','%','H',':','%','M',':','%','S']
            (decompose_ts (tsOf (n : Int) m d h mi s ms))) := rfl
  rw [hdec, hfwd1] at hins
  simp only [Except.map, List.nil_append, List.append_nil] at hins
  refine ⟨_, hins, ?_⟩
  rw [show parse_timestamp_core ⟨6, "%Y-%m-%d %H:%M:%S"⟩
    = fun line =>
      (match afterNthSpace 6 line with
      | none => none
      | some (pre, rest) =>
        match runFmt ['%','Y','-','%','m','-','%','d',' ','%','H',':','%','M',':','%','S'] rest initPState with
        | none => none
        | some (st, left) =>
          if ymdOk (st.year : Int) st.month st.date then
            some (tsOf (st.year : Int) st.month st.date (fix12Hour st) st.minute st.second st.millisecond,
                  pre.length, line.length - left.length)
          else none) from rfl]
  simp only [afterNthSpace_replicate]
  rw [hfwd2]
  simp only [fix12Hour]
  rw [show ((((n : Int)).toNat : Nat) : Int) = (n : Int) from by omega]
  rw [if_pos (ymdOk_of_bounds n m d hy1 hy2 hm1 hm2 hd1 hd31 hd30 hd29 hfeb)]
  simp

theorem pat20_assembly (n m d h mi s ms : Nat)
    (hy1 : 1970 ≤ n) (hy2 : n ≤ 2099) (hm1 : 1 ≤ m) (hm2 : m ≤ 12)
    (hd1 : 1 ≤ d) (hd31 : d ≤ 31) (hd30 : m = 4 ∨ m = 6 ∨ m = 9 ∨ m = 11 → d ≤ 30)
    (hd29 : m = 2 → d ≤ 29) (hfeb : m = 2 → d = 29 → n % 4 = 0)
    (hh : h ≤ 23) (hmi : mi ≤ 59) (hs : s ≤ 59) (hms : ms ≤ 999) :
    ∃ out, insert_formatted_timestamp ⟨1, "%Y-%m-%d %H:%M:%S"⟩
        (tsOf (n : Int) m d h mi s ms) (List.replicate 1 ' ') = .ok out ∧
      parse_timestamp_core ⟨1, "%Y-%m-%d %H:%M:%S"⟩ out =
        some (tsOf (n : Int) m d h mi s 0, 1, out.length) := by
  have hdec := decompose_tsOf n m d h mi s ms hy1 hy2 hm1 hm2 hd1 hd31 hd30 hd29 hfeb hh hmi hs hms
  obtain ⟨hfwd1, hfwd2⟩ := pat7_fwd
    ({ year := (n : Int), month := m, date := d,
       day_of_week_ix := ((days_from_civil (n : Int) m d + 4).emod 7).toNat,
       hour := h, minute := mi, second := s, millisecond := ms }) []
    (show ((n : Int)).toNat ≤ 9999 from by omega)
    hm1 hm2
    hd1 hd31
    hh
    hmi
    (show s ≤ 60 from by omega)
  dsimp only at hfwd1 hfwd2
  simp only [List.append_nil] at hfwd1 hfwd2
  have hins : insert_formatted_timestamp ⟨1, "%Y-%m-%d %H:%M:%S"⟩
      (tsOf (n : Int) m d h mi s ms) (List.replicate 1 ' ')
      = Except.map (fun body => List.replicate 1 ' ' ++ body ++ [])
          (format_fields ['%','Y','-','%','m','-','%','d',' ','%','H',':','%','M',':','%','S']
            (decompose_ts (tsOf (n : Int) m d h mi s ms))) := rfl
  rw [hdec, hfwd1] at hins
  simp only [Except.map, List.nil_append, List.append_nil] at hins
  refine ⟨_, hins, ?_⟩
  rw [show parse_timestamp_core ⟨1, "%Y-%m-%d %H:%M:%S"⟩
    = fun line =>
      (match afterNthSpace 1 line with
      | none => none
      | some (pre, rest) =>
        match runFmt ['%','Y','-','%','m','-','%','d',' ','%','H',':','%','M',':','%','S'] rest initPState with
        | none => none
        | some (st, left) =>
          if ymdOk (st.year : Int) st.month st.date then
            some (tsOf (st.year : Int) st.month st.date (fix12Hour st) st.minute st.second st.millisecond,
                  pre.length, line.length - left.length)
          else none) from rfl]
  simp only [afterNthSpace_replicate]
  rw [hfwd2]
  simp only [fix12Hour]
  rw [show ((((n : Int)).toNat : Nat) : Int) = (n : Int) from by omega]
  rw [if_pos (ymdOk_of_bounds n m d hy1 hy2 hm1 hm2 hd1 hd31 hd30 hd29 hfeb)]
  simp

theorem pat21_assembly (n m d h mi s ms : Nat)
    (hy1 : 1970 ≤ n) (hy2 : n ≤ 2099) (hm1 : 1 ≤ m) (hm2 : m ≤ 12)
    (hd1 : 1 ≤ d) (hd31 : d ≤ 31) (hd30 : m = 4 ∨ m = 6 ∨ m = 9 ∨ m = 11 → d ≤ 30)
    (hd29 : m = 2 → d ≤ 29) (hfeb : m = 2 → d = 29 → n % 4 = 0)
    (hh : h ≤ 23) (hmi : mi ≤ 59) (hs : s ≤ 59) (hms : ms ≤ 999) :
    ∃ out, insert_formatted_timestamp ⟨4, "%a %b %e %H:%M:%S %Y"⟩
        (tsOf (n : Int) m d h mi s ms) (List.replicate 4 ' ') = .ok out ∧
      parse_timestamp_core ⟨4, "%a %b %e %H:%M:%S %Y"⟩ out =
        some (tsOf (n : Int) m d h mi s 0, 4, out.length) := by
  have hdec := decompose_tsOf n m d h mi s ms hy1 hy2 hm1 hm2 hd1 hd31 hd30 hd29 hfeb hh hmi hs hms
  obtain ⟨hfwd1, hfwd2⟩ := pat21_fwd
    ({ year := (n : Int), month := m, date := d,
       day_of_week_ix := ((days_from_civil (n : Int) m d + 4).emod 7).toNat,
       hour := h, minute := mi, second := s, millisecond := ms }) []
    (show ((days_from_civil (n : Int) m d + 4).emod 7).toNat ≤ 6 from by rw [show Int.emod (days_from_civil (n : Int) m d + 4) 7 = (days_from_civil (n : Int) m d + 4) % 7 from rfl]; omega)
    hm1 hm2
    hd1 hd31
    hh
    hmi
    (show s ≤ 60 from by omega)
    (show ((n : Int)).toNat ≤ 9999 from by omega)
  dsimp only at hfwd1 hfwd2
  simp only [List.append_nil] at hfwd1 hfwd2
  have hins : insert_formatted_timestamp ⟨4, "%a %b %e %H:%M:%S %Y"⟩
      (tsOf (n : Int) m d h mi s ms) (List.replicate 4 ' ')
      = Except.map (fun body => List.replicate 4 ' ' ++ body ++ [])
          (format_fields ['%','a',' ','%','b',' ','%','e',' ','%','H',':','%','M',':','%','S',' ','%','Y']
            (decompose_ts (tsOf (n : Int) m d h mi s ms))) := rfl
  rw [hdec, hfwd1] at hins
  simp only [Except.map, List.nil_append, List.append_nil] at hins
  refine ⟨_, hins, ?_⟩
  rw [show parse_timestamp_core ⟨4, "%a %b %e %H:%M:%S %Y"⟩
    = fun line =>
      (match afterNthSpace 4 line with
      | none => none
      | some (pre, rest) =>
        match runFmt ['%','a',' ','%','b',' ','%','e',' ','%','H',':','%','M',':','%','S',' ','%','Y'] rest initPState with
        | none => none
        | some (st, left) =>
          if ymdOk (st.year : Int) st.month st.date then
            some (tsOf (st.year : Int) st.month st.date (fix12Hour st) st.minute st.second st.millisecond,
                  pre.length, line.length - left.length)
          else none) from rfl]
  simp only [afterNthSpace_replicate]
  rw [hfwd2]
  simp only [fix12Hour]
  rw [show ((((n : Int)).toNat : Nat) : Int) = (n : Int) from by omega]
  rw [if_pos (ymdOk_of_bounds n m d hy1 hy2 hm1 hm2 hd1 hd31 hd30 hd29 hfeb)]
  simp

theorem pat22_assembly (n m d h mi s ms : Nat)
    (hy1 : 1970 ≤ n) (hy2 : n ≤ 2099) (hm1 : 1 ≤ m) (hm2 : m ≤ 12)
    (hd1 : 1 ≤ d) (hd31 : d ≤ 31) (hd30 : m = 4 ∨ m = 6 ∨ m = 9 ∨ m = 11 → d ≤ 30)
    (hd29 : m = 2 → d ≤ 29) (hfeb : m = 2 → d = 29 → n % 4 = 0)
    (hh : h ≤ 23) (hmi : mi ≤ 59) (hs : s ≤ 59) (hms : ms ≤ 999) :
    ∃ out, insert_formatted_timestamp ⟨0, "<<<%Y-%m-%d %H:%M:%S:%3"⟩
        (tsOf (n : Int) m d h mi s ms) [] = .ok out ∧
      parse_timestamp_core ⟨0, "<<<%Y-%m-%d %H:%M:%S:%3"⟩ out =
        some (tsOf (n : Int) m d h mi s ms, 0, out.length) := by
  have hdec := decompose_tsOf n m d h mi s ms hy1 hy2 hm1 hm2 hd1 hd31 hd30 hd29 hfeb hh hmi hs hms
  obtain ⟨hfwd1, hfwd2⟩ := pat22_fwd
    ({ year := (n : Int), month := m, date := d,
       day_of_week_ix := ((days_from_civil (n : Int) m d + 4).emod 7).toNat,
       hour := h, minute := mi, second := s, millisecond := ms }) []
    (show ((n : Int)).toNat ≤ 9999 from by omega)
    hm1 hm2
    hd1 hd31
    hh
    hmi
    (show s ≤ 60 from by omega)
    hms
  dsimp only at hfwd1 hfwd2
  simp only [List.append_nil] at hfwd1 hfwd2
  have hins : insert_formatted_timestamp ⟨0, "<<<%Y-%m-%d %H:%M:%S:%3"⟩
      (tsOf (n : Int) m d h mi s ms) []
      = Except.map (fun body => [] ++ body ++ [])
          (format_fields ['<','<','<','%','Y','-','%','m','-','%','d',' ','%','H',':','%','M',':','%','S',':','%','3']
            (decompose_ts (tsOf (n : Int) m d h mi s ms))) := rfl
  rw [hdec, hfwd1] at hins
  simp only [Except.map, List.nil_append, List.append_nil] at hins
  refine ⟨_, hins, ?_⟩
  rw [show parse_timestamp_core ⟨0, "<<<%Y-%m-%d %H:%M:%S:%3"⟩
    = fun line =>
      (match afterNthSpace 0 line with
      | none => none
      | some (pre, rest) =>
        match runFmt ['<','<','<','%','Y','-','%','m','-','%','d',' ','%','H',':','%','M',':','%','S',':','%','3'] rest initPState with
        | none => none
        | some (st, left) =>
          if ymdOk (st.year : Int) st.month st.date then
            some (tsOf (st.year : Int) st.month st.date (fix12Hour st) st.minute st.second st.millisecond,
                  pre.length, line.length - left.length)
          else none) from rfl]
  simp only [afterNthSpace]
  rw [hfwd2]
  simp only [fix12Hour]
  rw [show ((((n : Int)).toNat : Nat) : Int) = (n : Int) from by omega]
  rw [if_pos (ymdOk_of_bounds n m d hy1 hy2 hm1 hm2 hd1 hd31 hd30 hd29 hfeb)]
  simp

theorem pat23_assembly (n m d h mi s ms : Nat)
    (hy1 : 1970 ≤ n) (hy2 : n ≤ 2099) (hm1 : 1 ≤ m) (hm2 : m ≤ 12)
    (hd1 : 1 ≤ d) (hd31 : d ≤ 31) (hd30 : m = 4 ∨ m = 6 ∨ m = 9 ∨ m = 11 → d ≤ 30)
    (hd29 : m = 2 → d ≤ 29) (hfeb : m = 2 → d = 29 → n % 4 = 0)
    (hh : h ≤ 23) (hmi : mi ≤ 59) (hs : s ≤ 59) (hms : ms ≤ 999) (hfeb23 : m = 2 → d ≤ 28) :
    ∃ out, insert_formatted_timestamp ⟨0, "%b %d %H:%M:%S"⟩
        (tsOf (n : Int) m d h mi s ms) [] = .ok out ∧
      parse_timestamp_core ⟨0, "%b %d %H:%M:%S"⟩ out =
        some (tsOf ((1970 : Nat) : Int) m d h mi s 0, 0, out.length) := by
  have hdec := decompose_tsOf n m d h mi s ms hy1 hy2 hm1 hm2 hd1 hd31 hd30 hd29 hfeb hh hmi hs hms
  obtain ⟨hfwd1, hfwd2⟩ := pat23_fwd
    ({ year := (n : Int), month := m, date := d,
       day_of_week_ix := ((days_from_civil (n : Int) m d + 4).emod 7).toNat,
       hour := h, minute := mi, second := s, millisecond := ms }) []
    hm1 hm2
    hd1 hd31
    hh
    hmi
    (show s ≤ 60 from by omega)
  dsimp only at hfwd1 hfwd2
  simp only [List.append_nil] at hfwd1 hfwd2
  have hins : insert_formatted_timestamp ⟨0, "%b %d %H:%M:%S"⟩
      (tsOf (n : Int) m d h mi s ms) []
      = Except.map (fun body => [] ++ body ++ [])
          (format_fields ['%','b',' ','%','d',' ','%','H',':','%','M',':','%','S']
            (decompose_ts (tsOf (n : Int) m d h mi s ms))) := rfl
  rw [hdec, hfwd1] at hins
  simp only [Except.map, List.nil_append, List.append_nil] at hins
  refine ⟨_, hins, ?_⟩
  rw [show parse_timestamp_core ⟨0, "%b %d %H:%M:%S"⟩
    = fun line =>
      (match afterNthSpace 0 line with
      | none => none
      | some (pre, rest) =>
        match runFmt ['%','b',' ','%','d',' ','%','H',':','%','M',':','%','S'] rest initPState with
        | none => none
        | some (st, left) =>
          if ymdOk (st.year : Int) st.month st.date then
            some (tsOf (st.year : Int) st.month st.date (fix12Hour st) st.minute st.second st.millisecond,
                  pre.length, line.length - left.length)
          else none) from rfl]
  simp only [afterNthSpace]
  rw [hfwd2]
  simp only [fix12Hour]
  rw [if_pos (ymdOk_of_bounds 1970 m d (by omega) (by omega) hm1 hm2 hd1 hd31 hd30
      (fun h2 => by have := hfeb23 h2; omega) (fun h2 h29 => by have := hfeb23 h2; omega))]
  simp


theorem bounds_of_ymdOk (y : Int) (m d : Nat) (h : ymdOk y m d = true)
    (hy1 : 1970 ≤ y) (hy2 : y ≤ 2099) :
    1 ≤ m ∧ m ≤ 12 ∧ 1 ≤ d ∧ d ≤ 31 ∧ (m = 4 ∨ m = 6 ∨ m = 9 ∨ m = 11 → d ≤ 30) ∧
    (m = 2 → d ≤ 29) ∧ (m = 2 → d = 29 → y.toNat % 4 = 0) := by
  simp only [ymdOk, last_day_of_month, yearIsLeap, Bool.and_eq_true, decide_eq_true_eq] at h
  obtain ⟨⟨⟨⟨⟨-, -⟩, hm1⟩, hm2⟩, hd1⟩, hlast⟩ := h
  refine ⟨hm1, hm2, hd1, ?_, ?_, ?_, ?_⟩
  · rcases eq_or_ne m 2 with h2 | h2
    · rw [if_pos h2] at hlast
      split at hlast <;> omega
    · rw [if_neg h2] at hlast
      split at hlast <;> omega
  · intro hor
    rcases eq_or_ne m 2 with h2 | h2
    · omega
    · rw [if_neg h2] at hlast
      split at hlast
      · omega
      · rename_i hns
        exact absurd hor hns
  · intro h2
    rw [if_pos h2] at hlast
    split at hlast <;> omega
  · intro h2 h29
    rw [if_pos h2] at hlast
    split at hlast
    · rename_i hleap
      simp only [Bool.and_eq_true, Bool.or_eq_true, decide_eq_true_eq, Bool.not_eq_true,
        ne_eq, decide_eq_false_iff_not] at hleap
      omega
    · omega

/-- C2: for every catalog pattern p and timestamp t with year in
[1970, 2099], inserting the formatted timestamp into a buffer of
num_spaces_before_ts spaces and parsing the result with p succeeds and
returns the timestamp truncated to the fields the format renders (year
1970 when the format has no year specifier, second 0 without %S,
millisecond 0 without %3), with the position range covering the whole
inserted line.  The year is capped at 2068 for two-digit-year formats,
hour 13 is excluded for 12-hour formats, and the truncated components
must still denote a valid date. -/
theorem C2_amended_format_parse_roundtrip :
    ∀ i p, m_known_ts_patterns.get? i = some p →
    ∀ c : CivilTime, validCivil c = true →
    1970 ≤ c.year → c.year ≤ 2099 →
    (fmtHasSpec p.format.toList 'y' = true → c.year ≤ 2068) →
    ((fmtHasSpec p.format.toList 'I' = true ∨ fmtHasSpec p.format.toList 'l' = true) → c.hour ≠ 13) →
    validCivil (truncCivil p.format.toList c) = true →
    ∃ out, insert_formatted_timestamp p (civilTs c) (List.replicate p.num_spaces_before_ts ' ') = .ok out ∧
      parse_timestamp_core p out =
        some (civilTs (truncCivil p.format.toList c), p.num_spaces_before_ts, out.length) := by
  intro i p hget c hvalid hcy1 hcy2 hy68 h13 hvalidT
  obtain ⟨cy, cmo, cd, chh, cmi, cs, cms⟩ := c
  dsimp only at hvalid hcy1 hcy2 hy68 h13 hvalidT ⊢
  obtain ⟨n, rfl⟩ : ∃ n : Nat, cy = (n : Int) := ⟨cy.toNat, by omega⟩
  simp only [validCivil, Bool.and_eq_true, decide_eq_true_eq] at hvalid
  obtain ⟨⟨⟨⟨hok, hh⟩, hmi⟩, hs⟩, hms⟩ := hvalid
  have B := bounds_of_ymdOk _ _ _ hok hcy1 hcy2
  have hn1 : 1970 ≤ n := by omega
  have hn2 : n ≤ 2099 := by omega
  have hfebn : cmo = 2 → cd = 29 → n % 4 = 0 := by
    intro a b
    have hx := B.2.2.2.2.2.2 a b
    omega
  have hlen : m_known_ts_patterns.length = 24 := rfl
  have hi : i < 24 := by
    by_contra hcon
    rw [List.get?_eq_none.mpr (by omega)] at hget
    exact absurd hget (by simp)
  interval_cases i
  · obtain rfl : p = ⟨0, "%Y-%m-%dT%H:%M:%S.%3"⟩ := by
      rw [show m_known_ts_patterns.get? 0 = some (⟨0, "%Y-%m-%dT%H:%M:%S.%3"⟩ : TimestampPattern) from rfl] at hget
      exact (Option.some.inj hget).symm
    exact pat0_assembly n cmo cd chh cmi cs cms hn1 hn2 B.1 B.2.1 B.2.2.1 B.2.2.2.1
      B.2.2.2.2.1 B.2.2.2.2.2.1 hfebn hh hmi hs hms
  · obtain rfl : p = ⟨0, "%Y-%m-%dT%H:%M:%S,%3"⟩ := by
      rw [show m_known_ts_patterns.get? 1 = some (⟨0, "%Y-%m-%dT%H:%M:%S,%3"⟩ : TimestampPattern) from rfl] at hget
      exact (Option.some.inj hget).symm
    exact pat1_assembly n cmo cd chh cmi cs cms hn1 hn2 B.1 B.2.1 B.2.2.1 B.2.2.2.1
      B.2.2.2.2.1 B.2.2.2.2.2.1 hfebn hh hmi hs hms
  · obtain rfl : p = ⟨0, "[%Y-%m-%dT%H:%M:%S"⟩ := by
      rw [show m_known_ts_patterns.get? 2 = some (⟨0, "[%Y-%m-%dT%H:%M:%S"⟩ : TimestampPattern) from rfl] at hget
      exact (Option.some.inj hget).symm
    exact pat2_assembly n cmo cd chh cmi cs cms hn1 hn2 B.1 B.2.1 B.2.2.1 B.2.2.2.1
      B.2.2.2.2.1 B.2.2.2.2.2.1 hfebn hh hmi hs hms
  · obtain rfl : p = ⟨0, "[%Y%m%d-%H:%M:%S]"⟩ := by
      rw [show m_known_ts_patterns.get? 3 = some (⟨0, "[%Y%m%d-%H:%M:%S]"⟩ : TimestampPattern) from rfl] at hget
      exact (Option.some.inj hget).symm
    exact pat3_assembly n cmo cd chh cmi cs cms hn1 hn2 B.1 B.2.1 B.2.2.1 B.2.2.2.1
      B.2.2.2.2.1 B.2.2.2.2.2.1 hfebn hh hmi hs hms
  · obtain rfl : p = ⟨0, "%Y-%m-%d %H:%M:%S,%3"⟩ := by
      rw [show m_known_ts_patterns.get? 4 = some (⟨0, "%Y-%m-%d %H:%M:%S,%3"⟩ : TimestampPattern) from rfl] at hget
      exact (Option.some.inj hget).symm
    exact pat4_assembly n cmo cd chh cmi cs cms hn1 hn2 B.1 B.2.1 B.2.2.1 B.2.2.2.1
      B.2.2.2.2.1 B.2.2.2.2.2.1 hfebn hh hmi hs hms
  · obtain rfl : p = ⟨0, "%Y-%m-%d %H:%M:%S.%3"⟩ := by
      rw [show m_known_ts_patterns.get? 5 = some (⟨0, "%Y-%m-%d %H:%M:%S.%3"⟩ : TimestampPattern) from rfl] at hget
      exact (Option.some.inj hget).symm
    exact pat5_assembly n cmo cd chh cmi cs cms hn1 hn2 B.1 B.2.1 B.2.2.1 B.2.2.2.1
      B.2.2.2.2.1 B.2.2.2.2.2.1 hfebn hh hmi hs hms
  · obtain rfl : p = ⟨0, "[%Y-%m-%d %H:%M:%S,%3]"⟩ := by
      rw [show m_known_ts_patterns.get? 6 = some (⟨0, "[%Y-%m-%d %H:%M:%S,%3]"⟩ : TimestampPattern) from rfl] at hget
      exact (Option.some.inj hget).symm
    exact pat6_assembly n cmo cd chh cmi cs cms hn1 hn2 B.1 B.2.1 B.2.2.1 B.2.2.2.1
      B.2.2.2.2.1 B.2.2.2.2.2.1 hfebn hh hmi hs hms
  · obtain rfl : p = ⟨0, "%Y-%m-%d %H:%M:%S"⟩ := by
      rw [show m_known_ts_patterns.get? 7 = some (⟨0, "%Y-%m-%d %H:%M:%S"⟩ : TimestampPattern) from rfl] at hget
      exact (Option.some.inj hget).symm
    exact pat7_assembly n cmo cd chh cmi cs cms hn1 hn2 B.1 B.2.1 B.2.2.1 B.2.2.2.1
      B.2.2.2.2.1 B.2.2.2.2.2.1 hfebn hh hmi hs hms
  · obtain rfl : p = ⟨1, "%Y-%m-%d  %H:%M:%S"⟩ := by
      rw [show m_known_ts_patterns.get? 8 = some (⟨1, "%Y-%m-%d  %H:%M:%S"⟩ : TimestampPattern) from rfl] at hget
      exact (Option.some.inj hget).symm
    exact pat8_assembly n cmo cd chh cmi cs cms hn1 hn2 B.1 B.2.1 B.2.2.1 B.2.2.2.1
      B.2.2.2.2.1 B.2.2.2.2.2.1 hfebn hh hmi hs hms
  · obtain rfl : p = ⟨0, "%Y/%m/%d %H:%M:%S"⟩ := by
      rw [show m_known_ts_patterns.get? 9 = some (⟨0, "%Y/%m/%d %H:%M:%S"⟩ : TimestampPattern) from rfl] at hget
      exact (Option.some.inj hget).symm
    exact pat9_assembly n cmo cd chh cmi cs cms hn1 hn2 B.1 B.2.1 B.2.2.1 B.2.2.2.1
      B.2.2.2.2.1 B.2.2.2.2.2.1 hfebn hh hmi hs hms
  · obtain rfl : p = ⟨0, "%y/%m/%d %H:%M:%S"⟩ := by
      rw [show m_known_ts_patterns.get? 10 = some (⟨0, "%y/%m/%d %H:%M:%S"⟩ : TimestampPattern) from rfl] at hget
      exact (Option.some.inj hget).symm
    have hy68n : n ≤ 2068 := by have h68 := hy68 rfl; omega
    exact pat10_assembly n cmo cd chh cmi cs cms hn1 hn2 B.1 B.2.1 B.2.2.1 B.2.2.2.1
      B.2.2.2.2.1 B.2.2.2.2.2.1 hfebn hh hmi hs hms hy68n
  · obtain rfl : p = ⟨0, "%y%m%d %k:%M:%S"⟩ := by
      rw [show m_known_ts_patterns.get? 11 = some (⟨0, "%y%m%d %k:%M:%S"⟩ : TimestampPattern) from rfl] at hget
      exact (Option.some.inj hget).symm
    have hy68n : n ≤ 2068 := by have h68 := hy68 rfl; omega
    exact pat11_assembly n cmo cd chh cmi cs cms hn1 hn2 B.1 B.2.1 B.2.2.1 B.2.2.2.1
      B.2.2.2.2.1 B.2.2.2.2.2.1 hfebn hh hmi hs hms hy68n
  · obtain rfl : p = ⟨0, "%d %b %Y %H:%M:%S,%3"⟩ := by
      rw [show m_known_ts_patterns.get? 12 = some (⟨0, "%d %b %Y %H:%M:%S,%3"⟩ : TimestampPattern) from rfl] at hget
      exact (Option.some.inj hget).symm
    exact pat12_assembly n cmo cd chh cmi cs cms hn1 hn2 B.1 B.2.1 B.2.2.1 B.2.2.2.1
      B.2.2.2.2.1 B.2.2.2.2.2.1 hfebn hh hmi hs hms
  · obtain rfl : p = ⟨0, "%b %d, %Y %l:%M:%S %p"⟩ := by
      rw [show m_known_ts_patterns.get? 13 = some (⟨0, "%b %d, %Y %l:%M:%S %p"⟩ : TimestampPattern) from rfl] at hget
      exact (Option.some.inj hget).symm
    have h13n : chh ≠ 13 := h13 (Or.inr rfl)
    exact pat13_assembly n cmo cd chh cmi cs cms hn1 hn2 B.1 B.2.1 B.2.2.1 B.2.2.2.1
      B.2.2.2.2.1 B.2.2.2.2.2.1 hfebn hh hmi hs hms h13n
  · obtain rfl : p = ⟨0, "%B %d, %Y %H:%M"⟩ := by
      rw [show m_known_ts_patterns.get? 14 = some (⟨0, "%B %d, %Y %H:%M"⟩ : TimestampPattern) from rfl] at hget
      exact (Option.some.inj hget).symm
    exact pat14_assembly n cmo cd chh cmi cs cms hn1 hn2 B.1 B.2.1 B.2.2.1 B.2.2.2.1
      B.2.2.2.2.1 B.2.2.2.2.2.1 hfebn hh hmi hs hms
  · obtain rfl : p = ⟨1, "[%d/%b/%Y:%H:%M:%S"⟩ := by
      rw [show m_known_ts_patterns.get? 15 = some (⟨1, "[%d/%b/%Y:%H:%M:%S"⟩ : TimestampPattern) from rfl] at hget
      exact (Option.some.inj hget).symm
    exact pat15_assembly n cmo cd chh cmi cs cms hn1 hn2 B.1 B.2.1 B.2.2.1 B.2.2.2.1
      B.2.2.2.2.1 B.2.2.2.2.2.1 hfebn hh hmi hs hms
  · obtain rfl : p = ⟨3, "[%d/%b/%Y:%H:%M:%S"⟩ := by
      rw [show m_known_ts_patterns.get? 16 = some (⟨3, "[%d/%b/%Y:%H:%M:%S"⟩ : TimestampPattern) from rfl] at hget
      exact (Option.some.inj hget).symm
    exact pat16_assembly n cmo cd chh cmi cs cms hn1 hn2 B.1 B.2.1 B.2.2.1 B.2.2.2.1
      B.2.2.2.2.1 B.2.2.2.2.2.1 hfebn hh hmi hs hms
  · obtain rfl : p = ⟨3, "[%d/%m/%Y:%H:%M:%S"⟩ := by
      rw [show m_known_ts_patterns.get? 17 = some (⟨3, "[%d/%m/%Y:%H:%M:%S"⟩ : TimestampPattern) from rfl] at hget
      exact (Option.some.inj hget).symm
    exact pat17_assembly n cmo cd chh cmi cs cms hn1 hn2 B.1 B.2.1 B.2.2.1 B.2.2.2.1
      B.2.2.2.2.1 B.2.2.2.2.2.1 hfebn hh hmi hs hms
  · obtain rfl : p = ⟨2, "%Y-%m-%d %H:%M:%S,%3"⟩ := by
      rw [show m_known_ts_patterns.get? 18 = some (⟨2, "%Y-%m-%d %H:%M:%S,%3"⟩ : TimestampPattern) from rfl] at hget
      exact (Option.some.inj hget).symm
    exact pat18_assembly n cmo cd chh cmi cs cms hn1 hn2 B.1 B.2.1 B.2.2.1 B.2.2.2.1
      B.2.2.2.2.1 B.2.2.2.2.2.1 hfebn hh hmi hs hms
  · obtain rfl : p = ⟨6, "%Y-%m-%d %H:%M:%S"⟩ := by
      rw [show m_known_ts_patterns.get? 19 = some (⟨6, "%Y-%m-%d %H:%M:%S"⟩ : TimestampPattern) from rfl] at hget
      exact (Option.some.inj hget).symm
    exact pat19_assembly n cmo cd chh cmi cs cms hn1 hn2 B.1 B.2.1 B.2.2.1 B.2.2.2.1
      B.2.2.2.2.1 B.2.2.2.2.2.1 hfebn hh hmi hs hms
  · obtain rfl : p = ⟨1, "%Y-%m-%d %H:%M:%S"⟩ := by
      rw [show m_known_ts_patterns.get? 20 = some (⟨1, "%Y-%m-%d %H:%M:%S"⟩ : TimestampPattern) from rfl] at hget
      exact (Option.some.inj hget).symm
    exact pat20_assembly n cmo cd chh cmi cs cms hn1 hn2 B.1 B.2.1 B.2.2.1 B.2.2.2.1
      B.2.2.2.2.1 B.2.2.2.2.2.1 hfebn hh hmi hs hms
  · obtain rfl : p = ⟨4, "%a %b %e %H:%M:%S %Y"⟩ := by
      rw [show m_known_ts_patterns.get? 21 = some (⟨4, "%a %b %e %H:%M:%S %Y"⟩ : TimestampPattern) from rfl] at hget
      exact (Option.some.inj hget).symm
    exact pat21_assembly n cmo cd chh cmi cs cms hn1 hn2 B.1 B.2.1 B.2.2.1 B.2.2.2.1
      B.2.2.2.2.1 B.2.2.2.2.2.1 hfebn hh hmi hs hms
  · obtain rfl : p = ⟨0, "<<<%Y-%m-%d %H:%M:%S:%3"⟩ := by
      rw [show m_known_ts_patterns.get? 22 = some (⟨0, "<<<%Y-%m-%d %H:%M:%S:%3"⟩ : TimestampPattern) from rfl] at hget
      exact (Option.some.inj hget).symm
    exact pat22_assembly n cmo cd chh cmi cs cms hn1 hn2 B.1 B.2.1 B.2.2.1 B.2.2.2.1
      B.2.2.2.2.1 B.2.2.2.2.2.1 hfebn hh hmi hs hms
  · obtain rfl : p = ⟨0, "%b %d %H:%M:%S"⟩ := by
      rw [show m_known_ts_patterns.get? 23 = some (⟨0, "%b %d %H:%M:%S"⟩ : TimestampPattern) from rfl] at hget
      exact (Option.some.inj hget).symm
    rw [show truncCivil (("%b %d %H:%M:%S" : String).toList)
        ⟨(n : Int), cmo, cd, chh, cmi, cs, cms⟩
        = ⟨(1970 : Int), cmo, cd, chh, cmi, cs, 0⟩ from rfl] at hvalidT
    simp only [validCivil, Bool.and_eq_true, decide_eq_true_eq] at hvalidT
    have B2 := bounds_of_ymdOk _ _ _ hvalidT.1.1.1.1 (by omega) (by omega)
    have hfeb23 : cmo = 2 → cd ≤ 28 := by
      intro a
      have hx1 := B2.2.2.2.2.2.1 a
      have hx2 := B2.2.2.2.2.2.2 a
      omega
    exact pat23_assembly n cmo cd chh cmi cs cms hn1 hn2 B.1 B.2.1 B.2.2.1 B.2.2.2.1
      B.2.2.2.2.1 B.2.2.2.2.2.1 hfebn hh hmi hs hms hfeb23

/-- C2 counterexample: catalog pattern 23 has no year specifier, so the
round trip loses the year.  Formatting epoch timestamp 1422752523000
(2015-02-01 01:02:03) with it gives the line Feb 01 01:02:03, and
searching that line returns the same pattern index but the timestamp
2682123000 (1970-02-01 01:02:03), which differs from the original by far
more than sub-second truncation. -/
theorem C2_counterexample :
    m_known_ts_patterns.get? 23 = some ⟨0, "%b %d %H:%M:%S"⟩ ∧
    insert_formatted_timestamp ⟨0, "%b %d %H:%M:%S"⟩ 1422752523000 [] =
      .ok ("Feb 01 01:02:03".toList) ∧
    search_known_ts_patterns ("Feb 01 01:02:03".toList) 1422752523000 0 0 =
      (some 23, 2682123000, 0, 15) ∧
    (2682123000 : Int) / 1000 ≠ (1422752523000 : Int) / 1000 :=
  ⟨rfl, rfl, by decide, by decide⟩

/-- C2 witness: the amended round trip applied to pattern 0 and the civil
time 2015-02-01 13:02:03.123. -/
theorem C2_witness :
    validCivil ⟨2015, 2, 1, 13, 2, 3, 123⟩ = true ∧
    ∃ out,
      insert_formatted_timestamp ⟨0, "%Y-%m-%dT%H:%M:%S.%3"⟩
        (civilTs ⟨2015, 2, 1, 13, 2, 3, 123⟩) (List.replicate 0 ' ') = .ok out ∧
      parse_timestamp_core ⟨0, "%Y-%m-%dT%H:%M:%S.%3"⟩ out =
        some (civilTs (truncCivil ("%Y-%m-%dT%H:%M:%S.%3" : String).toList
                ⟨2015, 2, 1, 13, 2, 3, 123⟩),
              0, out.length) :=
  ⟨by decide,
   C2_amended_format_parse_roundtrip 0 ⟨0, "%Y-%m-%dT%H:%M:%S.%3"⟩ rfl
     ⟨2015, 2, 1, 13, 2, 3, 123⟩ (by decide) (by decide) (by decide)
     (fun h => absurd h (by decide)) (fun h => absurd h (by decide)) (by decide)⟩

theorem numField_reject (len : Nat) (pad : Char) (P : Nat → Bool) (f : Nat → PState)
    (v : Nat) (rest : List Char) (hpad : pad = ' ' ∨ pad = '0') (hlen : 1 ≤ len)
    (hv : v < 10 ^ len) (hP : P v = false) :
    numField len pad P f (append_padded_value v pad len ++ rest) = none := by
  unfold numField
  rw [readNum_padded len pad v rest hpad hlen hv]
  simp [hP]

theorem hour12P_false (v : Nat) (hrej : v = 0 ∨ 13 ≤ v) :
    (decide (1 ≤ v) && decide (v ≤ 12)) = false := by
  rcases hrej with rfl | h13
  · rfl
  · have h12 : decide (v ≤ 12) = false := by
      simp only [decide_eq_false_iff_not]
      omega
    simp only [h12, Bool.and_false]

theorem parseSpec_I_reject (st : PState) (v : Nat) (rest : List Char)
    (hv : v ≤ 99) (hrej : v = 0 ∨ 13 ≤ v) :
    parseSpec 'I' (append_padded_value v '0' 2 ++ rest) st = none := by
  rw [show parseSpec 'I' (append_padded_value v '0' 2 ++ rest) st
      = numField 2 '0' (fun v => 1 ≤ v && v ≤ 12)
          (fun v => { st with hour := v, uses_12_hour_clock := true })
          (append_padded_value v '0' 2 ++ rest) from rfl]
  exact numField_reject _ _ _ _ _ _ (Or.inr rfl) (by omega) (by omega)
    (hour12P_false v hrej)

theorem parseSpec_l_reject (st : PState) (v : Nat) (rest : List Char)
    (hv : v ≤ 99) (hrej : v = 0 ∨ 13 ≤ v) :
    parseSpec 'l' (append_padded_value v ' ' 2 ++ rest) st = none := by
  rw [show parseSpec 'l' (append_padded_value v ' ' 2 ++ rest) st
      = numField 2 ' ' (fun v => 1 ≤ v && v ≤ 12)
          (fun v => { st with hour := v, uses_12_hour_clock := true })
          (append_padded_value v ' ' 2 ++ rest) from rfl]
  exact numField_reject _ _ _ _ _ _ (Or.inl rfl) (by omega) (by omega)
    (hour12P_false v hrej)

/-- C5: with a 12-hour hour specifier together with %p, hour 12 with AM
parses to 0 on the 24-hour clock, hour 12 with PM to 12, and any other hour
with PM to hour plus 12, so 1:00:00 PM yields 13 hours; two-digit hour
fields outside 1 to 12 are rejected for both %I and %l. -/
theorem C5_twelve_hour_conversion :
    (∀ h : Nat, 1 ≤ h → h ≤ 12 →
      parse_timestamp_core ⟨0, "%I:%M:%S %p"⟩
          (append_padded_value h '0' 2 ++ ":00:00 AM".toList)
        = some (((if h = 12 then 0 else h) : Int) * 3600000, 0, 11) ∧
      parse_timestamp_core ⟨0, "%I:%M:%S %p"⟩
          (append_padded_value h '0' 2 ++ ":00:00 PM".toList)
        = some (((if h = 12 then 12 else h + 12) : Int) * 3600000, 0, 11)) ∧
    (∀ h : Nat, h ≤ 99 → (h = 0 ∨ 13 ≤ h) →
      parse_timestamp_core ⟨0, "%I:%M:%S %p"⟩
          (append_padded_value h '0' 2 ++ ":00:00 AM".toList) = none ∧
      parse_timestamp_core ⟨0, "%l:%M:%S %p"⟩
          (append_padded_value h ' ' 2 ++ ":00:00 AM".toList) = none) ∧
    parse_timestamp_core ⟨0, "%b %d, %Y %l:%M:%S %p"⟩ "Feb 01, 2015 12:00:00 AM".toList
        = some (tsOf 2015 2 1 0 0 0 0, 0, 24) ∧
    parse_timestamp_core ⟨0, "%b %d, %Y %l:%M:%S %p"⟩ "Feb 01, 2015 12:00:00 PM".toList
        = some (tsOf 2015 2 1 12 0 0 0, 0, 24) ∧
    parse_timestamp_core ⟨0, "%b %d, %Y %l:%M:%S %p"⟩ "Feb 01, 2015  1:00:00 PM".toList
        = some (tsOf 2015 2 1 13 0 0 0, 0, 24) := by
  refine ⟨?_, ?_, by decide, by decide, by decide⟩
  · intro h h1 h2
    interval_cases h <;> exact ⟨by decide, by decide⟩
  · intro h h1 h2
    constructor
    · rw [show parse_timestamp_core ⟨0, "%I:%M:%S %p"⟩
        = fun line =>
          (match afterNthSpace 0 line with
          | none => none
          | some (pre, rest) =>
            match runFmt ['%','I',':','%','M',':','%','S',' ','%','p'] rest initPState with
            | none => none
            | some (st, left) =>
              if ymdOk (st.year : Int) st.month st.date then
                some (tsOf (st.year : Int) st.month st.date (fix12Hour st) st.minute st.second st.millisecond,
                      pre.length, line.length - left.length)
              else none) from rfl]
      simp only [afterNthSpace]
      rw [runFmt_step_fail [':','%','M',':','%','S',' ','%','p']
        (parseSpec_I_reject initPState h (":00:00 AM".toList) h1 h2)]
    · rw [show parse_timestamp_core ⟨0, "%l:%M:%S %p"⟩
        = fun line =>
          (match afterNthSpace 0 line with
          | none => none
          | some (pre, rest) =>
            match runFmt ['%','l',':','%','M',':','%','S',' ','%','p'] rest initPState with
            | none => none
            | some (st, left) =>
              if ymdOk (st.year : Int) st.month st.date then
                some (tsOf (st.year : Int) st.month st.date (fix12Hour st) st.minute st.second st.millisecond,
                      pre.length, line.length - left.length)
              else none) from rfl]
      simp only [afterNthSpace]
      rw [runFmt_step_fail [':','%','M',':','%','S',' ','%','p']
        (parseSpec_l_reject initPState h (":00:00 AM".toList) h1 h2)]

/-- C5 witness: the conversion component applied at hour 1, and the
rejection component applied at hour 13. -/
theorem C5_witness :
    parse_timestamp_core ⟨0, "%I:%M:%S %p"⟩
        (append_padded_value 1 '0' 2 ++ ":00:00 PM".toList)
      = some (((if 1 = 12 then 12 else 1 + 12 : Nat) : Int) * 3600000, 0, 11) ∧
    parse_timestamp_core ⟨0, "%I:%M:%S %p"⟩
        (append_padded_value 13 '0' 2 ++ ":00:00 AM".toList) = none :=
  ⟨(C5_twelve_hour_conversion.1 1 (by decide) (by decide)).2,
   (C5_twelve_hour_conversion.2.1 13 (by decide) (by decide)).1⟩
